import Mathlib

/-!
# CPUMonitor: the collection-and-derivation engine of `backend/monitor.js`

A shallow embedding of `SystemMonitor.checkThresholds`, `updateThresholds`,
`collectAndStore` (rates, headline metrics, details, publication),
`startCollecting` / `stopCollecting` and of `Influx.getHistoricalData`.

Modelling conventions.
* A JavaScript number that is finite is a rational (`ℚ`), the value of the
  double.  `toDouble` is the rounding of a rational to binary64 (round to
  nearest, ties to even); an arithmetic operation of the engine is the exact
  operation followed by `toDouble`, and the literal `1.2` is `toDouble (6/5)`.
  The severity comparison of `checkThresholds` is modelled this way, and so are
  `networkRatesDouble`, `collectRatesDouble` and `collectMetricsDouble`, which
  carry the statements about a rate or a percentage that is rounded to an
  integer or to two decimals.  `networkRates`, `collectRates` and
  `collectMetrics` are the same expressions in exact arithmetic; they carry
  the statements about zero, sign, non-finite results, ranges and state
  updates.  Overflow and subnormal numbers are not modelled.  The non-finite
  results of a division (`Infinity`, `-Infinity`, `NaN`) are explicit
  constructors of `JSNum`.  Signed zero is not modelled (the only zero divisor
  below is a difference of two integer timestamps, which is `+0`).
* A property that may be `undefined` or `null` is an `Option`; `x || 0` on such
  a property is `Option.getD x 0`.
* `Date.now()` and `timestamp.getTime()` are integers of milliseconds (`ℤ`) and
  are inputs of the model.  In a run they count from 1970 and are never 0; a
  statement about the times of a run says so in a hypothesis.
* The byte counts that the library reports for memory and filesystems are
  natural numbers (`ℕ`); they are cast to `ℚ` where the code divides.
* An object used as a string-keyed map (`thresholds`, `lastAlerts`) is a
  function `String → Option _`, `none` standing for `undefined`.
* Logging and the webhook post are left out: they do not feed back into the
  state modelled here.  Socket emissions are recorded in order; the libraries
  behind the sensors, the store and the query service are parameters, and each
  of them may throw.
* `startCollecting` is split at its `await` into `startCollectingEnter` and
  `startCollectingResume`, so that a call landing in between can be written
  down; `startCollecting` itself is the two parts run back to back.
-/

namespace CPUMonitor

/-! ## Binary64 arithmetic -/

/-- The integer nearest to `x`, a tie going to the even neighbour. -/
def roundNearestEven (x : ℚ) : ℤ :=
  let f := Int.floor x
  if x - f < 1 / 2 then f
  else if 1 / 2 < x - f then f + 1
  else if f % 2 = 0 then f else f + 1

/-- The binary64 number nearest to `q` (IEEE 754 round to nearest, ties to
even): with `2 ^ e ≤ |q| < 2 ^ (e + 1)` the result is the multiple of
`2 ^ (e - 52)` nearest to `q`.  The results of `+`, `-`, `*`, `/` on finite
doubles are this rounding of the exact result, and a decimal literal denotes
this rounding of its decimal value.  The exponent is unbounded: overflow to
`Infinity` and the subnormal range are not modelled. -/
def toDouble (q : ℚ) : ℚ :=
  if q = 0 then 0
  else
    let ulp : ℚ := 2 ^ (Int.log 2 |q| - 52)
    (roundNearestEven (q / ulp) : ℚ) * ulp

/-! ## Threshold evaluation (`checkThresholds`) -/

/-- The four headline metrics read by `checkThresholds`; `none` is `null`. -/
structure Metrics where
  cpu_usage : Option ℚ
  memory_usage : Option ℚ
  disk_usage : Option ℚ
  load_average_1m : Option ℚ

/-- The alert object built by `checkThresholds` (its `message` text is a
formatting of the other fields and is left out). -/
structure Alert where
  type : String
  value : ℚ
  threshold : ℚ
  severity : String
deriving DecidableEq

/-- Previous network sample: `this.previousNetworkStats`. -/
structure NetworkStats where
  rx_bytes : ℚ
  tx_bytes : ℚ
  timestamp : ℤ
deriving DecidableEq

/-- Previous disk I/O sample: `this.previousDiskIoStats`. -/
structure DiskIoStats where
  read_ops : ℚ
  write_ops : ℚ
  timestamp : ℤ
deriving DecidableEq

/-- The part of the `SystemMonitor` instance that the engine reads and writes. -/
structure SystemMonitor where
  thresholds : String → Option ℚ
  lastAlerts : String → Option ℤ
  previousNetworkStats : Option NetworkStats
  previousDiskIoStats : Option DiskIoStats
  isCollecting : Bool := false
  collectionInterval : Option ℕ := none

/-- The state right after the constructor, for a loaded threshold set. -/
def SystemMonitor.new (thresholds : String → Option ℚ) : SystemMonitor :=
  { thresholds := thresholds
    lastAlerts := fun _ => none
    previousNetworkStats := none
    previousDiskIoStats := none }

/-- The fallback of `loadThresholds` when no `thresholds.json` is readable. -/
def defaultThresholds : String → Option ℚ := fun key =>
  if key = "cpu_usage" then some 80
  else if key = "memory_usage" then some 85
  else if key = "disk_usage" then some 80
  else if key = "network_error_rate" then some 5
  else if key = "load_average" then some 4
  else none

/-- The array `thresholdChecks`: key, value read from the metrics, unit. -/
def thresholdChecks (metrics : Metrics) : List (String × Option ℚ × String) :=
  [ ("cpu_usage", metrics.cpu_usage, "%"),
    ("memory_usage", metrics.memory_usage, "%"),
    ("disk_usage", metrics.disk_usage, "%"),
    ("load_average", metrics.load_average_1m, "") ]

/-- The suppression window `5 * 60 * 1000` in milliseconds. -/
def suppressionWindow : ℤ := 5 * 60 * 1000

/-- The test `!lastAlert || (now - lastAlert) > 5 * 60 * 1000`: an unset entry
and a recorded `0` are both falsy. -/
def suppressionElapsed (lastAlert : Option ℤ) (now : ℤ) : Bool :=
  match lastAlert with
  | none => true
  | some l => l == 0 || decide (now - l > suppressionWindow)

/-- The expression `value > threshold * 1.2 ? 'critical' : 'warning'`: the
literal `1.2` is the double nearest to 6/5, and the product is the double
product. -/
def severityOf (value threshold : ℚ) : String :=
  if value > toDouble (threshold * toDouble (6 / 5)) then "critical" else "warning"

/-- One iteration of the `forEach` body of `checkThresholds`, on the pair of
the alerts collected so far and the `lastAlerts` map. -/
def checkOne (thresholds : String → Option ℚ) (now : ℤ)
    (acc : List Alert × (String → Option ℤ)) (chk : String × Option ℚ × String) :
    List Alert × (String → Option ℤ) :=
  let key := chk.1
  match thresholds key, chk.2.1 with
  | some threshold, some value =>
    -- `threshold && value !== null && value > threshold`
    if threshold ≠ 0 ∧ value > threshold then
      if suppressionElapsed (acc.2 key) now then
        (acc.1 ++ [{ type := key, value := value, threshold := threshold,
                     severity := severityOf value threshold }],
         fun k => if k = key then some now else acc.2 k)
      else acc
    else acc
  | _, _ => acc

/-- The method `checkThresholds(metrics, timestamp)` with `now = Date.now()`:
returns the monitor with its updated `lastAlerts` and the array `alerts`. -/
def checkThresholds (m : SystemMonitor) (metrics : Metrics) (now : ℤ) :
    SystemMonitor × List Alert :=
  let r := (thresholdChecks metrics).foldl (checkOne m.thresholds now) ([], m.lastAlerts)
  ({ m with lastAlerts := r.2 }, r.1)

/-- One evaluation per collection cycle: `Date.now()` and the metrics passed. -/
structure Evaluation where
  now : ℤ
  metrics : Metrics

/-- Successive calls of `checkThresholds` on the same monitor instance: the
list of (evaluation time, alerts of that call), in call order. -/
def runEvaluations (m : SystemMonitor) : List Evaluation → List (ℤ × List Alert)
  | [] => []
  | e :: rest =>
    let r := checkThresholds m e.metrics e.now
    (e.now, r.2) :: runEvaluations r.1 rest

/-- The times of the evaluations that emitted an alert of type `key`. -/
def emissionTimes (key : String) (log : List (ℤ × List Alert)) : List ℤ :=
  (log.filter (fun entry => entry.2.any (fun a => a.type == key))).map Prod.fst

/-- Per-key reading of the `forEach` body, used to state the lemmas below: the
alert that the check of `key` produces, if any, from the configured threshold,
the value, the recorded last alert time and `now`. -/
def keyOutcome (key : String) (threshold value : Option ℚ) (lastAlert : Option ℤ)
    (now : ℤ) : Option Alert :=
  match threshold, value with
  | some t, some v =>
    if t ≠ 0 ∧ v > t then
      if suppressionElapsed lastAlert now then
        some { type := key, value := v, threshold := t, severity := severityOf v t }
      else none
    else none
  | _, _ => none

/-! ## Rate derivation (`collectAndStore`, the `rates` block) -/

/-- A JavaScript number: a finite value or one of the three non-finite ones. -/
inductive JSNum where
  | fin (q : ℚ)
  | posInf
  | negInf
  | nan
deriving DecidableEq

/-- The quotient `a / b` of two finite numbers. -/
def jsDiv (a b : ℚ) : JSNum :=
  if b ≠ 0 then JSNum.fin (a / b)
  else if a > 0 then JSNum.posInf
  else if a < 0 then JSNum.negInf
  else JSNum.nan

/-- The call `Math.max(0, x)`. -/
def mathMax0 : JSNum → JSNum
  | JSNum.fin q => JSNum.fin (max 0 q)
  | JSNum.posInf => JSNum.posInf
  | JSNum.negInf => JSNum.fin 0
  | JSNum.nan => JSNum.nan

/-- The call `Math.round(x)`: the nearest integer, halves rounded up. -/
def mathRound : JSNum → JSNum
  | JSNum.fin q => JSNum.fin (Int.floor (q + 1 / 2) : ℤ)
  | x => x

/-- The comparison `x >= 0`. -/
def JSNum.nonneg : JSNum → Prop
  | JSNum.fin q => 0 ≤ q
  | JSNum.posInf => True
  | JSNum.negInf => False
  | JSNum.nan => False

instance (x : JSNum) : Decidable x.nonneg := by
  cases x <;> unfold JSNum.nonneg <;> infer_instance

/-- One entry of `si.networkStats()`; an absent property is `none`. -/
structure NetIface where
  iface : Option String := none
  rx_bytes : Option ℚ := none
  tx_bytes : Option ℚ := none
  rx_errors : Option ℚ := none
  tx_errors : Option ℚ := none
  rx_dropped : Option ℚ := none
  tx_dropped : Option ℚ := none
deriving DecidableEq

/-- The result of `si.disksIO()`; an absent property is `none`. -/
structure DiskIo where
  rIO_sec : Option ℚ := none
  wIO_sec : Option ℚ := none
  rIO : Option ℚ := none
  wIO : Option ℚ := none
deriving DecidableEq

/-- The result of `si.currentLoad()`: the load in percent and the load
averages; an absent property is `none`. -/
structure CpuLoad where
  currentLoad : Option ℚ := none
  load_average : Option (List ℚ) := none
deriving DecidableEq

/-- The result of `si.mem()`, in bytes; an absent property is `none`. -/
structure MemReading where
  total : Option ℕ := none
  used : Option ℕ := none
  free : Option ℕ := none
  available : Option ℕ := none
deriving DecidableEq

/-- One entry of `si.fsSize()`, sizes in bytes. -/
structure FsEntry where
  mount : Option String := none
  size : Option ℕ := none
  used : Option ℕ := none
deriving DecidableEq

/-- One entry of the `list` of `si.processes()`. -/
structure Process where
  name : Option String := none
  cpu : Option ℚ := none
  mem : Option ℚ := none
  state : Option String := none
deriving DecidableEq

/-- The result of `si.processes()`. -/
structure ProcReading where
  all : Option ℕ := none
  list : Option (List Process) := none
deriving DecidableEq

/-- One entry of `si.networkConnections()`. -/
structure Connection where
  state : Option String := none
deriving DecidableEq

/-- The settled results of the sensor calls that the engine uses; `none` is a
rejected promise. -/
structure RawReading where
  netData : Option (List NetIface)
  diskIoData : Option DiskIo
  cpuData : Option CpuLoad := none
  memData : Option MemReading := none
  fsData : Option (List FsEntry) := none
  procData : Option ProcReading := none
  netConnData : Option (List Connection) := none

/-- The `rates` block of the emitted `detailedData`. -/
structure Rates where
  network_rx_rate : JSNum
  network_tx_rate : JSNum
  disk_read_rate : JSNum
  disk_write_rate : JSNum
deriving DecidableEq

/-- The method `String.prototype.includes`. -/
def includes (s sub : String) : Bool :=
  s.data.tails.any (fun t => sub.data.isPrefixOf t)

/-- The predicate `iface => iface.iface && !iface.iface.includes('lo')`. -/
def notLoopback (i : NetIface) : Bool :=
  match i.iface with
  | some name => name != "" && !includes name "lo"
  | none => false

/-- The value `network.find(...) || network[0] || {}`. -/
def primaryInterface (network : List NetIface) : NetIface :=
  match network.find? notLoopback with
  | some i => i
  | none =>
    match network.head? with
    | some i => i
    | none => {}

/-- The pair `networkRxRate`, `networkTxRate` before rounding. -/
def networkRates (previous : Option NetworkStats) (p : NetIface) (timestamp : ℤ) :
    JSNum × JSNum :=
  match previous, p.rx_bytes with
  | some prev, some _ =>
    let timeDiff : ℚ := ((timestamp - prev.timestamp : ℤ) : ℚ) / 1000
    (mathMax0 (jsDiv (p.rx_bytes.getD 0 - prev.rx_bytes) timeDiff),
     mathMax0 (jsDiv (p.tx_bytes.getD 0 - prev.tx_bytes) timeDiff))
  | _, _ => (JSNum.fin 0, JSNum.fin 0)

/-- The pair `diskReadRate`, `diskWriteRate` before rounding. -/
def diskRates (previous : Option DiskIoStats) (diskIo : DiskIo) : JSNum × JSNum :=
  match previous with
  | some _ => (JSNum.fin (diskIo.rIO_sec.getD 0), JSNum.fin (diskIo.wIO_sec.getD 0))
  | none => (JSNum.fin 0, JSNum.fin 0)

/-- The rate part of one cycle of `collectAndStore` taken at `timestamp`:
the monitor with both previous samples overwritten, and the `rates` block. -/
def collectRates (m : SystemMonitor) (raw : RawReading) (timestamp : ℤ) :
    SystemMonitor × Rates :=
  let network := raw.netData.getD []
  let diskIo := raw.diskIoData.getD { rIO_sec := some 0, wIO_sec := some 0 }
  let p := primaryInterface network
  let net := networkRates m.previousNetworkStats p timestamp
  let disk := diskRates m.previousDiskIoStats diskIo
  ({ m with
      previousNetworkStats := some
        { rx_bytes := p.rx_bytes.getD 0, tx_bytes := p.tx_bytes.getD 0,
          timestamp := timestamp }
      previousDiskIoStats := some
        { read_ops := Option.getD ( DiskIo.rIO diskIo) 0,
          write_ops := Option.getD ( DiskIo.wIO diskIo) 0,
          timestamp := timestamp } },
   { network_rx_rate := mathRound net.1
     network_tx_rate := mathRound net.2
     disk_read_rate := mathRound disk.1
     disk_write_rate := mathRound disk.2 })

/-- The quotient `a / b` of two finite doubles, as a double. -/
def jsDivDouble (a b : ℚ) : JSNum :=
  if b ≠ 0 then JSNum.fin (toDouble (a / b))
  else if a > 0 then JSNum.posInf
  else if a < 0 then JSNum.negInf
  else JSNum.nan

/-- The pair `networkRxRate`, `networkTxRate` before `Math.round`, as the
engine computes it: the difference of the counters, the division of the
elapsed milliseconds by 1000 and the quotient of the two are each rounded to
binary64.  The guard is `primaryInterface.rx_bytes !== undefined`: the
library reports a counter as a number or leaves the property out, so `none`
stands for `undefined`.  (`networkRates` is the same expression in exact
arithmetic.) -/
def networkRatesDouble (previous : Option NetworkStats) (p : NetIface) (timestamp : ℤ) :
    JSNum × JSNum :=
  match previous, p.rx_bytes with
  | some prev, some _ =>
    let timeDiff : ℚ := toDouble (((timestamp - prev.timestamp : ℤ) : ℚ) / 1000)
    (mathMax0 (jsDivDouble (toDouble (p.rx_bytes.getD 0 - prev.rx_bytes)) timeDiff),
     mathMax0 (jsDivDouble (toDouble (p.tx_bytes.getD 0 - prev.tx_bytes)) timeDiff))
  | _, _ => (JSNum.fin 0, JSNum.fin 0)

/-- The rate part of one cycle with the network rates computed in binary64
arithmetic; the state update is that of `collectRates`. -/
def collectRatesDouble (m : SystemMonitor) (raw : RawReading) (timestamp : ℤ) :
    SystemMonitor × Rates :=
  let net := networkRatesDouble m.previousNetworkStats
    (primaryInterface (raw.netData.getD [])) timestamp
  ((collectRates m raw timestamp).1,
   { (collectRates m raw timestamp).2 with
     network_rx_rate := mathRound net.1
     network_tx_rate := mathRound net.2 })

/-! ## Headline metrics and details (`collectAndStore`) -/

/-- The call `Math.round(x)` on a finite number. -/
def jsRound (q : ℚ) : ℤ := Int.floor (q + 1 / 2)

/-- The value `cpu`: the reading, or the fallback of a rejected promise. -/
def cpuOf (raw : RawReading) : CpuLoad :=
  raw.cpuData.getD { currentLoad := some 0, load_average := some [0, 0, 0] }

/-- The value `memory`: the reading, or `{ total: 1, used: 0 }`. -/
def memoryOf (raw : RawReading) : MemReading :=
  raw.memData.getD { total := some 1, used := some 0 }

/-- The value `filesystems`: the reading, or `[]`. -/
def filesystemsOf (raw : RawReading) : List FsEntry := raw.fsData.getD []

/-- The value `processes`: the reading, or `{ all: 0, list: [] }`. -/
def processesOf (raw : RawReading) : ProcReading :=
  raw.procData.getD { all := some 0, list := some [] }

/-- The value `connections`: the reading, or `[]`. -/
def connectionsOf (raw : RawReading) : List Connection := raw.netConnData.getD []

/-- The expression `x || 1` on a byte count. -/
def orOne (x : Option ℕ) : ℕ := if x.getD 0 = 0 then 1 else x.getD 0

/-- The predicate `fs => fs.mount === '/' || fs.mount === 'C:'`. -/
def isRootMount (fs : FsEntry) : Bool :=
  fs.mount == some "/" || fs.mount == some "C:"

/-- The value `filesystems.find(...) || filesystems[0] || {}`. -/
def rootDisk (filesystems : List FsEntry) : FsEntry :=
  match filesystems.find? isRootMount with
  | some d => d
  | none =>
    match filesystems.head? with
    | some d => d
    | none => {}

/-- The value `diskUsage` (the object `rootDisk` is always truthy):
`Math.round(((rootDisk.used || 0) / (rootDisk.size || 1)) * 100)`. -/
def diskUsage (d : FsEntry) : ℤ :=
  jsRound (((d.used.getD 0 : ℕ) : ℚ) / ((orOne d.size : ℕ) : ℚ) * 100)

/-- The metric `Math.round((cpu.currentLoad || 0) * 100) / 100`. -/
def cpuUsage (cpu : CpuLoad) : ℚ :=
  ((jsRound (cpu.currentLoad.getD 0 * 100) : ℤ) : ℚ) / 100

/-- The metric
`Math.round(((memory.used || 0) / (memory.total || 1)) * 10000) / 100`. -/
def memoryUsage (memory : MemReading) : ℚ :=
  ((jsRound (((memory.used.getD 0 : ℕ) : ℚ) / ((orOne memory.total : ℕ) : ℚ) * 10000) : ℤ) : ℚ)
    / 100

/-- The metric `cpu.load_average?.[0] || 0`. -/
def loadAverage1m (cpu : CpuLoad) : ℚ :=
  (cpu.load_average.bind List.head?).getD 0

/-- The four headline values of the object `metrics` built by one cycle. -/
def collectMetrics (raw : RawReading) : Metrics :=
  { cpu_usage := some (cpuUsage (cpuOf raw))
    memory_usage := some (memoryUsage (memoryOf raw))
    disk_usage := some ((diskUsage (rootDisk (filesystemsOf raw)) : ℤ) : ℚ)
    load_average_1m := some (loadAverage1m (cpuOf raw)) }

/-- The value `diskUsage` as the engine computes it: the quotient and the
product by 100 are each rounded to binary64 before `Math.round`. -/
def diskUsageDouble (d : FsEntry) : ℤ :=
  jsRound (toDouble (toDouble (((d.used.getD 0 : ℕ) : ℚ) / ((orOne d.size : ℕ) : ℚ)) * 100))

/-- The metric `cpu_usage` as the engine computes it: the product by 100 and
the quotient by 100 are each rounded to binary64. -/
def cpuUsageDouble (cpu : CpuLoad) : ℚ :=
  toDouble (((jsRound (toDouble (cpu.currentLoad.getD 0 * 100)) : ℤ) : ℚ) / 100)

/-- The metric `memory_usage` as the engine computes it: the quotient, the
product by 10000 and the quotient by 100 are each rounded to binary64. -/
def memoryUsageDouble (memory : MemReading) : ℚ :=
  toDouble (((jsRound (toDouble (toDouble
    (((memory.used.getD 0 : ℕ) : ℚ) / ((orOne memory.total : ℕ) : ℚ)) * 10000)) : ℤ) : ℚ) / 100)

/-- The four headline values as the engine computes them, every arithmetic
operation rounded to binary64; the byte counts are below `2 ^ 53`, so that
they are doubles themselves.  (`collectMetrics` is the same object in exact
arithmetic.) -/
def collectMetricsDouble (raw : RawReading) : Metrics :=
  { cpu_usage := some (cpuUsageDouble (cpuOf raw))
    memory_usage := some (memoryUsageDouble (memoryOf raw))
    disk_usage := some ((diskUsageDouble (rootDisk (filesystemsOf raw)) : ℤ) : ℚ)
    load_average_1m := some (loadAverage1m (cpuOf raw)) }

/-- The conversion `Math.round(b / (1024 * 1024 * 1024) * 100) / 100`. -/
def bytesToGb (b : ℚ) : ℚ :=
  ((jsRound (b / (1024 * 1024 * 1024) * 100) : ℤ) : ℚ) / 100

/-- The block `details.memory`. -/
structure MemoryDetails where
  total_gb : ℚ
  used_gb : ℚ
  free_gb : ℚ
  available_gb : ℚ
deriving DecidableEq

/-- The block `details.memory` of one cycle. -/
def memoryDetails (memory : MemReading) : MemoryDetails :=
  { total_gb := bytesToGb ((memory.total.getD 0 : ℕ) : ℚ)
    used_gb := bytesToGb ((memory.used.getD 0 : ℕ) : ℚ)
    free_gb := bytesToGb (((memory.total.getD 0 : ℕ) : ℚ) - ((memory.used.getD 0 : ℕ) : ℚ))
    -- `memory.available || memory.free || 0`
    available_gb := bytesToGb
      (((if memory.available.getD 0 ≠ 0 then memory.available.getD 0
         else memory.free.getD 0 : ℕ) : ℚ)) }

/-- The block `details.disk`. -/
structure DiskDetails where
  usage_percent : ℤ
  total_gb : ℚ
  used_gb : ℚ
  available_gb : ℚ
  mount : String
deriving DecidableEq

/-- The expression `s || 'unknown'` on a string property. -/
def orUnknown (s : Option String) : String :=
  match s with
  | some t => if t = "" then "unknown" else t
  | none => "unknown"

/-- The block `details.disk` of one cycle, from `rootDisk`. -/
def diskDetails (d : FsEntry) : DiskDetails :=
  { usage_percent := diskUsage d
    -- `rootDisk.size ? ... : 0`
    total_gb := if d.size.getD 0 ≠ 0 then bytesToGb ((d.size.getD 0 : ℕ) : ℚ) else 0
    -- `rootDisk.used ? ... : 0`
    used_gb := if d.used.getD 0 ≠ 0 then bytesToGb ((d.used.getD 0 : ℕ) : ℚ) else 0
    -- `(rootDisk.size && rootDisk.used) ? ... : 0`
    available_gb :=
      if d.size.getD 0 ≠ 0 ∧ d.used.getD 0 ≠ 0 then
        bytesToGb (((d.size.getD 0 : ℕ) : ℚ) - ((d.used.getD 0 : ℕ) : ℚ))
      else 0
    mount := orUnknown d.mount }

/-- The block `details.network`. -/
structure NetworkDetails where
  interface : String
  rx_bytes : ℚ
  tx_bytes : ℚ
  rx_errors : ℚ
  tx_errors : ℚ
  rx_dropped : ℚ
  tx_dropped : ℚ
deriving DecidableEq

/-- The block `details.network` of one cycle, from `primaryInterface`. -/
def networkDetails (p : NetIface) : NetworkDetails :=
  { interface := orUnknown p.iface
    rx_bytes := p.rx_bytes.getD 0
    tx_bytes := p.tx_bytes.getD 0
    rx_errors := p.rx_errors.getD 0
    tx_errors := p.tx_errors.getD 0
    rx_dropped := p.rx_dropped.getD 0
    tx_dropped := p.tx_dropped.getD 0 }

/-- Insertion of `a`, which stood before every element of the sorted list
`l`, for the comparator `cmp`: `a` stays in front of `b` unless `cmp a b > 0`. -/
def jsOrderedInsert {α : Type} (cmp : α → α → ℚ) (a : α) : List α → List α
  | [] => [a]
  | b :: l => if cmp a b ≤ 0 then a :: b :: l else b :: jsOrderedInsert cmp a l

/-- The method `Array.prototype.sort(cmp)`.  The language fixes its result for
a consistent comparator (the sort is stable); it is computed here by
insertion from the right. -/
def jsSort {α : Type} (cmp : α → α → ℚ) : List α → List α
  | [] => []
  | a :: l => jsOrderedInsert cmp a (jsSort cmp l)

/-- The comparator `(a, b) => (b.cpu || 0) - (a.cpu || 0)`. -/
def cmpCpu (a b : Process) : ℚ := b.cpu.getD 0 - a.cpu.getD 0

/-- An entry of `details.processes.top_cpu`. -/
structure TopProcess where
  name : Option String
  cpu : ℚ
  memory : ℚ
deriving DecidableEq

/-- The projection `p => ({ name: p.name, cpu: p.cpu || 0, memory: p.mem || 0 })`. -/
def toTopProcess (p : Process) : TopProcess :=
  { name := p.name, cpu := p.cpu.getD 0, memory := p.mem.getD 0 }

/-- The value `details.processes.top_cpu`. -/
def topCpu (processes : ProcReading) : List TopProcess :=
  match processes.list with
  | some list => ((jsSort cmpCpu list).take 5).map toTopProcess
  | none => []

/-- The block `details.network_connections`. -/
structure ConnectionCounts where
  count : ℕ
  tcp_established : ℕ
  tcp_listening : ℕ
deriving DecidableEq

/-- The block `details.network_connections` of one cycle. -/
def connectionCounts (connections : List Connection) : ConnectionCounts :=
  { count := connections.length
    tcp_established :=
      (connections.filter (fun c => c.state == some "ESTABLISHED")).length
    tcp_listening := (connections.filter (fun c => c.state == some "LISTEN")).length }

/-! ## Threshold updates (`updateThresholds`) -/

/-- A value of an entry of the update object: a finite number, or anything
that fails `typeof value === 'number' && value >= 0` for another reason (a
non-number, `NaN`).  The number `Infinity` is not modelled. -/
inductive JSValue where
  | number (v : ℚ)
  | other
deriving DecidableEq

/-- The test of one entry: `typeof value === 'number' && value >= 0`, then
`key === 'load_average' || value <= 100`. -/
def validEntry (key : String) (value : JSValue) : Option ℚ :=
  match value with
  | JSValue.number v =>
    if 0 ≤ v then
      if key = "load_average" ∨ v ≤ 100 then some v else none
    else none
  | JSValue.other => none

/-- The object `validThresholds` after the `forEach` over the entries. -/
def validThresholds (newThresholds : List (String × JSValue)) : String → Option ℚ :=
  newThresholds.foldl
    (fun acc entry =>
      match validEntry entry.1 entry.2 with
      | some v => fun k => if k = entry.1 then some v else acc k
      | none => acc)
    (fun _ => none)

/-- The method `updateThresholds(newThresholds)`: the monitor with the merged
set `{ ...this.thresholds, ...validThresholds }` stored, and the returned set. -/
def updateThresholds (m : SystemMonitor) (newThresholds : List (String × JSValue)) :
    SystemMonitor × (String → Option ℚ) :=
  let merged : String → Option ℚ := fun k =>
    match validThresholds newThresholds k with
    | some v => some v
    | none => m.thresholds k
  ({ m with thresholds := merged }, merged)

/-! ## The collection cycle (`collectAndStore`) -/

/-- The object `detailedData` of one cycle.  The blocks that only copy the
identity of the host or of optional sensors (`cpu_details`, `system_load`,
`system`, `battery`, `services`, `disk_io`, the process state counts and
`uptime_seconds`) are left out. -/
structure Snapshot where
  timestamp : ℤ
  metrics : Metrics
  process_count : ℕ
  connection_count : ℕ
  rates : Rates
  memory : MemoryDetails
  disk : DiskDetails
  network : NetworkDetails
  top_cpu : List TopProcess
  network_connections : ConnectionCounts

/-- The argument of a socket emission. -/
inductive Payload where
  | snapshot (s : Snapshot)
  | error (message : String)

/-- One call `this.io.emit(event, payload)`. -/
structure Emission where
  event : String
  payload : Payload

/-- What the store client library does during one call of `writeMetrics`: the
write goes through; or the request fails after `writeMetrics` has returned
(the promise of `writeApi.close()` rejects); or a call of the library throws
while `writeMetrics` runs. -/
inductive WriteBehaviour where
  | completes
  | rejectsLater (e : String)
  | throws (e : String)

/-- The method `Influx.writeMetrics`, seen from its caller: it returns at once
when no client is configured; a rejection of `close()` is caught by its
`.catch` and logged; an exception of the library propagates. -/
def writeMetrics (client : Bool) (lib : WriteBehaviour) : Except String Unit :=
  if client then
    match lib with
    | WriteBehaviour.throws e => Except.error e
    | _ => Except.ok ()
  else Except.ok ()

/-- The environment of one cycle: `new Date()` at its start, `Date.now()`
inside `checkThresholds`, the outcome of the sensor fan-in (an exception
thrown outside the per-sensor guard, or the settled results), and the
behaviour of the store library. -/
structure Cycle where
  timestamp : ℤ
  now : ℤ
  sensors : Except String RawReading
  store : WriteBehaviour

/-- What one cycle leaves behind: the monitor, the socket emissions in order,
and the alerts handed to `sendDiscordAlert`. -/
structure CycleResult where
  monitor : SystemMonitor
  emitted : List Emission
  notified : List Alert

/-- The object `detailedData` built from the readings and the rates. -/
def buildSnapshot (raw : RawReading) (rates : Rates) (timestamp : ℤ) : Snapshot :=
  { timestamp := timestamp
    metrics := collectMetrics raw
    -- `processes.all || 0`
    process_count := (processesOf raw).all.getD 0
    -- `connections.length || 0`
    connection_count := (connectionsOf raw).length
    rates := rates
    memory := memoryDetails (memoryOf raw)
    disk := diskDetails (rootDisk (filesystemsOf raw))
    network := networkDetails (primaryInterface (raw.netData.getD []))
    top_cpu := topCpu (processesOf raw)
    network_connections := connectionCounts (connectionsOf raw) }

/-- The method `collectAndStore()`: the body of the `try`, and the `catch`
that emits `collection_error`. -/
def collectAndStore (m : SystemMonitor) (client : Bool) (c : Cycle) : CycleResult :=
  match c.sensors with
  | Except.error e =>
    { monitor := m, emitted := [{ event := "collection_error", payload := Payload.error e }],
      notified := [] }
  | Except.ok raw =>
    let r := collectRates m raw c.timestamp
    let snapshot := buildSnapshot raw r.2 c.timestamp
    match writeMetrics client c.store with
    | Except.error e =>
      { monitor := r.1,
        emitted := [{ event := "collection_error", payload := Payload.error e }],
        notified := [] }
    | Except.ok _ =>
      let t := checkThresholds r.1 snapshot.metrics c.now
      { monitor := t.1,
        emitted := [{ event := "cpu_data", payload := Payload.snapshot snapshot }],
        notified := t.2 }

/-- The readings in which every rejected sensor call is replaced by the
fulfilled call returning the fallback of `collectAndStore`. -/
def withDefaults (raw : RawReading) : RawReading :=
  { netData := some (raw.netData.getD [])
    diskIoData := some (raw.diskIoData.getD { rIO_sec := some 0, wIO_sec := some 0 })
    cpuData := some (cpuOf raw)
    memData := some (memoryOf raw)
    fsData := some (filesystemsOf raw)
    procData := some (processesOf raw)
    netConnData := some (connectionsOf raw) }

/-! ## The scheduler (`startCollecting`, `stopCollecting`) -/

/-- The monitor together with what surrounds it: whether a store client is
configured, the armed interval timers (handle and period), the next free
timer handle, and the emissions and notifications so far. -/
structure Runtime where
  monitor : SystemMonitor
  client : Bool
  timers : List (ℕ × ℕ)
  nextHandle : ℕ
  emitted : List Emission
  notified : List Alert

/-- The runtime right after `new SystemMonitor(io)`. -/
def Runtime.initial (thresholds : String → Option ℚ) (client : Bool) : Runtime :=
  { monitor := SystemMonitor.new thresholds, client := client, timers := [], nextHandle := 0,
    emitted := [], notified := [] }

/-- One cycle run inside the runtime. -/
def Runtime.cycle (rt : Runtime) (c : Cycle) : Runtime :=
  let r := collectAndStore rt.monitor rt.client c
  { rt with monitor := r.monitor, emitted := rt.emitted ++ r.emitted,
            notified := rt.notified ++ r.notified }

/-- The part of `startCollecting` before its `await` returns, for a monitor
that is not collecting: the flag is set and the first cycle runs; `c` is the
environment of that cycle.  The cycle does not read or write the flag or the
timer handle, so a call that lands while the cycle is awaited has the effect
it has right after the cycle. -/
def startCollectingEnter (rt : Runtime) (c : Cycle) : Runtime :=
  Runtime.cycle { rt with monitor := { rt.monitor with isCollecting := true } } c

/-- The part of `startCollecting` after its `await`: `setInterval` arms a
timer and its handle is stored, whatever happened during the `await`. -/
def startCollectingResume (rt : Runtime) (intervalMs : ℕ) : Runtime :=
  { rt with
    monitor := { rt.monitor with collectionInterval := some rt.nextHandle }
    timers := (rt.nextHandle, intervalMs) :: rt.timers
    nextHandle := rt.nextHandle + 1 }

/-- The method `startCollecting(intervalMs)` when no other call lands during
its `await`; `c` is the environment of its first cycle. -/
def startCollecting (rt : Runtime) (intervalMs : ℕ) (c : Cycle) : Runtime :=
  if rt.monitor.isCollecting then rt
  else startCollectingResume (startCollectingEnter rt c) intervalMs

/-- The method `stopCollecting()`; a timer handle is an object, hence truthy. -/
def stopCollecting (rt : Runtime) : Runtime :=
  match rt.monitor.collectionInterval with
  | some h =>
    { rt with
      timers := rt.timers.filter (fun t => t.1 != h)
      monitor := { rt.monitor with collectionInterval := none, isCollecting := false } }
  | none => { rt with monitor := { rt.monitor with isCollecting := false } }

/-- A call made on the runtime, each run to completion before the next: a
start, a stop, or the firing of an armed timer. -/
inductive Call where
  | start (intervalMs : ℕ) (c : Cycle)
  | stop
  | tick (c : Cycle)

/-- The effect of one call; a tick does nothing when no timer is armed. -/
def Runtime.step (rt : Runtime) : Call → Runtime
  | Call.start intervalMs c => startCollecting rt intervalMs c
  | Call.stop => stopCollecting rt
  | Call.tick c => if rt.timers.isEmpty then rt else Runtime.cycle rt c

/-- A sequence of calls, one after the other. -/
def Runtime.run (rt : Runtime) (calls : List Call) : Runtime :=
  calls.foldl Runtime.step rt

/-! ## Historical queries (`Influx.getHistoricalData`) -/

/-- What the code reads of the value of `metricMapping[metric]`: the text that
`${mapping.measurement}` interpolates, and the properties `field` and `fields`
(`none` is `undefined`). -/
structure MetricMapping where
  measurement : String
  field : Option String := none
  fields : Option (List String) := none

/-- The property names that an object literal inherits from
`Object.prototype`. -/
def objectPrototypeKeys : List String :=
  ["constructor", "toString", "toLocaleString", "valueOf", "hasOwnProperty", "isPrototypeOf",
    "propertyIsEnumerable", "__proto__", "__defineGetter__", "__defineSetter__",
    "__lookupGetter__", "__lookupSetter__"]

/-- The lookup `metricMapping[metric]`: one of the five own entries; or, for
a name inherited from `Object.prototype`, a function or object, which is
truthy and has no `measurement`, `field` or `fields` (the measurement
interpolates as "undefined"); or `undefined`. -/
def metricMapping : String → Option MetricMapping := fun metric =>
  if metric = "cpu_usage" then some { measurement := "cpu", field := some "usage_percent" }
  else if metric = "memory_usage" then
    some { measurement := "memory", field := some "usage_percent" }
  else if metric = "disk_usage" then some { measurement := "disk", field := some "usage_percent" }
  else if metric = "system_load" then some { measurement := "cpu", field := some "load_average" }
  else if metric = "disk_io" then
    some { measurement := "disk_io", fields := some ["read_ops_ps", "write_ops_ps"] }
  else if metric ∈ objectPrototypeKeys then some { measurement := "undefined" }
  else none

/-- The content of the Flux query text: bucket, range start, measurement, host
and the accepted fields. -/
structure FluxQuery where
  bucket : String
  rangeStart : String
  measurement : String
  host : String
  fields : List String

/-- A row handed to the `next` callback, as the object of `toObject`. -/
structure Row where
  _time : String
  _field : String
  _value : ℚ

/-- How a call of `queryRows` ends: with the `complete` callback, with the
`error` callback, or with an exception thrown by the call itself before
either callback. -/
inductive QueryEnd where
  | complete
  | error (message : String)
  | throws (message : String)

/-- One run of `queryRows`: the rows given to `next`, then the final callback. -/
structure QueryRun where
  rows : List Row
  outcome : QueryEnd

/-- An element of the resolved array. -/
structure DataPoint where
  timestamp : String
  field : Option String
  value : ℚ

/-- The state in which a promise settles. -/
inductive PromiseResult (α : Type) where
  | resolved (value : α)
  | rejected (reason : String)

/-- The query built for a mapping. -/
def fluxQueryOf (bucket hostname : String) (mapping : MetricMapping) (timeRange : String) :
    FluxQuery :=
  { bucket := bucket, rangeStart := timeRange, measurement := mapping.measurement,
    host := hostname
    fields :=
      match mapping.fields with
      | some fs => fs
      | none => [mapping.field.getD "undefined"] }

/-- The object pushed by the `next` callback. -/
def toDataPoint (mapping : MetricMapping) (o : Row) : DataPoint :=
  match mapping.fields with
  | some _ => { timestamp := o._time, field := some o._field, value := o._value }
  | none => { timestamp := o._time, field := none, value := o._value }

/-- The method `Influx.getHistoricalData(metric, timeRange)`, which
`SystemMonitor.getHistoricalData` returns unchanged.  `queryApi` is the
outcome of `this.client.getQueryApi(this.org)`: an exception, or the query
service behind `queryRows`.  Neither call is inside a `try`: an exception of
`getQueryApi` rejects the promise of the `async` method, and an exception of
`queryRows` rejects the promise whose executor calls it. -/
def getHistoricalData (client : Bool) (bucket hostname : String)
    (queryApi : Except String (FluxQuery → QueryRun)) (metric : String) (timeRange : String) :
    PromiseResult (List DataPoint) :=
  if client then
    match queryApi with
    | Except.error e => PromiseResult.rejected e
    | Except.ok backend =>
      match metricMapping metric with
      | none => PromiseResult.resolved []
      | some mapping =>
        let run := backend (fluxQueryOf bucket hostname mapping timeRange)
        match run.outcome with
        | QueryEnd.error _ => PromiseResult.resolved []
        | QueryEnd.complete => PromiseResult.resolved (run.rows.map (toDataPoint mapping))
        | QueryEnd.throws e => PromiseResult.rejected e
  else PromiseResult.resolved []

/-! ## Concrete inputs used in the examples below -/

/-- A threshold set with a single configured key. -/
def singleThreshold (key : String) (t : ℚ) : String → Option ℚ :=
  fun k => if k = key then some t else none

/-- Metrics whose `cpu_usage` is `v` and whose other headline values are 0. -/
def cpuOnly (v : ℚ) : Metrics :=
  { cpu_usage := some v, memory_usage := some 0, disk_usage := some 0,
    load_average_1m := some 0 }

/-- Three cycles breaching `cpu_usage: 80` at the given times. -/
def breachingCycles (t1 t2 t3 : ℤ) : List Evaluation :=
  [{ now := t1, metrics := cpuOnly 85 }, { now := t2, metrics := cpuOnly 99 },
    { now := t3, metrics := cpuOnly 99 }]

/-- A reading with the single interface `eth0` and the given byte counters,
and with the given per-second disk values of the library. -/
def readingOf (rx tx rIO_sec wIO_sec : ℚ) : RawReading :=
  { netData := some [{ iface := some "eth0", rx_bytes := some rx, tx_bytes := some tx }]
    diskIoData := some { rIO_sec := some rIO_sec, wIO_sec := some wIO_sec } }

/-- A monitor on the default thresholds whose previous samples were both taken
at `timestamp`, with the given network byte counters. -/
def monitorAfter (rx tx : ℚ) (timestamp : ℤ) : SystemMonitor :=
  { SystemMonitor.new defaultThresholds with
    previousNetworkStats := some { rx_bytes := rx, tx_bytes := tx, timestamp := timestamp }
    previousDiskIoStats := some { read_ops := 0, write_ops := 0, timestamp := timestamp } }

/-- A reading whose memory sensor reports the given byte counts. -/
def memoryReading (total used : ℕ) : RawReading :=
  { netData := none, diskIoData := none
    memData := some { total := some total, used := some used } }

/-- A reading whose filesystem sensor reports the given list. -/
def filesystemReading (filesystems : List FsEntry) : RawReading :=
  { netData := none, diskIoData := none, fsData := some filesystems }

/-- A filesystem entry with the given mount point, size and used bytes. -/
def fsEntry (mount : String) (size used : ℕ) : FsEntry :=
  { mount := some mount, size := some size, used := some used }

/-- A reading whose CPU sensor reports the given load in percent. -/
def cpuReading (load : ℚ) : RawReading :=
  { netData := none, diskIoData := none, cpuData := some { currentLoad := some load } }

/-- A network interface with the given name and byte counters. -/
def ifaceOf (name : String) (rx tx : ℚ) : NetIface :=
  { iface := some name, rx_bytes := some rx, tx_bytes := some tx }

/-- A process with the given name and CPU percentage. -/
def processOf (name : String) (cpu : ℚ) : Process :=
  { name := some name, cpu := some cpu }

/-- A connection in the given state. -/
def connectionOf (state : String) : Connection := { state := some state }

/-- Six processes, with two ties in the CPU percentage. -/
def sixProcesses : List Process :=
  [processOf "a" 10, processOf "b" 30, processOf "c" 10, processOf "d" 50,
    processOf "e" 30, processOf "f" 5]

/-- Successive calls of `updateThresholds` on the same monitor instance. -/
def applyUpdates (m : SystemMonitor) (updates : List (List (String × JSValue))) :
    SystemMonitor :=
  updates.foldl (fun acc newThresholds => (updateThresholds acc newThresholds).1) m

/-- A cycle at time `t` in which every sensor call was rejected and the store
write goes through. -/
def quietCycle (t : ℤ) : Cycle :=
  { timestamp := t, now := t, sensors := Except.ok { netData := none, diskIoData := none },
    store := WriteBehaviour.completes }

/-- A query service that reports an error for every query. -/
def failingBackend : FluxQuery → QueryRun :=
  fun _ => { rows := [], outcome := QueryEnd.error "unavailable" }

/-- A reading with a CPU load of 42.567 %, 3 GiB used of 8 GiB of memory, and
a root filesystem of 200 GB of which 50 GB are used, listed after /boot. -/
def busyReading : RawReading :=
  { netData := none, diskIoData := none
    cpuData := some { currentLoad := some (42567 / 1000), load_average := some [1, 1, 1] }
    memData := some { total := some 8589934592, used := some 3221225472 }
    fsData := some [fsEntry "/boot" 1000000000 900000000,
      fsEntry "/" 200000000000 50000000000] }

/-- The readings of a cycle in which every sensor call was rejected. -/
def allFailed : RawReading := { netData := none, diskIoData := none }

/-- A cycle at time `t` with the given readings and store behaviour. -/
def cycleOf (t : ℤ) (raw : RawReading) (store : WriteBehaviour) : Cycle :=
  { timestamp := t, now := t, sensors := Except.ok raw, store := store }

/-- A cycle at time `t` whose sensor fan-in throws. -/
def brokenCycle (t : ℤ) (message : String) : Cycle :=
  { timestamp := t, now := t, sensors := Except.error message,
    store := WriteBehaviour.completes }

/-! ## Lemmas on binary64 rounding -/

theorem roundNearestEven_of_near (x : ℚ) (n : ℤ) (h1 : (n : ℚ) - 1 / 2 < x)
    (h2 : x < n + 1 / 2) : roundNearestEven x = n := by
  unfold roundNearestEven
  simp only
  by_cases hx : (n : ℚ) ≤ x
  · have hf : Int.floor x = n := by
      rw [Int.floor_eq_iff]
      constructor
      · exact hx
      · linarith
    rw [hf, if_pos (by linarith)]
  · push_neg at hx
    have hf : Int.floor x = n - 1 := by
      rw [Int.floor_eq_iff]
      constructor
      · push_cast; linarith
      · push_cast; linarith
    rw [hf]
    have h3 : ¬ (x - ((n - 1 : ℤ) : ℚ) < 1 / 2) := by push_cast; linarith
    have h4 : (1 : ℚ) / 2 < x - ((n - 1 : ℤ) : ℚ) := by push_cast; linarith
    rw [if_neg h3, if_pos h4]
    ring

theorem log_two_eq (q : ℚ) (e : ℤ) (h1 : (2 : ℚ) ^ e ≤ |q|) (h2 : |q| < 2 ^ (e + 1)) :
    Int.log 2 |q| = e := by
  have hpos : (0 : ℚ) < |q| := lt_of_lt_of_le (by positivity) h1
  apply le_antisymm
  · have := (Int.lt_zpow_iff_log_lt (b := 2) (by norm_num) hpos (x := e + 1)).1
      (by exact_mod_cast h2)
    omega
  · exact (Int.zpow_le_iff_le_log (b := 2) (by norm_num) hpos).1 (by exact_mod_cast h1)

/-- The rounding of a number whose binade `e` and nearest multiple `n` of
`2 ^ (e - 52)` are known. -/
theorem toDouble_of_bounds (q : ℚ) (e n : ℤ) (h1 : (2 : ℚ) ^ e ≤ |q|)
    (h2 : |q| < 2 ^ (e + 1)) (h3 : (n : ℚ) - 1 / 2 < q / 2 ^ (e - 52))
    (h4 : q / 2 ^ (e - 52) < n + 1 / 2) : toDouble q = n * 2 ^ (e - 52) := by
  have hq : q ≠ 0 := by
    intro h0
    rw [h0, abs_zero] at h1
    exact absurd h1 (not_le.2 (by positivity))
  unfold toDouble
  rw [if_neg hq]
  simp only
  rw [log_two_eq q e h1 h2, roundNearestEven_of_near _ n h3 h4]

theorem toDouble_zero : toDouble 0 = 0 := by simp [toDouble]

theorem roundNearestEven_cases (x : ℚ) :
    roundNearestEven x = Int.floor x ∧ x - Int.floor x ≤ 1 / 2 ∨
      roundNearestEven x = Int.floor x + 1 ∧ 1 / 2 ≤ x - Int.floor x := by
  unfold roundNearestEven
  simp only
  by_cases h1 : x - Int.floor x < 1 / 2
  · left
    rw [if_pos h1]
    exact ⟨rfl, h1.le⟩
  · rw [if_neg h1]
    push_neg at h1
    by_cases h2 : 1 / 2 < x - Int.floor x
    · right
      rw [if_pos h2]
      exact ⟨rfl, h1⟩
    · rw [if_neg h2]
      push_neg at h2
      by_cases h3 : Int.floor x % 2 = 0
      · left
        rw [if_pos h3]
        exact ⟨rfl, h2⟩
      · right
        rw [if_neg h3]
        exact ⟨rfl, h1⟩

/-- Rounding to the nearest integer moves a number by at most 1/2. -/
theorem roundNearestEven_error (x : ℚ) : |(roundNearestEven x : ℚ) - x| ≤ 1 / 2 := by
  have hf := Int.floor_le x
  have hl := Int.lt_floor_add_one x
  rw [abs_le]
  rcases roundNearestEven_cases x with ⟨h, hb⟩ | ⟨h, hb⟩
  · rw [h]
    constructor <;> linarith
  · rw [h]
    push_cast
    constructor <;> linarith

theorem roundNearestEven_nonneg (x : ℚ) (h : 0 ≤ x) : 0 ≤ roundNearestEven x := by
  have hf : 0 ≤ Int.floor x := Int.floor_nonneg.2 h
  rcases roundNearestEven_cases x with ⟨h1, -⟩ | ⟨h1, -⟩ <;> omega

theorem roundNearestEven_pos (x : ℚ) (h : 1 ≤ x) : 0 < roundNearestEven x := by
  have hf : 1 ≤ Int.floor x := Int.le_floor.2 (by exact_mod_cast h)
  rcases roundNearestEven_cases x with ⟨h1, -⟩ | ⟨h1, -⟩ <;> omega

theorem ulp_pos (q : ℚ) : (0 : ℚ) < 2 ^ (Int.log 2 |q| - 52) := by positivity

theorem ulp_le (q : ℚ) (hq : q ≠ 0) : (2 : ℚ) ^ (Int.log 2 |q| - 52) ≤ |q| / 2 ^ 52 := by
  have hpos : (0 : ℚ) < |q| := abs_pos.2 hq
  have h := Int.zpow_log_le_self (b := 2) (by norm_num) hpos
  rw [zpow_sub₀ (by norm_num)]
  have h2 : ((2 : ℕ) : ℚ) = 2 := by norm_num
  rw [h2] at h
  have : (2 : ℚ) ^ (52 : ℤ) = 2 ^ 52 := by norm_num
  rw [this]
  exact div_le_div_of_nonneg_right h (by positivity)

/-- The rounding to binary64 has a relative error of at most 2 ^ -53. -/
theorem toDouble_error (q : ℚ) : |toDouble q - q| ≤ |q| / 2 ^ 53 := by
  by_cases hq : q = 0
  · simp [toDouble, hq]
  · unfold toDouble
    rw [if_neg hq]
    simp only
    have hu := ulp_pos q
    have hle := ulp_le q hq
    have he := roundNearestEven_error (q / 2 ^ (Int.log 2 |q| - 52))
    have : (roundNearestEven (q / 2 ^ (Int.log 2 |q| - 52)) : ℚ) * 2 ^ (Int.log 2 |q| - 52) - q =
        ((roundNearestEven (q / 2 ^ (Int.log 2 |q| - 52)) : ℚ) - q / 2 ^ (Int.log 2 |q| - 52)) *
          2 ^ (Int.log 2 |q| - 52) := by
      field_simp
    rw [this, abs_mul, abs_of_pos hu]
    calc |(roundNearestEven (q / 2 ^ (Int.log 2 |q| - 52)) : ℚ) - q / 2 ^ (Int.log 2 |q| - 52)| *
          2 ^ (Int.log 2 |q| - 52)
        ≤ 1 / 2 * 2 ^ (Int.log 2 |q| - 52) := mul_le_mul_of_nonneg_right he hu.le
      _ ≤ 1 / 2 * (|q| / 2 ^ 52) := mul_le_mul_of_nonneg_left hle (by norm_num)
      _ = |q| / 2 ^ 53 := by ring

theorem toDouble_nonneg (q : ℚ) (h : 0 ≤ q) : 0 ≤ toDouble q := by
  unfold toDouble
  split_ifs with hq
  · exact le_refl _
  · simp only
    have hu := ulp_pos q
    have : (0 : ℤ) ≤ roundNearestEven (q / 2 ^ (Int.log 2 |q| - 52)) :=
      roundNearestEven_nonneg _ (div_nonneg h hu.le)
    have h2 : (0 : ℚ) ≤ (roundNearestEven (q / 2 ^ (Int.log 2 |q| - 52)) : ℚ) := by
      exact_mod_cast this
    exact mul_nonneg h2 hu.le

theorem toDouble_pos (q : ℚ) (h : 0 < q) : 0 < toDouble q := by
  unfold toDouble
  rw [if_neg (ne_of_gt h)]
  simp only
  have hu := ulp_pos q
  have hlog := Int.zpow_log_le_self (b := 2) (by norm_num) (abs_pos.2 (ne_of_gt h))
  have h2 : ((2 : ℕ) : ℚ) = 2 := by norm_num
  rw [h2] at hlog
  have hge : (1 : ℚ) ≤ q / 2 ^ (Int.log 2 |q| - 52) := by
    rw [le_div_iff₀ hu, one_mul]
    calc (2 : ℚ) ^ (Int.log 2 |q| - 52) ≤ 2 ^ Int.log 2 |q| :=
          zpow_le_zpow_right₀ (by norm_num) (by omega)
      _ ≤ |q| := hlog
      _ = q := abs_of_pos h
  have : (0 : ℤ) < roundNearestEven (q / 2 ^ (Int.log 2 |q| - 52)) :=
    roundNearestEven_pos _ hge
  have h3 : (0 : ℚ) < (roundNearestEven (q / 2 ^ (Int.log 2 |q| - 52)) : ℚ) := by
    exact_mod_cast this
  exact mul_pos h3 hu

/-- For a non-negative number, the rounding to binary64 stays within the
factors 1 - 2 ^ -53 and 1 + 2 ^ -53. -/
theorem toDouble_rel (q : ℚ) (h : 0 ≤ q) :
    q * (1 - 1 / 2 ^ 53) ≤ toDouble q ∧ toDouble q ≤ q * (1 + 1 / 2 ^ 53) := by
  have he := toDouble_error q
  rw [abs_of_nonneg h, abs_le] at he
  constructor <;> linarith [he.1, he.2]

/-- The double quotient of the roundings of `a ≥ 0` and `t > 0` differs from
the exact quotient by a relative error of at most 2 ^ -51. -/
theorem double_quotient_error (a t : ℚ) (ha : 0 ≤ a) (ht : 0 < t) :
    |toDouble (toDouble a / toDouble t) - a / t| ≤ a / t / 2 ^ 51 := by
  have hA := toDouble_rel a ha
  have hT := toDouble_rel t ht.le
  have hA0 := toDouble_nonneg a ha
  have hT0 := toDouble_pos t ht
  have hQ := toDouble_rel (toDouble a / toDouble t) (div_nonneg hA0 hT0.le)
  have hr : 0 ≤ a / t := div_nonneg ha ht.le
  have hrt : a / t * t = a := div_mul_cancel₀ a (ne_of_gt ht)
  have hup : toDouble a / toDouble t ≤ a / t * ((1 + 1 / 2 ^ 53) / (1 - 1 / 2 ^ 53)) := by
    rw [div_le_iff₀ hT0]
    have h1 : a / t * ((1 + 1 / 2 ^ 53) / (1 - 1 / 2 ^ 53)) * (t * (1 - 1 / 2 ^ 53)) =
        a * (1 + 1 / 2 ^ 53) := by
      rw [← hrt]
      field_simp
    have h2 : a / t * ((1 + 1 / 2 ^ 53) / (1 - 1 / 2 ^ 53)) * (t * (1 - 1 / 2 ^ 53)) ≤
        a / t * ((1 + 1 / 2 ^ 53) / (1 - 1 / 2 ^ 53)) * toDouble t :=
      mul_le_mul_of_nonneg_left hT.1 (mul_nonneg hr (by norm_num))
    linarith [hA.2]
  have hlo : a / t * ((1 - 1 / 2 ^ 53) / (1 + 1 / 2 ^ 53)) ≤ toDouble a / toDouble t := by
    rw [le_div_iff₀ hT0]
    have h1 : a / t * ((1 - 1 / 2 ^ 53) / (1 + 1 / 2 ^ 53)) * (t * (1 + 1 / 2 ^ 53)) =
        a * (1 - 1 / 2 ^ 53) := by
      rw [← hrt]
      field_simp
    have h2 : a / t * ((1 - 1 / 2 ^ 53) / (1 + 1 / 2 ^ 53)) * toDouble t ≤
        a / t * ((1 - 1 / 2 ^ 53) / (1 + 1 / 2 ^ 53)) * (t * (1 + 1 / 2 ^ 53)) :=
      mul_le_mul_of_nonneg_left hT.2 (mul_nonneg hr (by norm_num))
    linarith [hA.1]
  have hup2 : toDouble (toDouble a / toDouble t) ≤
      a / t * ((1 + 1 / 2 ^ 53) / (1 - 1 / 2 ^ 53)) * (1 + 1 / 2 ^ 53) :=
    le_trans hQ.2 (mul_le_mul_of_nonneg_right hup (by norm_num))
  have hlo2 : a / t * ((1 - 1 / 2 ^ 53) / (1 + 1 / 2 ^ 53)) * (1 - 1 / 2 ^ 53) ≤
      toDouble (toDouble a / toDouble t) :=
    le_trans (mul_le_mul_of_nonneg_right hlo (by norm_num)) hQ.1
  have hk1 : a / t * ((1 + 1 / 2 ^ 53) / (1 - 1 / 2 ^ 53)) * (1 + 1 / 2 ^ 53) ≤
      a / t * (1 + 1 / 2 ^ 51) := by
    rw [mul_assoc]
    exact mul_le_mul_of_nonneg_left (by norm_num) hr
  have hk2 : a / t * (1 - 1 / 2 ^ 51) ≤
      a / t * ((1 - 1 / 2 ^ 53) / (1 + 1 / 2 ^ 53)) * (1 - 1 / 2 ^ 53) := by
    rw [mul_assoc]
    exact mul_le_mul_of_nonneg_left (by norm_num) hr
  rw [abs_le]
  constructor
  · have : a / t * (1 - 1 / 2 ^ 51) = a / t - a / t / 2 ^ 51 := by ring
    linarith
  · have : a / t * (1 + 1 / 2 ^ 51) = a / t + a / t / 2 ^ 51 := by ring
    linarith

/-- The double product by a constant `c ≥ 0` of the rounding of `x ≥ 0`
differs from the exact product by a relative error of at most 3 / 2 ^ 53. -/
theorem double_product_error (x c : ℚ) (hx : 0 ≤ x) (hc : 0 ≤ c) :
    |toDouble (toDouble x * c) - x * c| ≤ x * c * (3 / 2 ^ 53) := by
  have hX := toDouble_rel x hx
  have hX0 := toDouble_nonneg x hx
  have hP := toDouble_rel (toDouble x * c) (mul_nonneg hX0 hc)
  have hxc : 0 ≤ x * c := mul_nonneg hx hc
  have h1 : toDouble x * c ≤ x * (1 + 1 / 2 ^ 53) * c := mul_le_mul_of_nonneg_right hX.2 hc
  have h2 : x * (1 - 1 / 2 ^ 53) * c ≤ toDouble x * c := mul_le_mul_of_nonneg_right hX.1 hc
  have h3 : toDouble (toDouble x * c) ≤ x * (1 + 1 / 2 ^ 53) * c * (1 + 1 / 2 ^ 53) :=
    le_trans hP.2 (mul_le_mul_of_nonneg_right h1 (by norm_num))
  have h4 : x * (1 - 1 / 2 ^ 53) * c * (1 - 1 / 2 ^ 53) ≤ toDouble (toDouble x * c) :=
    le_trans (mul_le_mul_of_nonneg_right h2 (by norm_num)) hP.1
  have e3 : x * (1 + 1 / 2 ^ 53) * c * (1 + 1 / 2 ^ 53) =
      x * c * ((1 + 1 / 2 ^ 53) * (1 + 1 / 2 ^ 53)) := by ring
  have e4 : x * (1 - 1 / 2 ^ 53) * c * (1 - 1 / 2 ^ 53) =
      x * c * ((1 - 1 / 2 ^ 53) * (1 - 1 / 2 ^ 53)) := by ring
  have k3 : x * c * ((1 + 1 / 2 ^ 53) * (1 + 1 / 2 ^ 53)) ≤ x * c * (1 + 3 / 2 ^ 53) :=
    mul_le_mul_of_nonneg_left (by norm_num) hxc
  have k4 : x * c * (1 - 3 / 2 ^ 53) ≤ x * c * ((1 - 1 / 2 ^ 53) * (1 - 1 / 2 ^ 53)) :=
    mul_le_mul_of_nonneg_left (by norm_num) hxc
  rw [abs_le]
  constructor
  · have : x * c * (1 - 3 / 2 ^ 53) = x * c - x * c * (3 / 2 ^ 53) := by ring
    linarith
  · have : x * c * (1 + 3 / 2 ^ 53) = x * c + x * c * (3 / 2 ^ 53) := by ring
    linarith

/-- The literal `1.2` is the double 5404319552844595 / 2 ^ 52, just below
6/5. -/
theorem toDouble_six_fifths : toDouble (6 / 5) = 5404319552844595 / 4503599627370496 := by
  rw [toDouble_of_bounds (6 / 5) 0 5404319552844595] <;> norm_num [abs_of_pos]

/-- The product `80 * 1.2` is the double 96. -/
theorem double_product_80 : toDouble (80 * toDouble (6 / 5)) = 96 := by
  rw [toDouble_six_fifths, toDouble_of_bounds _ 6 6755399441055744] <;> norm_num [abs_of_pos]

/-- The product `-5 * 1.2` is the double -6. -/
theorem double_product_neg5 : toDouble (-5 * toDouble (6 / 5)) = -6 := by
  rw [toDouble_six_fifths, toDouble_of_bounds _ 2 (-6755399441055744)] <;>
    norm_num [abs_of_neg, abs_of_pos]

/-- The product `72 * 1.2` is the double 86.39999999999999. -/
theorem double_product_72 :
    toDouble (72 * toDouble (6 / 5)) = 6079859496950169 / 70368744177664 := by
  rw [toDouble_six_fifths, toDouble_of_bounds _ 6 6079859496950169] <;> norm_num [abs_of_pos]

/-- The decimal 86.4 is the double 6079859496950170 / 2 ^ 46. -/
theorem toDouble_86_4 : toDouble (432 / 5) = 6079859496950170 / 70368744177664 := by
  rw [toDouble_of_bounds _ 6 6079859496950170] <;> norm_num [abs_of_pos]

theorem severityOf_80 (value : ℚ) :
    severityOf value 80 = if value > 96 then "critical" else "warning" := by
  unfold severityOf
  rw [double_product_80]

theorem severityOf_neg5 (value : ℚ) :
    severityOf value (-5) = if value > -6 then "critical" else "warning" := by
  unfold severityOf
  rw [double_product_neg5]

/-! ## Lemmas on `checkThresholds` -/

theorem checkOne_other (th : String → Option ℚ) (now : ℤ)
    (acc : List Alert × (String → Option ℤ)) (chk : String × Option ℚ × String)
    (k : String) (h : chk.1 ≠ k) :
    (checkOne th now acc chk).1.filter (fun a => a.type == k) =
        acc.1.filter (fun a => a.type == k) ∧
      (checkOne th now acc chk).2 k = acc.2 k := by
  obtain ⟨key, value, unit⟩ := chk
  have hk : ¬ k = key := fun e => h e.symm
  have hk2 : ¬ key = k := h
  cases hth : th key with
  | none => simp [checkOne, hth]
  | some t =>
    cases value with
    | none => simp [checkOne, hth]
    | some v =>
      simp only [checkOne, hth]
      split_ifs <;> simp [List.filter_append, hk, hk2]

theorem checkOne_self (th : String → Option ℚ) (now : ℤ)
    (acc : List Alert × (String → Option ℤ)) (k : String) (value : Option ℚ)
    (unit : String) :
    (checkOne th now acc (k, value, unit)).1.filter (fun a => a.type == k) =
        acc.1.filter (fun a => a.type == k) ++
          (keyOutcome k (th k) value (acc.2 k) now).toList ∧
      (checkOne th now acc (k, value, unit)).2 k =
        if (keyOutcome k (th k) value (acc.2 k) now).isSome then some now else acc.2 k := by
  cases hth : th k with
  | none => simp [checkOne, keyOutcome, hth]
  | some t =>
    cases value with
    | none => simp [checkOne, keyOutcome, hth]
    | some v =>
      simp only [checkOne, keyOutcome, hth]
      by_cases h1 : t ≠ 0 ∧ v > t
      · by_cases h2 : suppressionElapsed (acc.2 k) now = true
        · simp [h1, h2, List.filter_append]
        · simp [h1, h2]
      · simp [h1]

theorem foldl_checkOne_other (th : String → Option ℚ) (now : ℤ) (k : String)
    (cs : List (String × Option ℚ × String)) :
    ∀ acc : List Alert × (String → Option ℤ), (∀ c ∈ cs, c.1 ≠ k) →
      (cs.foldl (checkOne th now) acc).1.filter (fun a => a.type == k) =
          acc.1.filter (fun a => a.type == k) ∧
        (cs.foldl (checkOne th now) acc).2 k = acc.2 k := by
  induction cs with
  | nil => intro acc _; simp
  | cons c rest ih =>
    intro acc h
    have hc := checkOne_other th now acc c k (h c (List.mem_cons_self _ _))
    have hr := ih (checkOne th now acc c) (fun d hd => h d (List.mem_cons_of_mem _ hd))
    simp only [List.foldl_cons]
    exact ⟨hr.1.trans hc.1, hr.2.trans hc.2⟩

theorem foldl_checkOne_self (th : String → Option ℚ) (now : ℤ) (k : String)
    (value : Option ℚ) (unit : String) (cs : List (String × Option ℚ × String)) :
    ∀ acc : List Alert × (String → Option ℤ), (cs.map Prod.fst).Nodup →
      (k, value, unit) ∈ cs →
      (cs.foldl (checkOne th now) acc).1.filter (fun a => a.type == k) =
          acc.1.filter (fun a => a.type == k) ++
            (keyOutcome k (th k) value (acc.2 k) now).toList ∧
        (cs.foldl (checkOne th now) acc).2 k =
          if (keyOutcome k (th k) value (acc.2 k) now).isSome then some now
          else acc.2 k := by
  induction cs with
  | nil => intro acc _ h; simp at h
  | cons c rest ih =>
    intro acc hnd hmem
    simp only [List.map_cons, List.nodup_cons] at hnd
    simp only [List.foldl_cons]
    rcases List.mem_cons.1 hmem with heq | hin
    · subst heq
      have hrest : ∀ d ∈ rest, d.1 ≠ k := by
        intro d hd e
        have hmap : d.1 ∈ rest.map Prod.fst := List.mem_map_of_mem Prod.fst hd
        rw [e] at hmap
        exact hnd.1 hmap
      have h1 := checkOne_self th now acc k value unit
      have h2 := foldl_checkOne_other th now k rest (checkOne th now acc (k, value, unit)) hrest
      exact ⟨h2.1.trans h1.1, h2.2.trans h1.2⟩
    · have hck : c.1 ≠ k := by
        intro e
        have hmap : (k, value, unit).1 ∈ rest.map Prod.fst := List.mem_map_of_mem Prod.fst hin
        rw [e] at hnd
        exact hnd.1 hmap
      have h1 := checkOne_other th now acc c k hck
      have h2 := ih (checkOne th now acc c) hnd.2 hin
      rw [h1.1, h1.2] at h2
      exact h2

theorem thresholdChecks_nodup (metrics : Metrics) :
    ((thresholdChecks metrics).map Prod.fst).Nodup := by
  simp [thresholdChecks]

/-- Closed form of one call of `checkThresholds` for a checked key: the alerts
of that type are the per-key outcome, and the recorded time follows it. -/
theorem checkThresholds_key (m : SystemMonitor) (metrics : Metrics) (now : ℤ)
    (k : String) (value : Option ℚ) (unit : String)
    (h : (k, value, unit) ∈ thresholdChecks metrics) :
    (checkThresholds m metrics now).2.filter (fun a => a.type == k) =
        (keyOutcome k (m.thresholds k) value (m.lastAlerts k) now).toList ∧
      (checkThresholds m metrics now).1.lastAlerts k =
        if (keyOutcome k (m.thresholds k) value (m.lastAlerts k) now).isSome then some now
        else m.lastAlerts k := by
  have := foldl_checkOne_self m.thresholds now k value unit (thresholdChecks metrics)
    ([], m.lastAlerts) (thresholdChecks_nodup metrics) h
  simpa [checkThresholds] using this

/-- A key that is not among the checked ones gets no alert and keeps its time. -/
theorem checkThresholds_unchecked (m : SystemMonitor) (metrics : Metrics) (now : ℤ)
    (k : String) (h : ∀ c ∈ thresholdChecks metrics, c.1 ≠ k) :
    (checkThresholds m metrics now).2.filter (fun a => a.type == k) = [] ∧
      (checkThresholds m metrics now).1.lastAlerts k = m.lastAlerts k := by
  have := foldl_checkOne_other m.thresholds now k (thresholdChecks metrics)
    ([], m.lastAlerts) h
  simpa [checkThresholds] using this

/-- The thresholds are not touched by `checkThresholds`. -/
theorem checkThresholds_thresholds (m : SystemMonitor) (metrics : Metrics) (now : ℤ) :
    (checkThresholds m metrics now).1.thresholds = m.thresholds := rfl

theorem checkOne_alerts (th : String → Option ℚ) (now : ℤ)
    (acc : List Alert × (String → Option ℤ)) (c : String × Option ℚ × String) :
    (checkOne th now acc c).1 =
      acc.1 ++ (keyOutcome c.1 (th c.1) c.2.1 (acc.2 c.1) now).toList := by
  obtain ⟨key, value, unit⟩ := c
  cases hth : th key with
  | none => simp [checkOne, keyOutcome, hth]
  | some t =>
    cases value with
    | none => simp [checkOne, keyOutcome, hth]
    | some v =>
      simp only [checkOne, keyOutcome, hth]
      by_cases h1 : t ≠ 0 ∧ v > t
      · by_cases h2 : suppressionElapsed (acc.2 key) now = true
        · simp [h1, h2]
        · simp [h1, h2]
      · simp [h1]

theorem foldl_checkOne_alerts (th : String → Option ℚ) (now : ℤ)
    (cs : List (String × Option ℚ × String)) :
    ∀ acc : List Alert × (String → Option ℤ), (cs.map Prod.fst).Nodup →
      (cs.foldl (checkOne th now) acc).1 =
        acc.1 ++ cs.filterMap (fun c => keyOutcome c.1 (th c.1) c.2.1 (acc.2 c.1) now) := by
  induction cs with
  | nil => intro acc _; simp
  | cons c rest ih =>
    intro acc hnd
    simp only [List.map_cons, List.nodup_cons] at hnd
    have hrest : ∀ d ∈ rest, (checkOne th now acc c).2 d.1 = acc.2 d.1 := by
      intro d hd
      refine (checkOne_other th now acc c d.1 ?_).2
      intro e
      exact hnd.1 (e ▸ List.mem_map_of_mem Prod.fst hd)
    have hfm : rest.filterMap
          (fun d => keyOutcome d.1 (th d.1) d.2.1 ((checkOne th now acc c).2 d.1) now) =
        rest.filterMap (fun d => keyOutcome d.1 (th d.1) d.2.1 (acc.2 d.1) now) := by
      apply List.filterMap_congr
      intro d hd
      rw [hrest d hd]
    simp only [List.foldl_cons]
    rw [ih (checkOne th now acc c) hnd.2, hfm, checkOne_alerts, List.filterMap_cons]
    cases keyOutcome c.1 (th c.1) c.2.1 (acc.2 c.1) now <;> simp

/-- Closed form of the alert array of one call of `checkThresholds`. -/
theorem checkThresholds_alerts (m : SystemMonitor) (metrics : Metrics) (now : ℤ) :
    (checkThresholds m metrics now).2 =
      (thresholdChecks metrics).filterMap
        (fun c => keyOutcome c.1 (m.thresholds c.1) c.2.1 (m.lastAlerts c.1) now) := by
  have := foldl_checkOne_alerts m.thresholds now (thresholdChecks metrics)
    ([], m.lastAlerts) (thresholdChecks_nodup metrics)
  simpa [checkThresholds] using this

theorem suppressionElapsed_iff (lastAlert : Option ℤ) (now : ℤ) :
    suppressionElapsed lastAlert now = true ↔
      lastAlert = none ∨ lastAlert = some 0 ∨
        ∃ l, lastAlert = some l ∧ now - l > 5 * 60 * 1000 := by
  cases lastAlert with
  | none => simp [suppressionElapsed]
  | some l => simp [suppressionElapsed, suppressionWindow]

theorem keyOutcome_isSome_iff (k : String) (threshold value : Option ℚ)
    (lastAlert : Option ℤ) (now : ℤ) :
    (keyOutcome k threshold value lastAlert now).isSome = true ↔
      ∃ t v, threshold = some t ∧ t ≠ 0 ∧ value = some v ∧ v > t ∧
        suppressionElapsed lastAlert now = true := by
  cases threshold with
  | none => simp [keyOutcome]
  | some t =>
    cases value with
    | none => simp [keyOutcome]
    | some v =>
      simp only [keyOutcome]
      by_cases h1 : t ≠ 0 ∧ v > t
      · by_cases h2 : suppressionElapsed lastAlert now = true
        · simp [h1, h2]
        · simp [h1, h2]
      · simp only [h1, if_false, Option.isSome_none, Bool.false_eq_true, false_iff]
        rintro ⟨t', v', ht, ht0, hv, hgt, -⟩
        simp only [Option.some.injEq] at ht hv
        subst ht hv
        exact h1 ⟨ht0, hgt⟩

theorem keyOutcome_eq_some (k : String) (threshold value : Option ℚ)
    (lastAlert : Option ℤ) (now : ℤ) (a : Alert)
    (h : keyOutcome k threshold value lastAlert now = some a) :
    ∃ t v, threshold = some t ∧ value = some v ∧
      a = { type := k, value := v, threshold := t, severity := severityOf v t } ∧
      t ≠ 0 ∧ v > t ∧ suppressionElapsed lastAlert now = true := by
  cases threshold with
  | none => simp [keyOutcome] at h
  | some t =>
    cases value with
    | none => simp [keyOutcome] at h
    | some v =>
      simp only [keyOutcome] at h
      by_cases h1 : t ≠ 0 ∧ v > t
      · by_cases h2 : suppressionElapsed lastAlert now = true
        · simp only [h1, h2, ne_eq, not_false_eq_true, gt_iff_lt, and_self, if_true,
            Option.some.injEq] at h
          exact ⟨t, v, rfl, rfl, h.symm, h1.1, h1.2, h2⟩
        · simp [h1, h2] at h
      · simp [h1] at h

/-- An alert of type `k` is in the array iff the per-key outcome exists. -/
theorem checkThresholds_exists_iff (m : SystemMonitor) (metrics : Metrics) (now : ℤ)
    (k : String) (value : Option ℚ) (unit : String)
    (h : (k, value, unit) ∈ thresholdChecks metrics) :
    (∃ a ∈ (checkThresholds m metrics now).2, a.type = k) ↔
      (keyOutcome k (m.thresholds k) value (m.lastAlerts k) now).isSome = true := by
  have hk := (checkThresholds_key m metrics now k value unit h).1
  constructor
  · rintro ⟨a, ha, hty⟩
    have hmem : a ∈ (checkThresholds m metrics now).2.filter (fun a => a.type == k) := by
      simp [List.mem_filter, ha, hty]
    rw [hk] at hmem
    cases hko : keyOutcome k (m.thresholds k) value (m.lastAlerts k) now with
    | none => rw [hko] at hmem; simp at hmem
    | some b => simp
  · intro hs
    obtain ⟨b, hb⟩ := Option.isSome_iff_exists.1 hs
    have hmem : b ∈ (checkThresholds m metrics now).2.filter (fun a => a.type == k) := by
      rw [hk, hb]; simp
    rw [List.mem_filter] at hmem
    exact ⟨b, hmem.1, by simpa using hmem.2⟩

/-! ## C1: when `checkThresholds` emits -/

/-- Emission for each of the four checked keys: `checkThresholds` emits an
alert of that key iff a non-zero threshold is configured for it, the value is
not null, value > threshold, and the recorded last alert time is unset, is 0,
or lies more than 5 minutes before `now`; when it emits the recorded time
becomes `now`, and otherwise the recorded time is kept. -/
theorem checkThresholds_emits_iff (m : SystemMonitor) (metrics : Metrics) (now : ℤ)
    (key : String) (value : Option ℚ) (unit : String)
    (h : (key, value, unit) ∈ thresholdChecks metrics) :
    ((∃ a ∈ (checkThresholds m metrics now).2, a.type = key) ↔
        ∃ t v, m.thresholds key = some t ∧ t ≠ 0 ∧ value = some v ∧ v > t ∧
          (m.lastAlerts key = none ∨ m.lastAlerts key = some 0 ∨
            ∃ l, m.lastAlerts key = some l ∧ now - l > 5 * 60 * 1000)) ∧
      ((∃ a ∈ (checkThresholds m metrics now).2, a.type = key) →
        (checkThresholds m metrics now).1.lastAlerts key = some now) ∧
      ((¬ ∃ a ∈ (checkThresholds m metrics now).2, a.type = key) →
        (checkThresholds m metrics now).1.lastAlerts key = m.lastAlerts key) := by
  have hex := checkThresholds_exists_iff m metrics now key value unit h
  have hla := (checkThresholds_key m metrics now key value unit h).2
  refine ⟨?_, ?_, ?_⟩
  · rw [hex, keyOutcome_isSome_iff]
    simp only [suppressionElapsed_iff]
  · intro he
    rw [hla, if_pos (hex.1 he)]
  · intro hne
    rw [hla, if_neg (fun hs => hne (hex.2 hs))]

/-- C1 at a configured threshold of 0: with the thresholds {disk_usage: 0},
the disk_usage value 37 > 0 and no prior alert recorded, a threshold is
configured, the value is not null and exceeds it, yet `checkThresholds` emits
no alert and records no time; with the threshold 1 in place of 0 the same
evaluation emits an alert for disk_usage and records its time. -/
theorem zero_threshold_emits_no_alert :
    ((SystemMonitor.new (singleThreshold "disk_usage" 0)).thresholds "disk_usage" = some 0 ∧
        (37 : ℚ) > 0 ∧
        (SystemMonitor.new (singleThreshold "disk_usage" 0)).lastAlerts "disk_usage" = none) ∧
      (checkThresholds (SystemMonitor.new (singleThreshold "disk_usage" 0))
        { cpu_usage := some 0, memory_usage := some 0, disk_usage := some 37,
          load_average_1m := some 0 } 1700000000000).2 = [] ∧
      (checkThresholds (SystemMonitor.new (singleThreshold "disk_usage" 0))
        { cpu_usage := some 0, memory_usage := some 0, disk_usage := some 37,
          load_average_1m := some 0 } 1700000000000).1.lastAlerts "disk_usage" = none ∧
      ((checkThresholds (SystemMonitor.new (singleThreshold "disk_usage" 1))
        { cpu_usage := some 0, memory_usage := some 0, disk_usage := some 37,
          load_average_1m := some 0 } 1700000000000).2.map Alert.type = ["disk_usage"]) ∧
      (checkThresholds (SystemMonitor.new (singleThreshold "disk_usage" 1))
        { cpu_usage := some 0, memory_usage := some 0, disk_usage := some 37,
          load_average_1m := some 0 } 1700000000000).1.lastAlerts "disk_usage" =
        some 1700000000000 := by
  have hk0 := checkThresholds_key (SystemMonitor.new (singleThreshold "disk_usage" 0))
    { cpu_usage := some 0, memory_usage := some 0, disk_usage := some 37,
      load_average_1m := some 0 } 1700000000000 "disk_usage" (some 37) "%"
    (by simp [thresholdChecks])
  have hk1 := checkThresholds_key (SystemMonitor.new (singleThreshold "disk_usage" 1))
    { cpu_usage := some 0, memory_usage := some 0, disk_usage := some 37,
      load_average_1m := some 0 } 1700000000000 "disk_usage" (some 37) "%"
    (by simp [thresholdChecks])
  refine ⟨⟨?_, by norm_num, rfl⟩, ?_, ?_, ?_, ?_⟩
  · simp [SystemMonitor.new, singleThreshold]
  · rw [checkThresholds_alerts]
    simp [thresholdChecks, keyOutcome, singleThreshold, SystemMonitor.new]
  · rw [hk0.2]
    simp [keyOutcome, singleThreshold, SystemMonitor.new]
  · rw [checkThresholds_alerts]
    simp only [thresholdChecks, List.filterMap_cons, List.filterMap_nil]
    simp [keyOutcome, singleThreshold, SystemMonitor.new, suppressionElapsed]
  · rw [hk1.2]
    simp [keyOutcome, singleThreshold, SystemMonitor.new, suppressionElapsed]

/-! ## C3: severity classification -/

theorem checkThresholds_alert_of_type (m : SystemMonitor) (metrics : Metrics) (now : ℤ)
    (key : String) (value : Option ℚ) (unit : String)
    (h : (key, value, unit) ∈ thresholdChecks metrics) (a : Alert)
    (ha : a ∈ (checkThresholds m metrics now).2) (hty : a.type = key) :
    keyOutcome key (m.thresholds key) value (m.lastAlerts key) now = some a := by
  have hk := (checkThresholds_key m metrics now key value unit h).1
  have hmem : a ∈ (checkThresholds m metrics now).2.filter (fun a => a.type == key) := by
    simp [List.mem_filter, ha, hty]
  rw [hk] at hmem
  simpa using hmem

/-- C3, amended: for a checked key with a configured threshold (positive or
not) and a value: when value = threshold no alert of that key is emitted; an
emitted alert of that key has severity "critical" iff value exceeds the double
product of the threshold and the literal 1.2, and "warning" otherwise; so at a
value equal to that computed product the severity is "warning". -/
theorem checkThresholds_severity (m : SystemMonitor) (metrics : Metrics) (now : ℤ)
    (key : String) (unit : String) (threshold value : ℚ)
    (h : (key, some value, unit) ∈ thresholdChecks metrics)
    (hth : m.thresholds key = some threshold) :
    (value = threshold → ∀ a ∈ (checkThresholds m metrics now).2, a.type ≠ key) ∧
      (∀ a ∈ (checkThresholds m metrics now).2, a.type = key →
        (a.severity = "critical" ↔ value > toDouble (threshold * toDouble (6 / 5))) ∧
        (¬ value > toDouble (threshold * toDouble (6 / 5)) → a.severity = "warning")) ∧
      (value = toDouble (threshold * toDouble (6 / 5)) →
        ∀ a ∈ (checkThresholds m metrics now).2, a.type = key → a.severity = "warning") := by
  have key_alert : ∀ a ∈ (checkThresholds m metrics now).2, a.type = key →
      a.severity = severityOf value threshold ∧ value > threshold := by
    intro a ha hty
    have ho := checkThresholds_alert_of_type m metrics now key (some value) unit h a ha hty
    obtain ⟨t, v, ht, hv, hav, -, hgt, -⟩ := keyOutcome_eq_some _ _ _ _ _ _ ho
    rw [hth] at ht
    simp only [Option.some.injEq] at ht hv
    subst ht hv
    exact ⟨by rw [hav], hgt⟩
  have hsev : ∀ a ∈ (checkThresholds m metrics now).2, a.type = key →
      (a.severity = "critical" ↔ value > toDouble (threshold * toDouble (6 / 5))) ∧
      (¬ value > toDouble (threshold * toDouble (6 / 5)) → a.severity = "warning") := by
    intro a ha hty
    rw [(key_alert a ha hty).1]
    unfold severityOf
    by_cases hc : value > toDouble (threshold * toDouble (6 / 5))
    · simp [hc]
    · simp [hc]
  refine ⟨?_, hsev, ?_⟩
  · intro heq a ha hty
    have := (key_alert a ha hty).2
    rw [heq] at this
    exact lt_irrefl _ this
  · intro heq a ha hty
    exact (hsev a ha hty).2 (by rw [heq]; exact lt_irrefl _)

/-- C3, witness: for the threshold 80 the computed product is the double 96,
and the value 96 gives one alert, a "warning". -/
theorem checkThresholds_severity_witness :
    (("cpu_usage", some (96 : ℚ), "%") ∈ thresholdChecks (cpuOnly 96) ∧
        (SystemMonitor.new (singleThreshold "cpu_usage" 80)).thresholds "cpu_usage" = some 80 ∧
        (96 : ℚ) = toDouble (80 * toDouble (6 / 5))) ∧
      (checkThresholds (SystemMonitor.new (singleThreshold "cpu_usage" 80)) (cpuOnly 96) 1000).2 =
        [{ type := "cpu_usage", value := 96, threshold := 80, severity := "warning" }] ∧
      (∀ a ∈ (checkThresholds (SystemMonitor.new (singleThreshold "cpu_usage" 80))
          (cpuOnly 96) 1000).2, a.type = "cpu_usage" → a.severity = "warning") := by
  have h1 : ("cpu_usage", some (96 : ℚ), "%") ∈ thresholdChecks (cpuOnly 96) := by
    simp [thresholdChecks, cpuOnly]
  have h2 : (SystemMonitor.new (singleThreshold "cpu_usage" 80)).thresholds "cpu_usage" =
      some 80 := by
    simp [SystemMonitor.new, singleThreshold]
  refine ⟨⟨h1, h2, double_product_80.symm⟩, ?_,
    (checkThresholds_severity (SystemMonitor.new (singleThreshold "cpu_usage" 80)) (cpuOnly 96)
      1000 "cpu_usage" "%" 80 96 h1 h2).2.2 double_product_80.symm⟩
  rw [checkThresholds_alerts]
  simp only [thresholdChecks, cpuOnly, List.filterMap_cons, List.filterMap_nil]
  simp [keyOutcome, singleThreshold, SystemMonitor.new, suppressionElapsed, severityOf_80]
  norm_num

/-- C3, as stated, fails: for the threshold 72 the product 72 × 1.2 is 86.4,
and the metric value 86.4 (the double nearest to it) is classified
"critical", because the double product of 72 and the literal 1.2 is the next
double below, 86.39999999999999. -/
theorem decimal_product_classified_critical :
    toDouble (72 * (6 / 5)) = 6079859496950170 / 70368744177664 ∧
      toDouble (72 * toDouble (6 / 5)) = 6079859496950169 / 70368744177664 ∧
      (checkThresholds (SystemMonitor.new (singleThreshold "cpu_usage" 72))
        (cpuOnly (6079859496950170 / 70368744177664)) 1000).2 =
        [{ type := "cpu_usage", value := 6079859496950170 / 70368744177664, threshold := 72,
           severity := "critical" }] := by
  refine ⟨?_, double_product_72, ?_⟩
  · have : (72 : ℚ) * (6 / 5) = 432 / 5 := by norm_num
    rw [this, toDouble_86_4]
  · rw [checkThresholds_alerts]
    simp only [thresholdChecks, cpuOnly, List.filterMap_cons, List.filterMap_nil]
    simp [keyOutcome, singleThreshold, SystemMonitor.new, suppressionElapsed, severityOf,
      double_product_72]
    norm_num

/-! ## C4: the three-cycle scenario -/

/-- With `cpu_usage` as the only configured threshold, one call returns the
outcome of the `cpu_usage` check alone. -/
theorem checkThresholds_single_cpu (m : SystemMonitor) (metrics : Metrics) (now : ℤ) (t : ℚ)
    (hth : m.thresholds = singleThreshold "cpu_usage" t) :
    (checkThresholds m metrics now).2 =
        (keyOutcome "cpu_usage" (some t) metrics.cpu_usage
          (m.lastAlerts "cpu_usage") now).toList ∧
      (checkThresholds m metrics now).1.lastAlerts "cpu_usage" =
        (if (keyOutcome "cpu_usage" (some t) metrics.cpu_usage
            (m.lastAlerts "cpu_usage") now).isSome then some now
          else m.lastAlerts "cpu_usage") ∧
      (checkThresholds m metrics now).1.thresholds = singleThreshold "cpu_usage" t := by
  have hk := checkThresholds_key m metrics now "cpu_usage" metrics.cpu_usage "%"
    (by simp [thresholdChecks])
  have hcpu : m.thresholds "cpu_usage" = some t := by simp [hth, singleThreshold]
  rw [hcpu] at hk
  refine ⟨?_, hk.2, ?_⟩
  · rw [checkThresholds_alerts]
    have hnone : ∀ (k : String) (v : Option ℚ) (la : Option ℤ),
        keyOutcome k none v la now = none := by
      intro k v la
      simp [keyOutcome]
    have hm : singleThreshold "cpu_usage" t "memory_usage" = none := by simp [singleThreshold]
    have hd : singleThreshold "cpu_usage" t "disk_usage" = none := by simp [singleThreshold]
    have hl : singleThreshold "cpu_usage" t "load_average" = none := by simp [singleThreshold]
    have hc : singleThreshold "cpu_usage" t "cpu_usage" = some t := by simp [singleThreshold]
    simp only [thresholdChecks, List.filterMap_cons, List.filterMap_nil, hth, hm, hd, hl, hc,
      hnone]
    cases keyOutcome "cpu_usage" (some t) metrics.cpu_usage (m.lastAlerts "cpu_usage") now <;>
      rfl
  · rw [checkThresholds_thresholds, hth]

/-- C4: from the empty suppression state with thresholds {cpu_usage: 80},
the scenario starting at any clock value `t0` of `Date.now()` (in ms, not 0):
cpu_usage = 85 at `t0` emits exactly one alert, a "warning"; cpu_usage = 99
at `t0` + 60 s emits no alert; cpu_usage = 99 at `t0` + 301 s emits exactly
one alert, a "critical". -/
theorem scenario_three_cycles (t0 : ℤ) (ht0 : t0 ≠ 0) (x1 x2 x3 : Metrics)
    (h1 : x1.cpu_usage = some 85) (h2 : x2.cpu_usage = some 99)
    (h3 : x3.cpu_usage = some 99) :
    runEvaluations (SystemMonitor.new (singleThreshold "cpu_usage" 80))
        [{ now := t0, metrics := x1 }, { now := t0 + 60000, metrics := x2 },
          { now := t0 + 301000, metrics := x3 }] =
      [(t0, [{ type := "cpu_usage", value := 85, threshold := 80, severity := "warning" }]),
        (t0 + 60000, []),
        (t0 + 301000,
          [{ type := "cpu_usage", value := 99, threshold := 80, severity := "critical" }])] := by
  have e1 := checkThresholds_single_cpu (SystemMonitor.new (singleThreshold "cpu_usage" 80))
    x1 t0 80 rfl
  have o1 : keyOutcome "cpu_usage" (some 80) x1.cpu_usage
      ((SystemMonitor.new (singleThreshold "cpu_usage" 80)).lastAlerts "cpu_usage") t0 =
      some { type := "cpu_usage", value := 85, threshold := 80, severity := "warning" } := by
    rw [h1]
    simp [keyOutcome, SystemMonitor.new, suppressionElapsed, severityOf_80]
    norm_num
  rw [o1] at e1
  have e2 := checkThresholds_single_cpu
    (checkThresholds (SystemMonitor.new (singleThreshold "cpu_usage" 80)) x1 t0).1
    x2 (t0 + 60000) 80 e1.2.2
  have o2 : keyOutcome "cpu_usage" (some 80) x2.cpu_usage
      ((checkThresholds (SystemMonitor.new (singleThreshold "cpu_usage" 80)) x1 t0).1.lastAlerts
        "cpu_usage") (t0 + 60000) = none := by
    rw [h2, e1.2.1]
    simp [keyOutcome, suppressionElapsed, suppressionWindow, ht0]
  rw [o2] at e2
  have e3 := checkThresholds_single_cpu
    (checkThresholds
      (checkThresholds (SystemMonitor.new (singleThreshold "cpu_usage" 80)) x1 t0).1
      x2 (t0 + 60000)).1
    x3 (t0 + 301000) 80 e2.2.2
  have o3 : keyOutcome "cpu_usage" (some 80) x3.cpu_usage
      ((checkThresholds
        (checkThresholds (SystemMonitor.new (singleThreshold "cpu_usage" 80)) x1 t0).1
        x2 (t0 + 60000)).1.lastAlerts "cpu_usage") (t0 + 301000) =
      some { type := "cpu_usage", value := 99, threshold := 80, severity := "critical" } := by
    rw [h3, e2.2.1]
    simp only [Option.isSome_none, Bool.false_eq_true, if_false, e1.2.1, Option.isSome_some,
      if_true]
    simp [keyOutcome, suppressionElapsed, suppressionWindow, severityOf_80]
    norm_num
  rw [o3] at e3
  simp only [runEvaluations, e1.1, e2.1, e3.1, Option.toList]

/-- C4, witness: the scenario started at `t0` = 1 000 000 ms. -/
theorem scenario_three_cycles_witness :
    ((1000000 : ℤ) ≠ 0 ∧ (cpuOnly 85).cpu_usage = some 85 ∧
        (cpuOnly 99).cpu_usage = some 99) ∧
      runEvaluations (SystemMonitor.new (singleThreshold "cpu_usage" 80))
          [{ now := 1000000, metrics := cpuOnly 85 },
            { now := 1000000 + 60000, metrics := cpuOnly 99 },
            { now := 1000000 + 301000, metrics := cpuOnly 99 }] =
        [(1000000,
            [{ type := "cpu_usage", value := 85, threshold := 80, severity := "warning" }]),
          (1000000 + 60000, []),
          (1000000 + 301000,
            [{ type := "cpu_usage", value := 99, threshold := 80, severity := "critical" }])] :=
  ⟨⟨by decide, rfl, rfl⟩,
   scenario_three_cycles 1000000 (by decide) (cpuOnly 85) (cpuOnly 99) (cpuOnly 99) rfl rfl rfl⟩

/-! ## C2: the suppression window over a sequence of evaluations -/

/-- One call, seen from one key: either no alert of that key and the recorded
time is kept, or exactly one alert of that key, the recorded time becomes `now`
and the suppression test passed on the old recorded time. -/
theorem checkThresholds_key_cases (m : SystemMonitor) (metrics : Metrics) (now : ℤ)
    (k : String) :
    ((checkThresholds m metrics now).2.filter (fun a => a.type == k) = [] ∧
        (checkThresholds m metrics now).1.lastAlerts k = m.lastAlerts k) ∨
      (((checkThresholds m metrics now).2.filter (fun a => a.type == k)).length = 1 ∧
        (checkThresholds m metrics now).1.lastAlerts k = some now ∧
        suppressionElapsed (m.lastAlerts k) now = true) := by
  by_cases hk : ∃ c ∈ thresholdChecks metrics, c.1 = k
  · obtain ⟨⟨key, value, unit⟩, hc, rfl⟩ := hk
    have h := checkThresholds_key m metrics now key value unit hc
    cases ho : keyOutcome key (m.thresholds key) value (m.lastAlerts key) now with
    | none =>
      left
      simpa [ho] using h
    | some a =>
      right
      obtain ⟨_, _, _, _, _, _, _, hs⟩ := keyOutcome_eq_some _ _ _ _ _ _ ho
      rw [ho] at h
      exact ⟨by simp [h.1], by simpa using h.2, hs⟩
  · left
    exact checkThresholds_unchecked m metrics now k (fun c hc e => hk ⟨c, hc, e⟩)

theorem any_type_eq_false_of_filter_nil (alerts : List Alert) (k : String)
    (h : alerts.filter (fun a => a.type == k) = []) :
    alerts.any (fun a => a.type == k) = false := by
  rw [List.filter_eq_nil_iff] at h
  rw [List.any_eq_false]
  exact h

theorem any_type_eq_true_of_filter_length (alerts : List Alert) (k : String)
    (h : (alerts.filter (fun a => a.type == k)).length = 1) :
    alerts.any (fun a => a.type == k) = true := by
  cases hf : alerts.filter (fun a => a.type == k) with
  | nil => rw [hf] at h; simp at h
  | cons a rest =>
    have hmem : a ∈ alerts.filter (fun a => a.type == k) := by rw [hf]; simp
    rw [List.mem_filter] at hmem
    exact List.any_eq_true.2 ⟨a, hmem.1, hmem.2⟩

/-- Invariant behind C2: the emission times of a key are pairwise more than the
window apart, and more than the window after a non-zero recorded time that
precedes all the evaluations. -/
theorem emissionTimes_run (key : String) :
    ∀ (evs : List Evaluation) (m : SystemMonitor),
      (evs.map Evaluation.now).Pairwise (fun s t => s ≤ t) →
      (∀ e ∈ evs, e.now ≠ 0) →
      (emissionTimes key (runEvaluations m evs)).Pairwise
          (fun s t => t - s > 5 * 60 * 1000) ∧
        (∀ l, m.lastAlerts key = some l → l ≠ 0 → (∀ e ∈ evs, l ≤ e.now) →
          ∀ t ∈ emissionTimes key (runEvaluations m evs), t - l > 5 * 60 * 1000) := by
  intro evs
  induction evs with
  | nil =>
    intro m _ _
    simp [runEvaluations, emissionTimes]
  | cons e rest ih =>
    intro m hsorted hnz
    simp only [List.map_cons, List.pairwise_cons] at hsorted
    have hle : ∀ e' ∈ rest, e.now ≤ e'.now := fun e' he' =>
      hsorted.1 e'.now (List.mem_map_of_mem Evaluation.now he')
    have hnz' : ∀ e' ∈ rest, e'.now ≠ 0 := fun e' he' => hnz e' (List.mem_cons_of_mem _ he')
    have ihr := ih (checkThresholds m e.metrics e.now).1 hsorted.2 hnz'
    rcases checkThresholds_key_cases m e.metrics e.now key with ⟨hnil, hkeep⟩ | ⟨hone, hset, hs⟩
    · have hany := any_type_eq_false_of_filter_nil _ _ hnil
      have hem : emissionTimes key (runEvaluations m (e :: rest)) =
          emissionTimes key (runEvaluations (checkThresholds m e.metrics e.now).1 rest) := by
        simp [runEvaluations, emissionTimes, List.filter_cons, hany]
      rw [hem]
      refine ⟨ihr.1, ?_⟩
      intro l hl hl0 hall
      exact ihr.2 l (hkeep.trans hl) hl0 (fun e' he' => hall e' (List.mem_cons_of_mem _ he'))
    · have hany := any_type_eq_true_of_filter_length _ _ hone
      have hem : emissionTimes key (runEvaluations m (e :: rest)) =
          e.now :: emissionTimes key
            (runEvaluations (checkThresholds m e.metrics e.now).1 rest) := by
        simp [runEvaluations, emissionTimes, List.filter_cons, hany]
      have hrest := ihr.2 e.now hset (hnz e (List.mem_cons_self _ _)) hle
      rw [hem]
      refine ⟨List.pairwise_cons.2 ⟨hrest, ihr.1⟩, ?_⟩
      intro l hl hl0 hall t ht
      have hfirst : e.now - l > 5 * 60 * 1000 := by
        rw [hl] at hs
        simpa [suppressionElapsed, suppressionWindow, hl0] using hs
      rcases List.mem_cons.1 ht with rfl | ht'
      · exact hfirst
      · have := hrest t ht'
        linarith

/-- C2: for every sequence of `checkThresholds` evaluations at non-decreasing
clock values (`Date.now()` in ms, none of them 0), from any monitor state and
for every key: each evaluation emits at most one alert of that key, and any two
evaluations that emit one are more than 5 minutes (300000 ms) apart, whatever
the values in between. -/
theorem suppression_window (m : SystemMonitor) (key : String) (evs : List Evaluation)
    (hsorted : (evs.map Evaluation.now).Pairwise (fun s t => s ≤ t))
    (hnz : (0 : ℤ) ∉ evs.map Evaluation.now) :
    (∀ entry ∈ runEvaluations m evs,
        (entry.2.filter (fun a => a.type == key)).length ≤ 1) ∧
      (emissionTimes key (runEvaluations m evs)).Pairwise
        (fun s t => t - s > 300000) := by
  have hnz' : ∀ e ∈ evs, e.now ≠ 0 := fun e he h0 =>
    hnz (h0 ▸ List.mem_map_of_mem Evaluation.now he)
  refine ⟨?_, by simpa using (emissionTimes_run key evs m hsorted hnz').1⟩
  clear hsorted hnz hnz'
  induction evs generalizing m with
  | nil => intro entry h; simp [runEvaluations] at h
  | cons e rest ih =>
    intro entry h
    simp only [runEvaluations, List.mem_cons] at h
    rcases h with rfl | h
    · rcases checkThresholds_key_cases m e.metrics e.now key with ⟨hnil, -⟩ | ⟨hone, -, -⟩
      · simp [hnil]
      · simp [hone]
    · exact ih _ entry h

/-- C2, witness: three breaching cycles at 1000 s, 1060 s and 1301 s. -/
theorem suppression_window_witness :
    ((breachingCycles 1000000 1060000 1301000).map Evaluation.now).Pairwise
        (fun s t => s ≤ t) ∧
      (0 : ℤ) ∉ (breachingCycles 1000000 1060000 1301000).map Evaluation.now ∧
      ((∀ entry ∈ runEvaluations (SystemMonitor.new (singleThreshold "cpu_usage" 80))
            (breachingCycles 1000000 1060000 1301000),
          (entry.2.filter (fun a => a.type == "cpu_usage")).length ≤ 1) ∧
        (emissionTimes "cpu_usage"
          (runEvaluations (SystemMonitor.new (singleThreshold "cpu_usage" 80))
            (breachingCycles 1000000 1060000 1301000))).Pairwise
          (fun s t => t - s > 300000)) :=
  ⟨by simp [breachingCycles], by simp [breachingCycles],
   suppression_window (SystemMonitor.new (singleThreshold "cpu_usage" 80)) "cpu_usage"
     (breachingCycles 1000000 1060000 1301000) (by simp [breachingCycles])
     (by simp [breachingCycles])⟩

/-! ## Lemmas on the rate derivation -/

theorem primaryInterface_readingOf (rx tx r w : ℚ) :
    primaryInterface ((readingOf rx tx r w).netData.getD []) =
      { iface := some "eth0", rx_bytes := some rx, tx_bytes := some tx } := by
  have h : notLoopback { iface := some "eth0", rx_bytes := some rx, tx_bytes := some tx } =
      true := by
    simp only [notLoopback]
    decide
  simp [primaryInterface, readingOf, List.find?, h]

theorem networkRates_some (prev : NetworkStats) (p : NetIface) (timestamp : ℤ) (rx : ℚ)
    (hrx : p.rx_bytes = some rx) :
    networkRates (some prev) p timestamp =
      (mathMax0 (jsDiv (rx - prev.rx_bytes) (((timestamp - prev.timestamp : ℤ) : ℚ) / 1000)),
       mathMax0 (jsDiv (p.tx_bytes.getD 0 - prev.tx_bytes)
         (((timestamp - prev.timestamp : ℤ) : ℚ) / 1000))) := by
  simp [networkRates, hrx]

theorem networkRates_no_previous (p : NetIface) (timestamp : ℤ) :
    networkRates none p timestamp = (JSNum.fin 0, JSNum.fin 0) := by
  simp [networkRates]

theorem networkRates_no_rx (previous : Option NetworkStats) (p : NetIface) (timestamp : ℤ)
    (hrx : p.rx_bytes = none) :
    networkRates previous p timestamp = (JSNum.fin 0, JSNum.fin 0) := by
  cases previous <;> simp [networkRates, hrx]

theorem elapsed_pos (t0 t1 : ℤ) (h : t0 < t1) : (0 : ℚ) < ((t1 - t0 : ℤ) : ℚ) / 1000 := by
  have : (0 : ℚ) < ((t1 - t0 : ℤ) : ℚ) := by exact_mod_cast sub_pos.2 h
  positivity

theorem elapsed_neg (t0 t1 : ℤ) (h : t1 < t0) : ((t1 - t0 : ℤ) : ℚ) / 1000 < 0 := by
  have : ((t1 - t0 : ℤ) : ℚ) < 0 := by exact_mod_cast sub_neg.2 h
  exact div_neg_of_neg_of_pos this (by norm_num)

theorem elapsed_zero (t : ℤ) : ((t - t : ℤ) : ℚ) / 1000 = 0 := by simp

theorem mathMax0_jsDiv_of_ne (a b : ℚ) (hb : b ≠ 0) :
    mathMax0 (jsDiv a b) = JSNum.fin (max 0 (a / b)) := by
  simp [jsDiv, hb, mathMax0]

theorem mathMax0_jsDiv_zero (a : ℚ) :
    mathMax0 (jsDiv a 0) =
      if a > 0 then JSNum.posInf else if a < 0 then JSNum.fin 0 else JSNum.nan := by
  unfold jsDiv
  by_cases h1 : a > 0
  · simp [h1, mathMax0]
  · by_cases h2 : a < 0
    · simp [h1, h2, mathMax0]
    · simp [h1, h2, mathMax0]

theorem mathRound_fin_nonneg (q : ℚ) (h : 0 ≤ q) : (mathRound (JSNum.fin q)).nonneg := by
  simp only [mathRound, JSNum.nonneg]
  have : (0 : ℤ) ≤ Int.floor (q + 1 / 2) := Int.floor_nonneg.2 (by linarith)
  exact_mod_cast this

theorem mathRound_zero : mathRound (JSNum.fin 0) = JSNum.fin 0 := by
  simp only [mathRound]
  norm_num

/-! ## C5: the network rate between two cycles -/

/-- The reported rate of a counter that did not decrease over a positive
elapsed time. -/
theorem mathRound_mathMax0_jsDivDouble (a t : ℚ) (ha : 0 ≤ a) (ht : 0 < t) :
    mathMax0 (jsDivDouble (toDouble a) (toDouble t)) =
        JSNum.fin (toDouble (toDouble a / toDouble t)) ∧
      mathRound (mathMax0 (jsDivDouble (toDouble a) (toDouble t))) =
        JSNum.fin (Int.floor (toDouble (toDouble a / toDouble t) + 1 / 2) : ℤ) ∧
      (mathRound (mathMax0 (jsDivDouble (toDouble a) (toDouble t)))).nonneg := by
  have hT0 := toDouble_pos t ht
  have hq : 0 ≤ toDouble (toDouble a / toDouble t) :=
    toDouble_nonneg _ (div_nonneg (toDouble_nonneg a ha) hT0.le)
  have h1 : mathMax0 (jsDivDouble (toDouble a) (toDouble t)) =
      JSNum.fin (toDouble (toDouble a / toDouble t)) := by
    simp [jsDivDouble, ne_of_gt hT0, mathMax0, max_eq_right hq]
  rw [h1]
  exact ⟨rfl, rfl, mathRound_fin_nonneg _ hq⟩

theorem networkRatesDouble_some (prev : NetworkStats) (p : NetIface) (timestamp : ℤ) (rx : ℚ)
    (hrx : p.rx_bytes = some rx) :
    networkRatesDouble (some prev) p timestamp =
      (mathMax0 (jsDivDouble (toDouble (rx - prev.rx_bytes))
         (toDouble (((timestamp - prev.timestamp : ℤ) : ℚ) / 1000))),
       mathMax0 (jsDivDouble (toDouble (p.tx_bytes.getD 0 - prev.tx_bytes))
         (toDouble (((timestamp - prev.timestamp : ℤ) : ℚ) / 1000)))) := by
  simp [networkRatesDouble, hrx]

/-- C5, amended: when a previous sample is stored, the primary interface has
an `rx_bytes` counter, neither counter decreased and the timestamp strictly
increased, the rates before `Math.round` are the double quotients of the
counter differences by the elapsed seconds, which differ from the exact
quotients (current − previous) / elapsed seconds by a relative error of at
most 2 ^ -51; the reported rates are `Math.round` of the computed quotients,
and they are not negative. -/
theorem network_rate_rounded_quotient (m : SystemMonitor) (raw : RawReading)
    (timestamp : ℤ) (prev : NetworkStats) (rx : ℚ)
    (hprev : m.previousNetworkStats = some prev)
    (hrx : (primaryInterface (raw.netData.getD [])).rx_bytes = some rx)
    (hrxle : prev.rx_bytes ≤ rx)
    (htxle : prev.tx_bytes ≤ (primaryInterface (raw.netData.getD [])).tx_bytes.getD 0)
    (hts : prev.timestamp < timestamp) :
    networkRatesDouble m.previousNetworkStats (primaryInterface (raw.netData.getD []))
        timestamp =
        (JSNum.fin (toDouble (toDouble (rx - prev.rx_bytes) /
           toDouble (((timestamp - prev.timestamp : ℤ) : ℚ) / 1000))),
         JSNum.fin (toDouble
           (toDouble ((primaryInterface (raw.netData.getD [])).tx_bytes.getD 0 - prev.tx_bytes) /
             toDouble (((timestamp - prev.timestamp : ℤ) : ℚ) / 1000)))) ∧
      |toDouble (toDouble (rx - prev.rx_bytes) /
            toDouble (((timestamp - prev.timestamp : ℤ) : ℚ) / 1000)) -
          (rx - prev.rx_bytes) / (((timestamp - prev.timestamp : ℤ) : ℚ) / 1000)| ≤
        (rx - prev.rx_bytes) / (((timestamp - prev.timestamp : ℤ) : ℚ) / 1000) / 2 ^ 51 ∧
      |toDouble
            (toDouble ((primaryInterface (raw.netData.getD [])).tx_bytes.getD 0 - prev.tx_bytes) /
              toDouble (((timestamp - prev.timestamp : ℤ) : ℚ) / 1000)) -
          ((primaryInterface (raw.netData.getD [])).tx_bytes.getD 0 - prev.tx_bytes) /
            (((timestamp - prev.timestamp : ℤ) : ℚ) / 1000)| ≤
        ((primaryInterface (raw.netData.getD [])).tx_bytes.getD 0 - prev.tx_bytes) /
          (((timestamp - prev.timestamp : ℤ) : ℚ) / 1000) / 2 ^ 51 ∧
      (collectRatesDouble m raw timestamp).2.network_rx_rate =
        JSNum.fin (Int.floor
          (toDouble (toDouble (rx - prev.rx_bytes) /
            toDouble (((timestamp - prev.timestamp : ℤ) : ℚ) / 1000)) + 1 / 2) : ℤ) ∧
      (collectRatesDouble m raw timestamp).2.network_tx_rate =
        JSNum.fin (Int.floor
          (toDouble
            (toDouble ((primaryInterface (raw.netData.getD [])).tx_bytes.getD 0 - prev.tx_bytes) /
              toDouble (((timestamp - prev.timestamp : ℤ) : ℚ) / 1000)) + 1 / 2) : ℤ) ∧
      (collectRatesDouble m raw timestamp).2.network_rx_rate.nonneg ∧
      (collectRatesDouble m raw timestamp).2.network_tx_rate.nonneg := by
  have hpos := elapsed_pos prev.timestamp timestamp hts
  have h1 := mathRound_mathMax0_jsDivDouble (rx - prev.rx_bytes)
    (((timestamp - prev.timestamp : ℤ) : ℚ) / 1000) (sub_nonneg.2 hrxle) hpos
  have h2 := mathRound_mathMax0_jsDivDouble
    ((primaryInterface (raw.netData.getD [])).tx_bytes.getD 0 - prev.tx_bytes)
    (((timestamp - prev.timestamp : ℤ) : ℚ) / 1000) (sub_nonneg.2 htxle) hpos
  have hnet := networkRatesDouble_some prev (primaryInterface (raw.netData.getD [])) timestamp
    rx hrx
  have hr1 : (collectRatesDouble m raw timestamp).2.network_rx_rate =
      mathRound (networkRatesDouble m.previousNetworkStats
        (primaryInterface (raw.netData.getD [])) timestamp).1 := rfl
  have hr2 : (collectRatesDouble m raw timestamp).2.network_tx_rate =
      mathRound (networkRatesDouble m.previousNetworkStats
        (primaryInterface (raw.netData.getD [])) timestamp).2 := rfl
  rw [hr1, hr2, hprev, hnet]
  refine ⟨by rw [h1.1, h2.1], double_quotient_error _ _ (sub_nonneg.2 hrxle) hpos,
    double_quotient_error _ _ (sub_nonneg.2 htxle) hpos, h1.2.1, h2.2.1, ?_, ?_⟩
  · exact h1.2.2
  · exact h2.2.2

/-- C5, witness: counters 1000 → 4000 and 500 → 600 over 2 s: the reported rx
rate is 1500. -/
theorem network_rate_rounded_quotient_witness :
    ((monitorAfter 1000 500 10000).previousNetworkStats =
          some { rx_bytes := 1000, tx_bytes := 500, timestamp := 10000 } ∧
        (primaryInterface ((readingOf 4000 600 0 0).netData.getD [])).rx_bytes = some 4000 ∧
        (1000 : ℚ) ≤ 4000 ∧
        (500 : ℚ) ≤ (primaryInterface ((readingOf 4000 600 0 0).netData.getD [])).tx_bytes.getD 0 ∧
        (10000 : ℤ) < 12000) ∧
      (collectRatesDouble (monitorAfter 1000 500 10000) (readingOf 4000 600 0 0)
        12000).2.network_rx_rate = JSNum.fin 1500 := by
  have hp := primaryInterface_readingOf 4000 600 0 0
  have h2 : (primaryInterface ((readingOf 4000 600 0 0).netData.getD [])).rx_bytes =
      some 4000 := by rw [hp]
  have h4 : (500 : ℚ) ≤
      (primaryInterface ((readingOf 4000 600 0 0).netData.getD [])).tx_bytes.getD 0 := by
    rw [hp]; norm_num
  have e1 : toDouble ((4000 : ℚ) - 1000) = 3000 := by
    rw [toDouble_of_bounds _ 11 6597069766656000] <;> norm_num [abs_of_pos]
  have e2 : toDouble ((((12000 : ℤ) - 10000 : ℤ) : ℚ) / 1000) = 2 := by
    rw [toDouble_of_bounds _ 1 4503599627370496] <;> norm_num [abs_of_pos]
  have e3 : toDouble ((3000 : ℚ) / 2) = 1500 := by
    rw [toDouble_of_bounds _ 10 6597069766656000] <;> norm_num [abs_of_pos]
  have e4 : Int.floor ((1500 : ℚ) + 1 / 2) = 1500 := by norm_num [Int.floor_eq_iff]
  refine ⟨⟨rfl, h2, by norm_num, h4, by norm_num⟩, ?_⟩
  rw [(network_rate_rounded_quotient (monitorAfter 1000 500 10000) (readingOf 4000 600 0 0) 12000
      { rx_bytes := 1000, tx_bytes := 500, timestamp := 10000 } 4000 rfl h2 (by norm_num) h4
      (by norm_num)).2.2.2.1]
  show JSNum.fin ((Int.floor (toDouble (toDouble ((4000 : ℚ) - 1000) /
    toDouble ((((12000 : ℤ) - 10000 : ℤ) : ℚ) / 1000)) + 1 / 2) : ℤ) : ℚ) = JSNum.fin 1500
  rw [e1, e2, e3, e4]
  norm_num

/-- C5, as stated, fails.  With counters 0 → 1 over 2 s the quotient is 1/2
but the reported rx rate is `Math.round(0.5)` = 1.  With counters 0 → 17 over
272 ms the exact quotient is 62.5, the double quotient of 17 by the double
0.272 is 62.49999999999999, and the reported rx rate is 62. -/
theorem network_rate_is_rounded :
    ((collectRatesDouble (monitorAfter 0 0 10000) (readingOf 1 1 0 0)
          12000).2.network_rx_rate = JSNum.fin 1 ∧
        ((1 : ℚ) - 0) / ((((12000 : ℤ) - 10000 : ℤ) : ℚ) / 1000) = 1 / 2) ∧
      ((collectRatesDouble (monitorAfter 0 0 10000) (readingOf 17 17 0 0)
          10272).2.network_rx_rate = JSNum.fin 62 ∧
        ((17 : ℚ) - 0) / ((((10272 : ℤ) - 10000 : ℤ) : ℚ) / 1000) = 125 / 2 ∧
        toDouble (toDouble ((17 : ℚ) - 0) / toDouble ((((10272 : ℤ) - 10000 : ℤ) : ℚ) / 1000)) =
          8796093022207999 / 140737488355328) := by
  have a1 : toDouble ((1 : ℚ) - 0) = 1 := by
    rw [toDouble_of_bounds _ 0 4503599627370496] <;> norm_num [abs_of_pos]
  have a2 : toDouble ((((12000 : ℤ) - 10000 : ℤ) : ℚ) / 1000) = 2 := by
    rw [toDouble_of_bounds _ 1 4503599627370496] <;> norm_num [abs_of_pos]
  have a3 : toDouble ((1 : ℚ) / 2) = 1 / 2 := by
    rw [toDouble_of_bounds _ (-1) 4503599627370496] <;> norm_num [abs_of_pos]
  have a4 : Int.floor ((1 : ℚ) / 2 + 1 / 2) = 1 := by norm_num [Int.floor_eq_iff]
  have b1 : toDouble ((17 : ℚ) - 0) = 17 := by
    rw [toDouble_of_bounds _ 4 4785074604081152] <;> norm_num [abs_of_pos]
  have b2 : toDouble ((((10272 : ℤ) - 10000 : ℤ) : ℚ) / 1000) =
      1224979098644775 / 4503599627370496 := by
    rw [toDouble_of_bounds _ (-2) 4899916394579100] <;> norm_num [abs_of_pos]
  have b3 : toDouble ((17 : ℚ) / (1224979098644775 / 4503599627370496)) =
      8796093022207999 / 140737488355328 := by
    rw [toDouble_of_bounds _ 5 8796093022207999] <;> norm_num [abs_of_pos]
  have b4 : Int.floor ((8796093022207999 : ℚ) / 140737488355328 + 1 / 2) = 62 := by
    norm_num [Int.floor_eq_iff]
  have ha := (mathRound_mathMax0_jsDivDouble ((1 : ℚ) - 0)
    ((((12000 : ℤ) - 10000 : ℤ) : ℚ) / 1000) (by norm_num) (by norm_num)).2.1
  have hb := (mathRound_mathMax0_jsDivDouble ((17 : ℚ) - 0)
    ((((10272 : ℤ) - 10000 : ℤ) : ℚ) / 1000) (by norm_num) (by norm_num)).2.1
  rw [a1, a2, a3, a4] at ha
  rw [b1, b2, b3, b4] at hb
  refine ⟨⟨?_, by norm_num⟩, ?_, by norm_num, by rw [b1, b2, b3]⟩
  · have hr : (collectRatesDouble (monitorAfter 0 0 10000) (readingOf 1 1 0 0)
        12000).2.network_rx_rate =
        mathRound (networkRatesDouble (monitorAfter 0 0 10000).previousNetworkStats
          (primaryInterface ((readingOf 1 1 0 0).netData.getD [])) 12000).1 := rfl
    rw [hr, primaryInterface_readingOf]
    have hn := networkRatesDouble_some { rx_bytes := 0, tx_bytes := 0, timestamp := 10000 }
      { iface := some "eth0", rx_bytes := some 1, tx_bytes := some 1 } 12000 1 rfl
    have hm : (monitorAfter 0 0 10000).previousNetworkStats =
        some { rx_bytes := 0, tx_bytes := 0, timestamp := 10000 } := rfl
    rw [hm, hn]
    show mathRound (mathMax0 (jsDivDouble (toDouble ((1 : ℚ) - 0))
      (toDouble ((((12000 : ℤ) - 10000 : ℤ) : ℚ) / 1000)))) = JSNum.fin 1
    rw [a1, a2]
    rw [ha]
    norm_num
  · have hr : (collectRatesDouble (monitorAfter 0 0 10000) (readingOf 17 17 0 0)
        10272).2.network_rx_rate =
        mathRound (networkRatesDouble (monitorAfter 0 0 10000).previousNetworkStats
          (primaryInterface ((readingOf 17 17 0 0).netData.getD [])) 10272).1 := rfl
    rw [hr, primaryInterface_readingOf]
    have hn := networkRatesDouble_some { rx_bytes := 0, tx_bytes := 0, timestamp := 10000 }
      { iface := some "eth0", rx_bytes := some 17, tx_bytes := some 17 } 10272 17 rfl
    have hm : (monitorAfter 0 0 10000).previousNetworkStats =
        some { rx_bytes := 0, tx_bytes := 0, timestamp := 10000 } := rfl
    rw [hm, hn]
    show mathRound (mathMax0 (jsDivDouble (toDouble ((17 : ℚ) - 0))
      (toDouble ((((10272 : ℤ) - 10000 : ℤ) : ℚ) / 1000)))) = JSNum.fin 62
    rw [b1, b2]
    rw [hb]
    norm_num

/-! ## C6: the first cycle -/

/-- C6: in the first cycle after construction (no previous sample stored) the
four reported rates are 0 whatever the raw reading, and the current counters
and the timestamp are stored as the previous network and disk I/O samples. -/
theorem first_cycle_rates_zero (thresholds : String → Option ℚ) (raw : RawReading)
    (timestamp : ℤ) :
    (collectRates (SystemMonitor.new thresholds) raw timestamp).2 =
        { network_rx_rate := JSNum.fin 0, network_tx_rate := JSNum.fin 0,
          disk_read_rate := JSNum.fin 0, disk_write_rate := JSNum.fin 0 } ∧
      (collectRates (SystemMonitor.new thresholds) raw timestamp).1.previousNetworkStats =
        some { rx_bytes := (primaryInterface (raw.netData.getD [])).rx_bytes.getD 0,
               tx_bytes := (primaryInterface (raw.netData.getD [])).tx_bytes.getD 0,
               timestamp := timestamp } ∧
      (collectRates (SystemMonitor.new thresholds) raw timestamp).1.previousDiskIoStats =
        some { read_ops := Option.getD
                 ( DiskIo.rIO (raw.diskIoData.getD { rIO_sec := some 0, wIO_sec := some 0 })) 0,
               write_ops := Option.getD
                 ( DiskIo.wIO (raw.diskIoData.getD { rIO_sec := some 0, wIO_sec := some 0 })) 0,
               timestamp := timestamp } := by
  refine ⟨?_, rfl, rfl⟩
  simp only [collectRates, SystemMonitor.new, networkRates_no_previous, diskRates,
    mathRound_zero]

/-! ## C7: a decreasing counter -/

/-- C7, amended: when a previous sample is stored, the timestamp did not go
backwards, and a byte counter of the later sample (0 when absent) is smaller
than the stored one, the rate reported for that direction is exactly 0. -/
theorem counter_decrease_rate_zero (m : SystemMonitor) (raw : RawReading) (timestamp : ℤ)
    (prev : NetworkStats) (hprev : m.previousNetworkStats = some prev)
    (hts : prev.timestamp ≤ timestamp) :
    ((primaryInterface (raw.netData.getD [])).rx_bytes.getD 0 < prev.rx_bytes →
        (collectRates m raw timestamp).2.network_rx_rate = JSNum.fin 0) ∧
      ((primaryInterface (raw.netData.getD [])).tx_bytes.getD 0 < prev.tx_bytes →
        (collectRates m raw timestamp).2.network_tx_rate = JSNum.fin 0) := by
  have hr1 : (collectRates m raw timestamp).2.network_rx_rate =
      mathRound (networkRates m.previousNetworkStats
        (primaryInterface (raw.netData.getD [])) timestamp).1 := rfl
  have hr2 : (collectRates m raw timestamp).2.network_tx_rate =
      mathRound (networkRates m.previousNetworkStats
        (primaryInterface (raw.netData.getD [])) timestamp).2 := rfl
  have hclamp : ∀ a : ℚ, a < 0 →
      mathMax0 (jsDiv a (((timestamp - prev.timestamp : ℤ) : ℚ) / 1000)) = JSNum.fin 0 := by
    intro a ha
    rcases lt_or_eq_of_le hts with hlt | heq
    · have hpos := elapsed_pos prev.timestamp timestamp hlt
      rw [mathMax0_jsDiv_of_ne _ _ (ne_of_gt hpos)]
      have : a / (((timestamp - prev.timestamp : ℤ) : ℚ) / 1000) ≤ 0 :=
        (div_neg_of_neg_of_pos ha hpos).le
      rw [max_eq_left this]
    · rw [heq, elapsed_zero, mathMax0_jsDiv_zero]
      simp [ha, not_lt.2 ha.le]
  rw [hr1, hr2, hprev]
  cases hp : (primaryInterface (raw.netData.getD [])).rx_bytes with
  | none =>
    rw [networkRates_no_rx _ _ _ hp]
    exact ⟨fun _ => mathRound_zero, fun _ => mathRound_zero⟩
  | some rx =>
    rw [networkRates_some prev _ timestamp rx hp]
    constructor
    · intro h
      simp only [Option.getD_some] at h
      simp only [hclamp _ (sub_neg.2 h), mathRound_zero]
    · intro h
      simp only [hclamp _ (sub_neg.2 h), mathRound_zero]

/-- C7, witness: the rx counter falls from 100 to 50 over 2 s. -/
theorem counter_decrease_rate_zero_witness :
    ((monitorAfter 100 0 10000).previousNetworkStats =
          some { rx_bytes := 100, tx_bytes := 0, timestamp := 10000 } ∧
        (10000 : ℤ) ≤ 12000 ∧
        (primaryInterface ((readingOf 50 0 0 0).netData.getD [])).rx_bytes.getD 0 < 100) ∧
      (collectRates (monitorAfter 100 0 10000) (readingOf 50 0 0 0) 12000).2.network_rx_rate =
        JSNum.fin 0 := by
  have h3 : (primaryInterface ((readingOf 50 0 0 0).netData.getD [])).rx_bytes.getD 0 < 100 := by
    rw [primaryInterface_readingOf]; norm_num
  exact ⟨⟨rfl, by norm_num, h3⟩,
    (counter_decrease_rate_zero (monitorAfter 100 0 10000) (readingOf 50 0 0 0) 12000
      { rx_bytes := 100, tx_bytes := 0, timestamp := 10000 } rfl (by norm_num)).1 h3⟩

/-- C7, as stated, fails when the timestamp goes backwards: the rx counter
falls from 100 to 50 while the cycle timestamp is 2 s before the stored one,
and the reported rx rate is 25. -/
theorem counter_decrease_backwards_clock :
    (50 : ℚ) < 100 ∧
      (collectRates (monitorAfter 100 0 12000) (readingOf 50 0 0 0) 10000).2.network_rx_rate =
        JSNum.fin 25 := by
  have hr : (collectRates (monitorAfter 100 0 12000) (readingOf 50 0 0 0) 10000).2.network_rx_rate =
      mathRound (networkRates (monitorAfter 100 0 12000).previousNetworkStats
        (primaryInterface ((readingOf 50 0 0 0).netData.getD [])) 10000).1 := rfl
  refine ⟨by norm_num, ?_⟩
  rw [hr, primaryInterface_readingOf]
  simp only [monitorAfter, networkRates, Option.getD_some]
  norm_num [jsDiv, mathMax0, mathRound]

/-! ## C8: elapsed time ≤ 0 -/

theorem rate_nonpositive_elapsed (a : ℚ) (t0 t1 : ℤ) :
    (t1 < t0 →
        mathRound (mathMax0 (jsDiv a (((t1 - t0 : ℤ) : ℚ) / 1000))) =
          JSNum.fin (Int.floor (max 0 (a / (((t1 - t0 : ℤ) : ℚ) / 1000)) + 1 / 2) : ℤ)) ∧
      (t1 = t0 →
        mathRound (mathMax0 (jsDiv a (((t1 - t0 : ℤ) : ℚ) / 1000))) =
          if a > 0 then JSNum.posInf else if a < 0 then JSNum.fin 0 else JSNum.nan) := by
  constructor
  · intro h
    rw [mathMax0_jsDiv_of_ne _ _ (ne_of_lt (elapsed_neg t0 t1 h))]
    rfl
  · intro h
    rw [h, elapsed_zero, mathMax0_jsDiv_zero]
    by_cases h1 : a > 0
    · simp [h1, mathRound]
    · by_cases h2 : a < 0
      · simp [h1, h2, mathRound_zero]
      · simp [h1, h2, mathRound]

/-- C8, amended: when a previous sample is stored and the primary interface
has an `rx_bytes` counter, no substitute is made for an elapsed time ≤ 0.  For
a negative elapsed time the reported rate is `Math.round(max(0, (current −
previous) / elapsed))`, a division by the negative time.  For an elapsed time
of 0 the division by zero gives `Infinity` when the counter grew, `NaN` when it
is unchanged, and 0 when it decreased. -/
theorem nonpositive_elapsed_rates (m : SystemMonitor) (raw : RawReading) (timestamp : ℤ)
    (prev : NetworkStats) (rx : ℚ) (hprev : m.previousNetworkStats = some prev)
    (hrx : (primaryInterface (raw.netData.getD [])).rx_bytes = some rx) :
    (timestamp < prev.timestamp →
        (collectRates m raw timestamp).2.network_rx_rate =
            JSNum.fin (Int.floor (max 0 ((rx - prev.rx_bytes) /
              (((timestamp - prev.timestamp : ℤ) : ℚ) / 1000)) + 1 / 2) : ℤ) ∧
          (collectRates m raw timestamp).2.network_tx_rate =
            JSNum.fin (Int.floor (max 0
              (((primaryInterface (raw.netData.getD [])).tx_bytes.getD 0 - prev.tx_bytes) /
                (((timestamp - prev.timestamp : ℤ) : ℚ) / 1000)) + 1 / 2) : ℤ)) ∧
      (timestamp = prev.timestamp →
        (collectRates m raw timestamp).2.network_rx_rate =
            (if rx - prev.rx_bytes > 0 then JSNum.posInf
              else if rx - prev.rx_bytes < 0 then JSNum.fin 0 else JSNum.nan) ∧
          (collectRates m raw timestamp).2.network_tx_rate =
            (if (primaryInterface (raw.netData.getD [])).tx_bytes.getD 0 - prev.tx_bytes > 0
              then JSNum.posInf
              else if (primaryInterface (raw.netData.getD [])).tx_bytes.getD 0 - prev.tx_bytes < 0
              then JSNum.fin 0 else JSNum.nan)) := by
  have hr1 : (collectRates m raw timestamp).2.network_rx_rate =
      mathRound (networkRates m.previousNetworkStats
        (primaryInterface (raw.netData.getD [])) timestamp).1 := rfl
  have hr2 : (collectRates m raw timestamp).2.network_tx_rate =
      mathRound (networkRates m.previousNetworkStats
        (primaryInterface (raw.netData.getD [])) timestamp).2 := rfl
  rw [hr1, hr2, hprev, networkRates_some prev _ timestamp rx hrx]
  exact ⟨fun h => ⟨(rate_nonpositive_elapsed _ prev.timestamp timestamp).1 h,
      (rate_nonpositive_elapsed _ prev.timestamp timestamp).1 h⟩,
    fun h => ⟨(rate_nonpositive_elapsed _ prev.timestamp timestamp).2 h,
      (rate_nonpositive_elapsed _ prev.timestamp timestamp).2 h⟩⟩

/-- C8, witness: the same timestamp twice with the rx counter unchanged. -/
theorem nonpositive_elapsed_rates_witness :
    ((monitorAfter 700 0 10000).previousNetworkStats =
          some { rx_bytes := 700, tx_bytes := 0, timestamp := 10000 } ∧
        (primaryInterface ((readingOf 700 0 0 0).netData.getD [])).rx_bytes = some 700) ∧
      (collectRates (monitorAfter 700 0 10000) (readingOf 700 0 0 0) 10000).2.network_rx_rate =
        (if (700 : ℚ) - 700 > 0 then JSNum.posInf
          else if (700 : ℚ) - 700 < 0 then JSNum.fin 0 else JSNum.nan) := by
  have h2 : (primaryInterface ((readingOf 700 0 0 0).netData.getD [])).rx_bytes = some 700 := by
    rw [primaryInterface_readingOf]
  exact ⟨⟨rfl, h2⟩,
    ((nonpositive_elapsed_rates (monitorAfter 700 0 10000) (readingOf 700 0 0 0) 10000
      { rx_bytes := 700, tx_bytes := 0, timestamp := 10000 } 700 rfl h2).2 rfl).1⟩

/-- C8, as stated, fails: with an elapsed time of 0 and the rx counter grown
by 100 the reported rate is `Infinity`, not max(0, 100) = 100; with an elapsed
time of −2 s and the same growth it is 0, not 100. -/
theorem elapsed_not_replaced_by_one :
    (collectRates (monitorAfter 0 0 10000) (readingOf 100 0 0 0) 10000).2.network_rx_rate =
        JSNum.posInf ∧
      (collectRates (monitorAfter 0 0 12000) (readingOf 100 0 0 0) 10000).2.network_rx_rate =
        JSNum.fin 0 ∧
      max (0 : ℚ) (100 - 0) = 100 := by
  have hr : ∀ t0 t1 : ℤ,
      (collectRates (monitorAfter 0 0 t0) (readingOf 100 0 0 0) t1).2.network_rx_rate =
      mathRound (networkRates (monitorAfter 0 0 t0).previousNetworkStats
        (primaryInterface ((readingOf 100 0 0 0).netData.getD [])) t1).1 := fun _ _ => rfl
  refine ⟨?_, ?_, by norm_num⟩
  · rw [hr, primaryInterface_readingOf]
    simp only [monitorAfter, networkRates, Option.getD_some]
    norm_num [jsDiv, mathMax0, mathRound]
  · rw [hr, primaryInterface_readingOf]
    simp only [monitorAfter, networkRates, Option.getD_some]
    norm_num [jsDiv, mathMax0, mathRound]

/-! ## C9: the stored previous state -/

/-- C9: after every cycle, whatever the earlier state (so whether or not a
rate was computed), the stored previous network sample is the primary
interface's rx/tx counters of this cycle (0 when absent) with the cycle
timestamp. -/
theorem previous_network_overwritten (m : SystemMonitor) (raw : RawReading)
    (timestamp : ℤ) :
    (collectRates m raw timestamp).1.previousNetworkStats =
      some { rx_bytes := (primaryInterface (raw.netData.getD [])).rx_bytes.getD 0,
             tx_bytes := (primaryInterface (raw.netData.getD [])).tx_bytes.getD 0,
             timestamp := timestamp } := by
  simp only [collectRates]

/-! ## C10: sign of the reported rates -/

/-- C10, amended: the four reported rates are ≥ 0 provided the timestamp of
the stored network sample, if one is stored, is not the cycle timestamp, and
the library's per-second disk values `rIO_sec`, `wIO_sec` are not negative. -/
theorem rates_nonneg (m : SystemMonitor) (raw : RawReading) (timestamp : ℤ)
    (hts : m.previousNetworkStats.map NetworkStats.timestamp ≠ some timestamp)
    (hr : 0 ≤ (raw.diskIoData.getD { rIO_sec := some 0, wIO_sec := some 0 }).rIO_sec.getD 0)
    (hw : 0 ≤ (raw.diskIoData.getD { rIO_sec := some 0, wIO_sec := some 0 }).wIO_sec.getD 0) :
    (collectRates m raw timestamp).2.network_rx_rate.nonneg ∧
      (collectRates m raw timestamp).2.network_tx_rate.nonneg ∧
      (collectRates m raw timestamp).2.disk_read_rate.nonneg ∧
      (collectRates m raw timestamp).2.disk_write_rate.nonneg := by
  have hr1 : (collectRates m raw timestamp).2.network_rx_rate =
      mathRound (networkRates m.previousNetworkStats
        (primaryInterface (raw.netData.getD [])) timestamp).1 := rfl
  have hr2 : (collectRates m raw timestamp).2.network_tx_rate =
      mathRound (networkRates m.previousNetworkStats
        (primaryInterface (raw.netData.getD [])) timestamp).2 := rfl
  have hr3 : (collectRates m raw timestamp).2.disk_read_rate =
      mathRound (diskRates m.previousDiskIoStats
        (raw.diskIoData.getD { rIO_sec := some 0, wIO_sec := some 0 })).1 := rfl
  have hr4 : (collectRates m raw timestamp).2.disk_write_rate =
      mathRound (diskRates m.previousDiskIoStats
        (raw.diskIoData.getD { rIO_sec := some 0, wIO_sec := some 0 })).2 := rfl
  have hz : (mathRound (JSNum.fin 0)).nonneg := mathRound_fin_nonneg 0 le_rfl
  have hnet : (mathRound (networkRates m.previousNetworkStats
        (primaryInterface (raw.netData.getD [])) timestamp).1).nonneg ∧
      (mathRound (networkRates m.previousNetworkStats
        (primaryInterface (raw.netData.getD [])) timestamp).2).nonneg := by
    cases hp : m.previousNetworkStats with
    | none => rw [networkRates_no_previous]; exact ⟨hz, hz⟩
    | some prev =>
      cases hx : (primaryInterface (raw.netData.getD [])).rx_bytes with
      | none => rw [networkRates_no_rx _ _ _ hx]; exact ⟨hz, hz⟩
      | some rx =>
        have hne : (((timestamp - prev.timestamp : ℤ) : ℚ) / 1000) ≠ 0 := by
          have h0 : prev.timestamp ≠ timestamp := fun e => hts (by rw [hp, ← e]; rfl)
          have h1 : timestamp - prev.timestamp ≠ 0 := sub_ne_zero.2 h0.symm
          have h2 : ((timestamp - prev.timestamp : ℤ) : ℚ) ≠ 0 := by exact_mod_cast h1
          exact div_ne_zero h2 (by norm_num)
        rw [networkRates_some prev _ timestamp rx hx, mathMax0_jsDiv_of_ne _ _ hne,
          mathMax0_jsDiv_of_ne _ _ hne]
        exact ⟨mathRound_fin_nonneg _ (le_max_left _ _),
          mathRound_fin_nonneg _ (le_max_left _ _)⟩
  have hdisk : (mathRound (diskRates m.previousDiskIoStats
        (raw.diskIoData.getD { rIO_sec := some 0, wIO_sec := some 0 })).1).nonneg ∧
      (mathRound (diskRates m.previousDiskIoStats
        (raw.diskIoData.getD { rIO_sec := some 0, wIO_sec := some 0 })).2).nonneg := by
    cases m.previousDiskIoStats with
    | none => exact ⟨hz, hz⟩
    | some d => exact ⟨mathRound_fin_nonneg _ hr, mathRound_fin_nonneg _ hw⟩
  rw [hr1, hr2, hr3, hr4]
  exact ⟨hnet.1, hnet.2, hdisk.1, hdisk.2⟩

/-- C10, witness: a second cycle 2 s after the first with growing counters. -/
theorem rates_nonneg_witness :
    ((monitorAfter 1000 500 10000).previousNetworkStats.map NetworkStats.timestamp ≠
          some 12000 ∧
        0 ≤ ((readingOf 4000 600 3 2).diskIoData.getD
          { rIO_sec := some 0, wIO_sec := some 0 }).rIO_sec.getD 0 ∧
        0 ≤ ((readingOf 4000 600 3 2).diskIoData.getD
          { rIO_sec := some 0, wIO_sec := some 0 }).wIO_sec.getD 0) ∧
      ((collectRates (monitorAfter 1000 500 10000)
            (readingOf 4000 600 3 2) 12000).2.network_rx_rate.nonneg ∧
        (collectRates (monitorAfter 1000 500 10000)
            (readingOf 4000 600 3 2) 12000).2.network_tx_rate.nonneg ∧
        (collectRates (monitorAfter 1000 500 10000)
            (readingOf 4000 600 3 2) 12000).2.disk_read_rate.nonneg ∧
        (collectRates (monitorAfter 1000 500 10000)
            (readingOf 4000 600 3 2) 12000).2.disk_write_rate.nonneg) := by
  have h1 : (monitorAfter 1000 500 10000).previousNetworkStats.map NetworkStats.timestamp ≠
      some 12000 := by
    simp [monitorAfter]
  have h2 : 0 ≤ ((readingOf 4000 600 3 2).diskIoData.getD
      { rIO_sec := some 0, wIO_sec := some 0 }).rIO_sec.getD 0 := by
    simp [readingOf]
  have h3 : 0 ≤ ((readingOf 4000 600 3 2).diskIoData.getD
      { rIO_sec := some 0, wIO_sec := some 0 }).wIO_sec.getD 0 := by
    simp [readingOf]
  exact ⟨⟨h1, h2, h3⟩,
    rates_nonneg (monitorAfter 1000 500 10000) (readingOf 4000 600 3 2) 12000 h1 h2 h3⟩

/-- C10, as stated, fails in two ways.  A cycle with the timestamp of the
stored sample and an unchanged rx counter reports the rx rate `NaN` (0 / 0),
which is not ≥ 0.  A later cycle in which the library reports `rIO_sec` = −5
reports the disk read rate −5. -/
theorem rates_not_always_nonneg :
    ((collectRates (monitorAfter 10 10 10000) (readingOf 10 10 0 0) 10000).2.network_rx_rate =
          JSNum.nan ∧
        ¬ (collectRates (monitorAfter 10 10 10000)
          (readingOf 10 10 0 0) 10000).2.network_rx_rate.nonneg) ∧
      ((collectRates (monitorAfter 0 0 10000) (readingOf 0 0 (-5) 0) 12000).2.disk_read_rate =
          JSNum.fin (-5) ∧
        ¬ (collectRates (monitorAfter 0 0 10000)
          (readingOf 0 0 (-5) 0) 12000).2.disk_read_rate.nonneg) := by
  have e1 : (collectRates (monitorAfter 10 10 10000)
      (readingOf 10 10 0 0) 10000).2.network_rx_rate = JSNum.nan := by
    have hr : (collectRates (monitorAfter 10 10 10000)
        (readingOf 10 10 0 0) 10000).2.network_rx_rate =
        mathRound (networkRates (monitorAfter 10 10 10000).previousNetworkStats
          (primaryInterface ((readingOf 10 10 0 0).netData.getD [])) 10000).1 := rfl
    rw [hr, primaryInterface_readingOf]
    simp only [monitorAfter, networkRates, Option.getD_some]
    norm_num [jsDiv, mathMax0, mathRound]
  have e2 : (collectRates (monitorAfter 0 0 10000)
      (readingOf 0 0 (-5) 0) 12000).2.disk_read_rate = JSNum.fin (-5) := by
    have hr : (collectRates (monitorAfter 0 0 10000)
        (readingOf 0 0 (-5) 0) 12000).2.disk_read_rate =
        mathRound (diskRates (monitorAfter 0 0 10000).previousDiskIoStats
          ((readingOf 0 0 (-5) 0).diskIoData.getD { rIO_sec := some 0, wIO_sec := some 0 })).1 :=
      rfl
    rw [hr]
    simp only [monitorAfter, readingOf, diskRates, Option.getD_some, mathRound]
    norm_num
  refine ⟨⟨e1, ?_⟩, ⟨e2, ?_⟩⟩
  · rw [e1]; simp [JSNum.nonneg]
  · rw [e2]; simp [JSNum.nonneg]

/-! ## Lemmas on the headline metrics -/

theorem orOne_eq_max (x : Option ℕ) : orOne x = max (x.getD 0) 1 := by
  unfold orOne
  by_cases h : x.getD 0 = 0
  · simp [h]
  · have : 1 ≤ x.getD 0 := Nat.one_le_iff_ne_zero.2 h
    simp [h, max_eq_left this]

theorem orOne_pos (x : Option ℕ) : (0 : ℚ) < ((orOne x : ℕ) : ℚ) := by
  have : 0 < orOne x := by
    rw [orOne_eq_max]
    exact lt_of_lt_of_le Nat.zero_lt_one (le_max_right _ _)
  exact_mod_cast this

theorem jsRound_nonneg (q : ℚ) (h : 0 ≤ q) : 0 ≤ jsRound q :=
  Int.floor_nonneg.2 (by linarith)

theorem jsRound_le (q : ℚ) (n : ℤ) (h : q ≤ n) : jsRound q ≤ n := by
  have : jsRound q < n + 1 := by
    unfold jsRound
    rw [Int.floor_lt]
    push_cast
    linarith
  omega

theorem jsRound_intCast (n : ℤ) : jsRound (n : ℚ) = n := by
  unfold jsRound
  rw [Int.floor_eq_iff]
  constructor <;> norm_num

theorem memoryOf_some (raw : RawReading) (memory : MemReading)
    (h : raw.memData = some memory) : memoryOf raw = memory := by
  simp [memoryOf, h]

theorem filesystemsOf_some (raw : RawReading) (filesystems : List FsEntry)
    (h : raw.fsData = some filesystems) : filesystemsOf raw = filesystems := by
  simp [filesystemsOf, h]

/-! ## C11: the memory percentage -/

theorem memoryUsageDouble_eq (memory : MemReading) :
    memoryUsageDouble memory =
      toDouble (((Int.floor
        (toDouble (toDouble (((memory.used.getD 0 : ℕ) : ℚ) /
          ((max (memory.total.getD 0) 1 : ℕ) : ℚ)) * 10000) + 1 / 2) : ℤ) : ℚ) / 100) := by
  simp only [memoryUsageDouble, jsRound, orOne_eq_max]

/-- C11, amended: for every memory reading, a missing used or total byte
count being taken as 0, the snapshot's memory_usage is
round(used / max(total, 1) × 10000) / 100 with the quotient, the product and
the final quotient each rounded to binary64; the product that is rounded to
an integer differs from the exact used / max(total, 1) × 10000 by a relative
error of at most 3 / 2 ^ 53. -/
theorem memory_usage_formula (raw : RawReading) (memory : MemReading)
    (h : raw.memData = some memory) :
    (collectMetricsDouble raw).memory_usage =
        some (toDouble (((Int.floor
          (toDouble (toDouble (((memory.used.getD 0 : ℕ) : ℚ) /
            ((max (memory.total.getD 0) 1 : ℕ) : ℚ)) * 10000) + 1 / 2) : ℤ) : ℚ) / 100)) ∧
      |toDouble (toDouble (((memory.used.getD 0 : ℕ) : ℚ) /
            ((max (memory.total.getD 0) 1 : ℕ) : ℚ)) * 10000) -
          ((memory.used.getD 0 : ℕ) : ℚ) / ((max (memory.total.getD 0) 1 : ℕ) : ℚ) * 10000| ≤
        ((memory.used.getD 0 : ℕ) : ℚ) / ((max (memory.total.getD 0) 1 : ℕ) : ℚ) * 10000 *
          (3 / 2 ^ 53) := by
  refine ⟨?_, double_product_error _ 10000 (div_nonneg (Nat.cast_nonneg _) (Nat.cast_nonneg _))
    (by norm_num)⟩
  simp only [collectMetricsDouble, memoryOf_some raw memory h, memoryUsageDouble_eq]

/-- C11, witness: 3 GiB used of 8 GiB give 37.5 %. -/
theorem memory_usage_formula_witness :
    (memoryReading 8589934592 3221225472).memData =
        some { total := some 8589934592, used := some 3221225472 } ∧
      (collectMetricsDouble (memoryReading 8589934592 3221225472)).memory_usage =
        some (75 / 2) := by
  have e0 : (((3221225472 : ℕ) : ℚ)) / ((max 8589934592 1 : ℕ) : ℚ) = 3 / 8 := by norm_num
  have e1 : toDouble ((3 : ℚ) / 8) = 3 / 8 := by
    rw [toDouble_of_bounds _ (-2) 6755399441055744] <;> norm_num [abs_of_pos]
  have e2 : toDouble ((3 : ℚ) / 8 * 10000) = 3750 := by
    rw [toDouble_of_bounds _ 11 8246337208320000] <;> norm_num [abs_of_pos]
  have e3 : Int.floor ((3750 : ℚ) + 1 / 2) = 3750 := by norm_num [Int.floor_eq_iff]
  have e4 : toDouble (((3750 : ℤ) : ℚ) / 100) = 75 / 2 := by
    rw [toDouble_of_bounds _ 5 5277655813324800] <;> norm_num [abs_of_pos]
  refine ⟨rfl, ?_⟩
  rw [(memory_usage_formula (memoryReading 8589934592 3221225472)
    { total := some 8589934592, used := some 3221225472 } rfl).1]
  show some (toDouble (((Int.floor (toDouble (toDouble (((3221225472 : ℕ) : ℚ) /
    ((max 8589934592 1 : ℕ) : ℚ)) * 10000) + 1 / 2) : ℤ) : ℚ) / 100)) = some (75 / 2)
  rw [e0, e1, e2, e3, e4]

/-- C11, as stated, fails: 59768832 bytes used of 838860800 are 7.125 %
exactly, and round(used / max(total, 1) × 10000) / 100 is 7.13; the double
product is 712.4999999999999, so the snapshot's memory_usage is the double
7.12. -/
theorem memory_usage_half_rounds_down :
    (collectMetricsDouble (memoryReading 838860800 59768832)).memory_usage =
        some (8016407336719483 / 1125899906842624) ∧
      toDouble (712 / 100) = 8016407336719483 / 1125899906842624 ∧
      ((Int.floor ((59768832 : ℚ) / ((max 838860800 1 : ℕ) : ℚ) * 10000 + 1 / 2) : ℤ) : ℚ) / 100 =
        713 / 100 ∧
      toDouble (toDouble ((59768832 : ℚ) / 838860800) * 10000) =
        6267216278323199 / 8796093022208 := by
  have e0 : (((59768832 : ℕ) : ℚ)) / ((max 838860800 1 : ℕ) : ℚ) = 57 / 800 := by norm_num
  have e1 : toDouble ((57 : ℚ) / 800) = 5134103575202365 / 72057594037927936 := by
    rw [toDouble_of_bounds _ (-4) 5134103575202365] <;> norm_num [abs_of_pos]
  have e2 : toDouble ((5134103575202365 : ℚ) / 72057594037927936 * 10000) =
      6267216278323199 / 8796093022208 := by
    rw [toDouble_of_bounds _ 9 6267216278323199] <;> norm_num [abs_of_pos]
  have e3 : Int.floor ((6267216278323199 : ℚ) / 8796093022208 + 1 / 2) = 712 := by
    norm_num [Int.floor_eq_iff]
  have e4 : toDouble (((712 : ℤ) : ℚ) / 100) = 8016407336719483 / 1125899906842624 := by
    rw [toDouble_of_bounds _ 2 8016407336719483] <;> norm_num [abs_of_pos]
  have e5 : toDouble ((712 : ℚ) / 100) = 8016407336719483 / 1125899906842624 := by
    rw [toDouble_of_bounds _ 2 8016407336719483] <;> norm_num [abs_of_pos]
  have e6 : (59768832 : ℚ) / 838860800 = 57 / 800 := by norm_num
  refine ⟨?_, e5, ?_, by rw [e6, e1, e2]⟩
  · show some (memoryUsageDouble { total := some 838860800, used := some 59768832 }) = _
    rw [memoryUsageDouble_eq]
    show some (toDouble (((Int.floor (toDouble (toDouble (((59768832 : ℕ) : ℚ) /
      ((max 838860800 1 : ℕ) : ℚ)) * 10000) + 1 / 2) : ℤ) : ℚ) / 100)) = _
    rw [e0, e1, e2, e3, e4]
  · norm_num [Int.floor_eq_iff]

/-! ## C12: a memory total of 0 -/

/-- C12, amended: for every memory reading whose total is 0 or missing, the
division is by 1 (no division by zero), the snapshot's memory_usage is
used × 100, and it is 0 exactly when used is 0 or missing. -/
theorem memory_usage_zero_total (raw : RawReading) (memory : MemReading)
    (h : raw.memData = some memory) (htotal : memory.total.getD 0 = 0) :
    (collectMetrics raw).memory_usage = some (((memory.used.getD 0 : ℕ) : ℚ) * 100) ∧
      ((collectMetrics raw).memory_usage = some 0 ↔ memory.used.getD 0 = 0) := by
  have hm : (collectMetrics raw).memory_usage =
      some (((memory.used.getD 0 : ℕ) : ℚ) * 100) := by
    simp only [collectMetrics, memoryOf_some raw memory h, memoryUsage, orOne, htotal, if_true,
      Nat.cast_one, div_one]
    have : ((memory.used.getD 0 : ℕ) : ℚ) * 10000 = (((memory.used.getD 0 * 10000 : ℕ) : ℤ) : ℚ) := by
      push_cast; ring
    rw [this, jsRound_intCast]
    push_cast
    congr 1
    ring
  refine ⟨hm, ?_⟩
  rw [hm]
  simp

/-- C12, witness: total 0 and used 0. -/
theorem memory_usage_zero_total_witness :
    ((memoryReading 0 0).memData = some { total := some 0, used := some 0 } ∧
        (some 0 : Option ℕ).getD 0 = 0) ∧
      (collectMetrics (memoryReading 0 0)).memory_usage = some 0 := by
  refine ⟨⟨rfl, rfl⟩, ?_⟩
  have := (memory_usage_zero_total (memoryReading 0 0) { total := some 0, used := some 0 }
    rfl rfl).1
  simpa using this

/-- C12, as stated, fails: a reading with total 0 and used 5 gives the
memory_usage 500, not 0. -/
theorem zero_total_used_five_reports_500 :
    (collectMetrics (memoryReading 0 5)).memory_usage = some 500 := by
  simp only [collectMetrics, memoryOf, memoryReading, Option.getD_some, memoryUsage, orOne,
    if_true, jsRound]
  norm_num [Int.floor_eq_iff]

/-! ## C13: the disk percentage -/

theorem rootDisk_of_first_root (pre post : List FsEntry) (d : FsEntry)
    (hpre : ∀ x ∈ pre, isRootMount x = false) (hd : isRootMount d = true) :
    rootDisk (pre ++ d :: post) = d := by
  have : (pre ++ d :: post).find? isRootMount = some d := by
    induction pre with
    | nil => simp [List.find?, hd]
    | cons x xs ih =>
      have hx := hpre x (List.mem_cons_self _ _)
      simp only [List.cons_append, List.find?, hx]
      exact ih (fun y hy => hpre y (List.mem_cons_of_mem _ hy))
  simp [rootDisk, this]

theorem rootDisk_of_no_root (d : FsEntry) (rest : List FsEntry)
    (h : ∀ x ∈ d :: rest, isRootMount x = false) : rootDisk (d :: rest) = d := by
  have : (d :: rest).find? isRootMount = none := by
    rw [List.find?_eq_none]
    intro x hx
    simp [h x hx]
  simp [rootDisk, this]

theorem isRootMount_iff (d : FsEntry) :
    isRootMount d = true ↔ d.mount = some "/" ∨ d.mount = some "C:" := by
  simp [isRootMount]

theorem diskUsageDouble_eq (d : FsEntry) :
    diskUsageDouble d =
      Int.floor (toDouble (toDouble (((d.used.getD 0 : ℕ) : ℚ) /
        (((if d.size.getD 0 = 0 then 1 else d.size.getD 0 : ℕ)) : ℚ)) * 100) + 1 / 2) := by
  simp only [diskUsageDouble, jsRound, orOne]

/-- C13, amended: for every list of filesystems, disk_usage is
round(used / size × 100), a zero or missing size being replaced by 1 and a
missing used by 0, with the quotient and the product each rounded to
binary64, of the first filesystem whose mount is "/" or "C:"; of the first
filesystem of the list when there is none; and 0 when the list is empty.  The
product that is rounded to an integer differs from the exact
used / size × 100 by a relative error of at most 3 / 2 ^ 53. -/
theorem disk_usage_selection (raw : RawReading) (filesystems : List FsEntry)
    (h : raw.fsData = some filesystems) :
    (∀ pre d post, filesystems = pre ++ d :: post →
        (∀ x ∈ pre, ¬ (x.mount = some "/" ∨ x.mount = some "C:")) →
        (d.mount = some "/" ∨ d.mount = some "C:") →
        (collectMetricsDouble raw).disk_usage =
          some ((Int.floor (toDouble (toDouble (((d.used.getD 0 : ℕ) : ℚ) /
            (((if d.size.getD 0 = 0 then 1 else d.size.getD 0 : ℕ)) : ℚ)) * 100) + 1 / 2) : ℤ) :
            ℚ)) ∧
      (∀ d rest, filesystems = d :: rest →
        (∀ x ∈ filesystems, ¬ (x.mount = some "/" ∨ x.mount = some "C:")) →
        (collectMetricsDouble raw).disk_usage =
          some ((Int.floor (toDouble (toDouble (((d.used.getD 0 : ℕ) : ℚ) /
            (((if d.size.getD 0 = 0 then 1 else d.size.getD 0 : ℕ)) : ℚ)) * 100) + 1 / 2) : ℤ) :
            ℚ)) ∧
      (filesystems = [] → (collectMetricsDouble raw).disk_usage = some 0) ∧
      (∀ d : FsEntry,
        |toDouble (toDouble (((d.used.getD 0 : ℕ) : ℚ) /
              (((if d.size.getD 0 = 0 then 1 else d.size.getD 0 : ℕ)) : ℚ)) * 100) -
            ((d.used.getD 0 : ℕ) : ℚ) /
              (((if d.size.getD 0 = 0 then 1 else d.size.getD 0 : ℕ)) : ℚ) * 100| ≤
          ((d.used.getD 0 : ℕ) : ℚ) /
            (((if d.size.getD 0 = 0 then 1 else d.size.getD 0 : ℕ)) : ℚ) * 100 * (3 / 2 ^ 53)) := by
  have hfs := filesystemsOf_some raw filesystems h
  have hnot : ∀ x : FsEntry, ¬ (x.mount = some "/" ∨ x.mount = some "C:") →
      isRootMount x = false := by
    intro x hx
    cases hr : isRootMount x with
    | false => rfl
    | true => exact absurd ((isRootMount_iff x).1 hr) hx
  refine ⟨?_, ?_, ?_, ?_⟩
  · intro pre d post hl hpre hd
    have hroot := rootDisk_of_first_root pre post d (fun x hx => hnot x (hpre x hx))
      ((isRootMount_iff d).2 hd)
    simp only [collectMetricsDouble, hfs, hl, hroot, diskUsageDouble_eq]
  · intro d rest hl hall
    have hroot := rootDisk_of_no_root d rest (fun x hx => hnot x (hall x (hl ▸ hx)))
    simp only [collectMetricsDouble, hfs, hl, hroot, diskUsageDouble_eq]
  · intro hl
    simp only [collectMetricsDouble, hfs, hl, rootDisk, List.find?, List.head?, diskUsageDouble,
      jsRound, orOne]
    norm_num [toDouble_zero]
  · intro d
    exact double_product_error _ 100 (div_nonneg (Nat.cast_nonneg _) (Nat.cast_nonneg _))
      (by norm_num)

/-- C13, witness: with the list [/boot, /, /home] the root filesystem "/"
(size 200, used 50) gives 25. -/
theorem disk_usage_selection_witness :
    ((filesystemReading [fsEntry "/boot" 100 90, fsEntry "/" 200 50,
          fsEntry "/home" 400 300]).fsData =
        some [fsEntry "/boot" 100 90, fsEntry "/" 200 50, fsEntry "/home" 400 300] ∧
      [fsEntry "/boot" 100 90, fsEntry "/" 200 50, fsEntry "/home" 400 300] =
        [fsEntry "/boot" 100 90] ++ fsEntry "/" 200 50 :: [fsEntry "/home" 400 300]) ∧
      (collectMetricsDouble (filesystemReading [fsEntry "/boot" 100 90, fsEntry "/" 200 50,
        fsEntry "/home" 400 300])).disk_usage = some 25 := by
  have e0 : ((50 : ℕ) : ℚ) / (((if (200 : ℕ) = 0 then 1 else 200 : ℕ)) : ℚ) = 1 / 4 := by
    norm_num
  have e1 : toDouble ((1 : ℚ) / 4) = 1 / 4 := by
    rw [toDouble_of_bounds _ (-2) 4503599627370496] <;> norm_num [abs_of_pos]
  have e2 : toDouble ((1 : ℚ) / 4 * 100) = 25 := by
    rw [toDouble_of_bounds _ 4 7036874417766400] <;> norm_num [abs_of_pos]
  have e3 : Int.floor ((25 : ℚ) + 1 / 2) = 25 := by norm_num [Int.floor_eq_iff]
  refine ⟨⟨rfl, rfl⟩, ?_⟩
  rw [(disk_usage_selection
    (filesystemReading [fsEntry "/boot" 100 90, fsEntry "/" 200 50, fsEntry "/home" 400 300])
    [fsEntry "/boot" 100 90, fsEntry "/" 200 50, fsEntry "/home" 400 300] rfl).1
    [fsEntry "/boot" 100 90] (fsEntry "/" 200 50) [fsEntry "/home" 400 300] rfl
    (by simp [fsEntry]) (by simp [fsEntry])]
  show some ((Int.floor (toDouble (toDouble (((50 : ℕ) : ℚ) /
    (((if (200 : ℕ) = 0 then 1 else 200 : ℕ)) : ℚ)) * 100) + 1 / 2) : ℤ) : ℚ) = some 25
  rw [e0, e1, e2, e3]
  norm_num

/-- C13, as stated, fails: of a root filesystem of 40 GiB, 23 GiB used are
57.5 % exactly, and round(used / size × 100) is 58; the double product is
57.49999999999999, so disk_usage is 57. -/
theorem disk_usage_half_rounds_down :
    (collectMetricsDouble (filesystemReading [fsEntry "/" 42949672960 24696061952])).disk_usage =
        some 57 ∧
      Int.floor ((24696061952 : ℚ) / 42949672960 * 100 + 1 / 2) = 58 ∧
      toDouble (toDouble ((24696061952 : ℚ) / 42949672960) * 100) =
        8092405580431359 / 140737488355328 := by
  have e0 : ((24696061952 : ℕ) : ℚ) /
      (((if (42949672960 : ℕ) = 0 then 1 else 42949672960 : ℕ)) : ℚ) = 23 / 40 := by
    norm_num
  have e1 : toDouble ((23 : ℚ) / 40) = 2589569785738035 / 4503599627370496 := by
    rw [toDouble_of_bounds _ (-1) 5179139571476070] <;> norm_num [abs_of_pos]
  have e2 : toDouble ((2589569785738035 : ℚ) / 4503599627370496 * 100) =
      8092405580431359 / 140737488355328 := by
    rw [toDouble_of_bounds _ 5 8092405580431359] <;> norm_num [abs_of_pos]
  have e3 : Int.floor ((8092405580431359 : ℚ) / 140737488355328 + 1 / 2) = 57 := by
    norm_num [Int.floor_eq_iff]
  have e6 : (24696061952 : ℚ) / 42949672960 = 23 / 40 := by norm_num
  have hr : rootDisk [fsEntry "/" 42949672960 24696061952] =
      fsEntry "/" 42949672960 24696061952 :=
    rootDisk_of_first_root [] [] (fsEntry "/" 42949672960 24696061952) (by simp)
      (by simp [isRootMount, fsEntry])
  refine ⟨?_, by norm_num [Int.floor_eq_iff], by rw [e6, e1, e2]⟩
  simp only [collectMetricsDouble, filesystemsOf, filesystemReading, Option.getD_some, hr,
    diskUsageDouble_eq]
  show some ((Int.floor (toDouble (toDouble (((24696061952 : ℕ) : ℚ) /
    (((if (42949672960 : ℕ) = 0 then 1 else 42949672960 : ℕ)) : ℚ)) * 100) + 1 / 2) : ℤ) : ℚ) =
    some 57
  rw [e0, e1, e2, e3]
  norm_num

/-! ## C14: range of the percentages -/

/-- C14, amended: when the reported CPU load is in [0, 100], the used memory
is at most the total, and the used bytes of the root filesystem are at most
its size, the metrics cpu_usage, memory_usage and disk_usage of the snapshot
lie in [0, 100]. -/
theorem percentages_in_range (raw : RawReading)
    (hcpu : 0 ≤ (cpuOf raw).currentLoad.getD 0 ∧ (cpuOf raw).currentLoad.getD 0 ≤ 100)
    (hmem : (memoryOf raw).used.getD 0 ≤ (memoryOf raw).total.getD 0)
    (hdisk : (rootDisk (filesystemsOf raw)).used.getD 0 ≤
      (rootDisk (filesystemsOf raw)).size.getD 0) :
    (∃ v, (collectMetrics raw).cpu_usage = some v ∧ 0 ≤ v ∧ v ≤ 100) ∧
      (∃ v, (collectMetrics raw).memory_usage = some v ∧ 0 ≤ v ∧ v ≤ 100) ∧
      (∃ v, (collectMetrics raw).disk_usage = some v ∧ 0 ≤ v ∧ v ≤ 100) := by
  have hfrac : ∀ used size : Option ℕ, used.getD 0 ≤ size.getD 0 →
      0 ≤ ((used.getD 0 : ℕ) : ℚ) / ((orOne size : ℕ) : ℚ) ∧
      ((used.getD 0 : ℕ) : ℚ) / ((orOne size : ℕ) : ℚ) ≤ 1 := by
    intro used size hle
    have hpos := orOne_pos size
    refine ⟨div_nonneg (Nat.cast_nonneg _) hpos.le, ?_⟩
    rw [div_le_one hpos]
    have : used.getD 0 ≤ orOne size := by
      rw [orOne_eq_max]
      exact le_trans hle (le_max_left _ _)
    exact_mod_cast this
  refine ⟨⟨cpuUsage (cpuOf raw), rfl, ?_, ?_⟩, ⟨memoryUsage (memoryOf raw), rfl, ?_, ?_⟩,
    ⟨_, rfl, ?_, ?_⟩⟩
  · have h0 : (0 : ℤ) ≤ jsRound ((cpuOf raw).currentLoad.getD 0 * 100) :=
      jsRound_nonneg _ (by linarith [hcpu.1])
    have h0' : (0 : ℚ) ≤ ((jsRound ((cpuOf raw).currentLoad.getD 0 * 100) : ℤ) : ℚ) := by
      exact_mod_cast h0
    unfold cpuUsage
    positivity
  · have h1 : jsRound ((cpuOf raw).currentLoad.getD 0 * 100) ≤ 10000 :=
      jsRound_le _ 10000 (by push_cast; linarith [hcpu.2])
    have h1' : ((jsRound ((cpuOf raw).currentLoad.getD 0 * 100) : ℤ) : ℚ) ≤ 10000 := by
      exact_mod_cast h1
    unfold cpuUsage
    linarith
  · have hf := hfrac _ _ hmem
    have h0 : (0 : ℤ) ≤ jsRound (((memoryOf raw).used.getD 0 : ℕ) /
        ((orOne (memoryOf raw).total : ℕ) : ℚ) * 10000) :=
      jsRound_nonneg _ (by linarith [hf.1])
    have h0' : (0 : ℚ) ≤ ((jsRound (((memoryOf raw).used.getD 0 : ℕ) /
        ((orOne (memoryOf raw).total : ℕ) : ℚ) * 10000) : ℤ) : ℚ) := by
      exact_mod_cast h0
    unfold memoryUsage
    positivity
  · have hf := hfrac _ _ hmem
    have h1 : jsRound (((memoryOf raw).used.getD 0 : ℕ) /
        ((orOne (memoryOf raw).total : ℕ) : ℚ) * 10000) ≤ 10000 :=
      jsRound_le _ 10000 (by push_cast; linarith [hf.2])
    have h1' : ((jsRound (((memoryOf raw).used.getD 0 : ℕ) /
        ((orOne (memoryOf raw).total : ℕ) : ℚ) * 10000) : ℤ) : ℚ) ≤ 10000 := by
      exact_mod_cast h1
    unfold memoryUsage
    linarith
  · have hf := hfrac _ _ hdisk
    have h0 : (0 : ℤ) ≤ diskUsage (rootDisk (filesystemsOf raw)) :=
      jsRound_nonneg _ (by linarith [hf.1])
    exact_mod_cast h0
  · have hf := hfrac _ _ hdisk
    have h1 : diskUsage (rootDisk (filesystemsOf raw)) ≤ 100 :=
      jsRound_le _ 100 (by push_cast; linarith [hf.2])
    exact_mod_cast h1

/-- C14, witness: a reading with a load of 42.567 %, 3 GiB used of 8 GiB of
memory and 50 GB used of a root filesystem of 200 GB satisfies the three
conditions; its metrics are 42.57, 37.5 and 25, all in [0, 100]. -/
theorem percentages_in_range_witness :
    ((0 ≤ (cpuOf busyReading).currentLoad.getD 0 ∧
          (cpuOf busyReading).currentLoad.getD 0 ≤ 100) ∧
        (memoryOf busyReading).used.getD 0 ≤ (memoryOf busyReading).total.getD 0 ∧
        (rootDisk (filesystemsOf busyReading)).used.getD 0 ≤
          (rootDisk (filesystemsOf busyReading)).size.getD 0) ∧
      ((collectMetrics busyReading).cpu_usage = some (4257 / 100) ∧
        (collectMetrics busyReading).memory_usage = some (75 / 2) ∧
        (collectMetrics busyReading).disk_usage = some 25) ∧
      ((∃ v, (collectMetrics busyReading).cpu_usage = some v ∧ 0 ≤ v ∧ v ≤ 100) ∧
        (∃ v, (collectMetrics busyReading).memory_usage = some v ∧ 0 ≤ v ∧ v ≤ 100) ∧
        (∃ v, (collectMetrics busyReading).disk_usage = some v ∧ 0 ≤ v ∧ v ≤ 100)) := by
  have hr : rootDisk (filesystemsOf busyReading) = fsEntry "/" 200000000000 50000000000 :=
    rootDisk_of_first_root [fsEntry "/boot" 1000000000 900000000] []
      (fsEntry "/" 200000000000 50000000000)
      (fun x hx => by rw [List.mem_singleton.1 hx]; simp [isRootMount, fsEntry])
      (by simp [isRootMount, fsEntry])
  have h1 : 0 ≤ (cpuOf busyReading).currentLoad.getD 0 ∧
      (cpuOf busyReading).currentLoad.getD 0 ≤ 100 := by
    simp only [cpuOf, busyReading, Option.getD_some]
    norm_num
  have h2 : (memoryOf busyReading).used.getD 0 ≤ (memoryOf busyReading).total.getD 0 := by
    simp [memoryOf, busyReading]
  have h3 : (rootDisk (filesystemsOf busyReading)).used.getD 0 ≤
      (rootDisk (filesystemsOf busyReading)).size.getD 0 := by
    rw [hr]
    simp [fsEntry]
  refine ⟨⟨h1, h2, h3⟩, ⟨?_, ?_, ?_⟩, percentages_in_range busyReading h1 h2 h3⟩
  · simp only [collectMetrics, cpuOf, busyReading, Option.getD_some, cpuUsage, jsRound]
    norm_num [Int.floor_eq_iff]
  · simp only [collectMetrics, memoryOf, busyReading, Option.getD_some, memoryUsage, orOne,
      jsRound]
    norm_num [Int.floor_eq_iff]
  · simp only [collectMetrics, hr]
    simp only [diskUsage, fsEntry, orOne, jsRound, Option.getD_some]
    norm_num [Int.floor_eq_iff]

/-- C14, as stated, fails: a reported load of 150 gives cpu_usage 150; 3 bytes
used of a total of 2 give memory_usage 150; and a root filesystem with 3 bytes
used of a size of 2 gives disk_usage 150. -/
theorem percentages_above_hundred :
    (collectMetrics (cpuReading 150)).cpu_usage = some 150 ∧
      (collectMetrics (memoryReading 2 3)).memory_usage = some 150 ∧
      (collectMetrics (filesystemReading [fsEntry "/" 2 3])).disk_usage = some 150 := by
  refine ⟨?_, ?_, ?_⟩
  · simp only [collectMetrics, cpuOf, cpuReading, Option.getD_some, cpuUsage, jsRound]
    norm_num [Int.floor_eq_iff]
  · simp only [collectMetrics, memoryOf, memoryReading, Option.getD_some, memoryUsage, orOne,
      jsRound]
    norm_num [Int.floor_eq_iff]
  · have hr : rootDisk [fsEntry "/" 2 3] = fsEntry "/" 2 3 :=
      rootDisk_of_first_root [] [] (fsEntry "/" 2 3) (by simp) (by simp [isRootMount, fsEntry])
    simp only [collectMetrics, filesystemsOf, filesystemReading, Option.getD_some, hr]
    simp only [diskUsage, fsEntry, orOne, jsRound, Option.getD_some]
    norm_num [Int.floor_eq_iff]

/-! ## C15: the primary interface -/

theorem notLoopback_iff (x : NetIface) :
    notLoopback x = true ↔
      ∃ name, x.iface = some name ∧ name ≠ "" ∧ includes name "lo" = false := by
  unfold notLoopback
  cases hx : x.iface with
  | none => simp
  | some name => simp

theorem primaryInterface_of_first (pre post : List NetIface) (i : NetIface)
    (hpre : ∀ x ∈ pre, notLoopback x = false) (hi : notLoopback i = true) :
    primaryInterface (pre ++ i :: post) = i := by
  have : (pre ++ i :: post).find? notLoopback = some i := by
    induction pre with
    | nil => simp [List.find?, hi]
    | cons x xs ih =>
      have hx := hpre x (List.mem_cons_self _ _)
      simp only [List.cons_append, List.find?, hx]
      exact ih (fun y hy => hpre y (List.mem_cons_of_mem _ hy))
  simp [primaryInterface, this]

theorem primaryInterface_of_none (i : NetIface) (rest : List NetIface)
    (h : ∀ x ∈ i :: rest, notLoopback x = false) : primaryInterface (i :: rest) = i := by
  have : (i :: rest).find? notLoopback = none := by
    rw [List.find?_eq_none]
    intro x hx
    simp [h x hx]
  simp [primaryInterface, this]

/-- C15, amended: an interface passes the test of the code when it has a
non-empty name that does not contain "lo".  For every list of interfaces the primary
interface is the first one that passes; the first of the list when none
passes; and the empty record when the list is empty, whose counters are
reported as 0 and whose name as "unknown". -/
theorem primary_interface_selection (network : List NetIface) :
    (∀ x : NetIface, notLoopback x = true ↔
        ∃ name, x.iface = some name ∧ name ≠ "" ∧ includes name "lo" = false) ∧
      (∀ pre i post, network = pre ++ i :: post →
        (∀ x ∈ pre, notLoopback x = false) → notLoopback i = true →
        primaryInterface network = i) ∧
      (∀ i rest, network = i :: rest → (∀ x ∈ network, notLoopback x = false) →
        primaryInterface network = i) ∧
      (network = [] →
        primaryInterface network = {} ∧
        networkDetails (primaryInterface network) =
          { interface := "unknown", rx_bytes := 0, tx_bytes := 0, rx_errors := 0,
            tx_errors := 0, rx_dropped := 0, tx_dropped := 0 }) := by
  refine ⟨notLoopback_iff, ?_, ?_, ?_⟩
  · intro pre i post hl hpre hi
    rw [hl]
    exact primaryInterface_of_first pre post i hpre hi
  · intro i rest hl hall
    rw [hl] at hall ⊢
    exact primaryInterface_of_none i rest hall
  · intro hl
    rw [hl]
    exact ⟨rfl, rfl⟩

/-- C15, witness: in the list [lo, eth0] the primary interface is eth0. -/
theorem primary_interface_selection_witness :
    ([ifaceOf "lo" 7 7, ifaceOf "eth0" 100 50] = [ifaceOf "lo" 7 7] ++ ifaceOf "eth0" 100 50 :: [] ∧
        (∀ x ∈ [ifaceOf "lo" 7 7], notLoopback x = false) ∧
        notLoopback (ifaceOf "eth0" 100 50) = true) ∧
      primaryInterface [ifaceOf "lo" 7 7, ifaceOf "eth0" 100 50] = ifaceOf "eth0" 100 50 := by
  have h2 : ∀ x ∈ [ifaceOf "lo" 7 7], notLoopback x = false := by
    intro x hx
    rw [List.mem_singleton.1 hx]
    simp only [notLoopback, ifaceOf]
    decide
  have h3 : notLoopback (ifaceOf "eth0" 100 50) = true := by
    simp only [notLoopback, ifaceOf]
    decide
  exact ⟨⟨rfl, h2, h3⟩,
    (primary_interface_selection [ifaceOf "lo" 7 7, ifaceOf "eth0" 100 50]).2.1
      [ifaceOf "lo" 7 7] (ifaceOf "eth0" 100 50) [] rfl h2 h3⟩

/-- C15, as stated, fails: in the list [wlo1, enp3s0] the first interface,
the wireless adapter wlo1, is not a loopback interface, yet the primary
interface is the second one, enp3s0, whose name and counters are reported. -/
theorem wireless_interface_passed_over :
    primaryInterface [ifaceOf "wlo1" 500 300, ifaceOf "enp3s0" 7 9] = ifaceOf "enp3s0" 7 9 ∧
      primaryInterface [ifaceOf "wlo1" 500 300, ifaceOf "enp3s0" 7 9] ≠ ifaceOf "wlo1" 500 300 ∧
      (networkDetails (primaryInterface [ifaceOf "wlo1" 500 300, ifaceOf "enp3s0" 7 9])).interface
        = "enp3s0" ∧
      (networkDetails (primaryInterface [ifaceOf "wlo1" 500 300, ifaceOf "enp3s0" 7 9])).rx_bytes
        = 7 := by
  have h1 : notLoopback (ifaceOf "wlo1" 500 300) = false := by
    simp only [notLoopback, ifaceOf]
    decide
  have h2 : notLoopback (ifaceOf "enp3s0" 7 9) = true := by
    simp only [notLoopback, ifaceOf]
    decide
  have h : primaryInterface [ifaceOf "wlo1" 500 300, ifaceOf "enp3s0" 7 9] =
      ifaceOf "enp3s0" 7 9 :=
    primaryInterface_of_first [ifaceOf "wlo1" 500 300] [] (ifaceOf "enp3s0" 7 9)
      (fun x hx => by rw [List.mem_singleton.1 hx]; exact h1) h2
  refine ⟨h, ?_, ?_, ?_⟩
  · rw [h]
    simp [ifaceOf]
  · rw [h]
    simp [networkDetails, ifaceOf, orUnknown]
  · rw [h]
    simp [networkDetails, ifaceOf]

/-! ## C17: connection counts -/

theorem length_filter_add (l : List Connection) (p q : Connection → Bool)
    (hpq : ∀ c, p c = true → q c = false) :
    l.length = (l.filter p).length + (l.filter q).length +
      (l.filter (fun c => !p c && !q c)).length := by
  induction l with
  | nil => simp
  | cons c rest ih =>
    cases hp : p c with
    | true =>
      have hq := hpq c hp
      simp [List.filter_cons, hp, hq, ih]
      omega
    | false =>
      cases hq : q c with
      | true => simp [List.filter_cons, hp, hq, ih]; omega
      | false => simp [List.filter_cons, hp, hq, ih]; omega

/-- C17: for every connection list, count is the list length, tcp_established
is the number of entries whose state is exactly "ESTABLISHED", tcp_listening
the number whose state is exactly "LISTEN"; every other entry is counted in
count only, so count = tcp_established + tcp_listening + (number of others)
and tcp_established + tcp_listening ≤ count. -/
theorem connection_counts (connections : List Connection) :
    (connectionCounts connections).count = connections.length ∧
      (connectionCounts connections).tcp_established =
        connections.countP (fun c => decide (c.state = some "ESTABLISHED")) ∧
      (connectionCounts connections).tcp_listening =
        connections.countP (fun c => decide (c.state = some "LISTEN")) ∧
      (connectionCounts connections).count =
        (connectionCounts connections).tcp_established +
          (connectionCounts connections).tcp_listening +
          connections.countP (fun c =>
            decide (c.state ≠ some "ESTABLISHED" ∧ c.state ≠ some "LISTEN")) ∧
      (connectionCounts connections).tcp_established +
          (connectionCounts connections).tcp_listening ≤
        (connectionCounts connections).count := by
  have hsplit := length_filter_add connections
    (fun c => c.state == some "ESTABLISHED") (fun c => c.state == some "LISTEN")
    (by
      intro c hc
      simp only [beq_iff_eq] at hc
      simp [hc])
  have hothers : (connections.filter (fun c =>
        !(c.state == some "ESTABLISHED") && !(c.state == some "LISTEN"))).length =
      connections.countP (fun c =>
        decide (c.state ≠ some "ESTABLISHED" ∧ c.state ≠ some "LISTEN")) := by
    rw [List.countP_eq_length_filter]
    congr 2
    funext c
    by_cases h1 : c.state = some "ESTABLISHED" <;> by_cases h2 : c.state = some "LISTEN" <;>
      simp [h1, h2]
  have he : (connections.filter (fun c => c.state == some "ESTABLISHED")).length =
      connections.countP (fun c => decide (c.state = some "ESTABLISHED")) := by
    rw [List.countP_eq_length_filter]
    congr 2
    funext c
    by_cases h1 : c.state = some "ESTABLISHED" <;> simp [h1]
  have hl : (connections.filter (fun c => c.state == some "LISTEN")).length =
      connections.countP (fun c => decide (c.state = some "LISTEN")) := by
    rw [List.countP_eq_length_filter]
    congr 2
    funext c
    by_cases h1 : c.state = some "LISTEN" <;> simp [h1]
  refine ⟨rfl, he, hl, ?_, ?_⟩
  · rw [← hothers]; exact hsplit
  · show (connections.filter (fun c => c.state == some "ESTABLISHED")).length +
        (connections.filter (fun c => c.state == some "LISTEN")).length ≤ connections.length
    omega

/-! ## C16: the five busiest processes -/

theorem jsOrderedInsert_perm {α : Type} (cmp : α → α → ℚ) (a : α) :
    ∀ l : List α, (jsOrderedInsert cmp a l).Perm (a :: l) := by
  intro l
  induction l with
  | nil => exact List.Perm.refl _
  | cons b rest ih =>
    unfold jsOrderedInsert
    split_ifs
    · exact List.Perm.refl _
    · exact (List.Perm.cons b ih).trans (List.Perm.swap a b rest)

theorem jsSort_perm {α : Type} (cmp : α → α → ℚ) : ∀ l : List α, (jsSort cmp l).Perm l := by
  intro l
  induction l with
  | nil => exact List.Perm.refl _
  | cons a rest ih =>
    unfold jsSort
    exact (jsOrderedInsert_perm cmp a _).trans (List.Perm.cons a ih)

theorem jsOrderedInsert_cpu_sorted (a : Process) :
    ∀ l : List Process, l.Pairwise (fun x y => y.cpu.getD 0 ≤ x.cpu.getD 0) →
      (jsOrderedInsert cmpCpu a l).Pairwise (fun x y => y.cpu.getD 0 ≤ x.cpu.getD 0) := by
  intro l
  induction l with
  | nil => intro _; simp [jsOrderedInsert]
  | cons b rest ih =>
    intro hs
    have hb := List.pairwise_cons.1 hs
    unfold jsOrderedInsert
    by_cases hc : cmpCpu a b ≤ 0
    · rw [if_pos hc]
      have hba : b.cpu.getD 0 ≤ a.cpu.getD 0 := by
        unfold cmpCpu at hc
        linarith
      refine List.pairwise_cons.2 ⟨?_, hs⟩
      intro y hy
      rcases List.mem_cons.1 hy with rfl | hy'
      · exact hba
      · exact le_trans (hb.1 y hy') hba
    · rw [if_neg hc]
      have hab : a.cpu.getD 0 < b.cpu.getD 0 := by
        unfold cmpCpu at hc
        linarith
      refine List.pairwise_cons.2 ⟨?_, ih hb.2⟩
      intro y hy
      rcases List.mem_cons.1 ((jsOrderedInsert_perm cmpCpu a rest).mem_iff.1 hy) with rfl | hy'
      · exact hab.le
      · exact hb.1 y hy'

theorem jsSort_cpu_sorted :
    ∀ l : List Process, (jsSort cmpCpu l).Pairwise (fun x y => y.cpu.getD 0 ≤ x.cpu.getD 0) := by
  intro l
  induction l with
  | nil => simp [jsSort]
  | cons a rest ih =>
    unfold jsSort
    exact jsOrderedInsert_cpu_sorted a _ ih

theorem jsOrderedInsert_cpu_filter (a : Process) (c : ℚ) :
    ∀ l : List Process,
      (jsOrderedInsert cmpCpu a l).filter (fun p => decide (p.cpu.getD 0 = c)) =
        (a :: l).filter (fun p => decide (p.cpu.getD 0 = c)) := by
  intro l
  induction l with
  | nil => simp [jsOrderedInsert]
  | cons b rest ih =>
    unfold jsOrderedInsert
    by_cases hc : cmpCpu a b ≤ 0
    · rw [if_pos hc]
    · rw [if_neg hc]
      have hab : a.cpu.getD 0 < b.cpu.getD 0 := by
        unfold cmpCpu at hc
        linarith
      rw [List.filter_cons, ih]
      by_cases ha : a.cpu.getD 0 = c
      · have hb : ¬ b.cpu.getD 0 = c := fun e => by rw [ha, e] at hab; exact lt_irrefl _ hab
        simp [List.filter_cons, ha, hb]
      · simp [List.filter_cons, ha]

theorem jsSort_cpu_filter (c : ℚ) :
    ∀ l : List Process,
      (jsSort cmpCpu l).filter (fun p => decide (p.cpu.getD 0 = c)) =
        l.filter (fun p => decide (p.cpu.getD 0 = c)) := by
  intro l
  induction l with
  | nil => simp [jsSort]
  | cons a rest ih =>
    unfold jsSort
    rw [jsOrderedInsert_cpu_filter, List.filter_cons, List.filter_cons, ih]

/-- C16: for every process list of length n, top_cpu has length min(5, n) and
consists of the first min(5, n) entries, each projected to {name, cpu, memory}
(missing cpu and memory as 0), of the stable descending sort of the list by
cpu: a permutation of the list, in non-increasing order of cpu (missing cpu
as 0), in which the processes of any one cpu value keep their original
relative order. -/
theorem top_cpu_stable_sort (processes : ProcReading) (list : List Process)
    (h : processes.list = some list) :
    ∃ sorted : List Process,
      sorted.Perm list ∧
      sorted.Pairwise (fun a b => b.cpu.getD 0 ≤ a.cpu.getD 0) ∧
      (∀ c : ℚ, sorted.filter (fun p => decide (p.cpu.getD 0 = c)) =
        list.filter (fun p => decide (p.cpu.getD 0 = c))) ∧
      topCpu processes =
        (sorted.take (min 5 list.length)).map
          (fun p => { name := p.name, cpu := p.cpu.getD 0, memory := p.mem.getD 0 }) ∧
      (topCpu processes).length = min 5 list.length := by
  have hlen : (jsSort cmpCpu list).length = list.length := (jsSort_perm cmpCpu list).length_eq
  have htake : (jsSort cmpCpu list).take (min 5 list.length) = (jsSort cmpCpu list).take 5 := by
    rcases Nat.le_total 5 list.length with h5 | h5
    · rw [min_eq_left h5]
    · rw [min_eq_right h5, List.take_of_length_le (by omega), List.take_of_length_le (by omega)]
  refine ⟨jsSort cmpCpu list, jsSort_perm cmpCpu list, jsSort_cpu_sorted list,
    fun c => jsSort_cpu_filter c list, ?_, ?_⟩
  · rw [htake]
    simp only [topCpu, h]
    rfl
  · simp only [topCpu, h, List.length_map, List.length_take, hlen]

/-- C16, witness: six processes with ties; d (50) comes first, then b and e
(30) in their original order, then a and c (10); f (5) is cut off. -/
theorem top_cpu_stable_sort_witness :
    ({ list := some sixProcesses } : ProcReading).list = some sixProcesses ∧
      topCpu { list := some sixProcesses } =
        [{ name := some "d", cpu := 50, memory := 0 }, { name := some "b", cpu := 30, memory := 0 },
          { name := some "e", cpu := 30, memory := 0 }, { name := some "a", cpu := 10, memory := 0 },
          { name := some "c", cpu := 10, memory := 0 }] ∧
      (topCpu { list := some sixProcesses }).length = min 5 sixProcesses.length := by
  obtain ⟨_, _, _, _, _, hlen⟩ := top_cpu_stable_sort { list := some sixProcesses } sixProcesses rfl
  refine ⟨rfl, ?_, hlen⟩
  norm_num [topCpu, sixProcesses, jsSort, jsOrderedInsert, cmpCpu, processOf, toTopProcess]

/-! ## C18: the gigabyte fields -/

theorem bytesToGb_zero : bytesToGb 0 = 0 := by
  unfold bytesToGb jsRound
  norm_num

/-- The gigabyte fields that follow the conversion for every reading: the four
memory fields, the disk total and used, and the disk available when both the
size and the used bytes of the root filesystem are non-zero. -/
theorem gigabyte_fields (memory : MemReading) (d : FsEntry) :
    (memoryDetails memory).total_gb = bytesToGb ((memory.total.getD 0 : ℕ) : ℚ) ∧
      (memoryDetails memory).used_gb = bytesToGb ((memory.used.getD 0 : ℕ) : ℚ) ∧
      (memoryDetails memory).free_gb =
        bytesToGb (((memory.total.getD 0 : ℕ) : ℚ) - ((memory.used.getD 0 : ℕ) : ℚ)) ∧
      (diskDetails d).total_gb = bytesToGb ((d.size.getD 0 : ℕ) : ℚ) ∧
      (diskDetails d).used_gb = bytesToGb ((d.used.getD 0 : ℕ) : ℚ) ∧
      (d.size.getD 0 ≠ 0 → d.used.getD 0 ≠ 0 →
        (diskDetails d).available_gb =
          bytesToGb (((d.size.getD 0 : ℕ) : ℚ) - ((d.used.getD 0 : ℕ) : ℚ))) := by
  refine ⟨rfl, rfl, rfl, ?_, ?_, ?_⟩
  · by_cases h : d.size.getD 0 = 0
    · simp [diskDetails, h, bytesToGb_zero]
    · simp [diskDetails, h]
  · by_cases h : d.used.getD 0 = 0
    · simp [diskDetails, h, bytesToGb_zero]
    · simp [diskDetails, h]
  · intro h1 h2
    simp [diskDetails, h1, h2]

/-- C18 at a root filesystem of 1 GiB with used = 0: the code reports
available_gb = 0 (the test `rootDisk.size && rootDisk.used` is false when
used is 0), while round((size − used) / 2^30 × 100) / 100 is 1 and total_gb
is 1. -/
theorem disk_available_gb_empty_disk :
    rootDisk [fsEntry "/" 1073741824 0] = fsEntry "/" 1073741824 0 ∧
      (diskDetails (rootDisk [fsEntry "/" 1073741824 0])).available_gb = 0 ∧
      (diskDetails (rootDisk [fsEntry "/" 1073741824 0])).total_gb = 1 ∧
      ((Int.floor (((1073741824 : ℚ) - 0) / 2 ^ 30 * 100 + 1 / 2) : ℤ) : ℚ) / 100 = 1 := by
  have hr : rootDisk [fsEntry "/" 1073741824 0] = fsEntry "/" 1073741824 0 :=
    rootDisk_of_first_root [] [] (fsEntry "/" 1073741824 0) (by simp)
      (by simp [isRootMount, fsEntry])
  refine ⟨hr, ?_, ?_, ?_⟩
  · rw [hr]
    simp [diskDetails, fsEntry]
  · rw [hr]
    simp only [diskDetails, fsEntry, Option.getD_some, bytesToGb, jsRound]
    norm_num [Int.floor_eq_iff]
  · norm_num [Int.floor_eq_iff]

/-! ## C19: `updateThresholds` -/

theorem validEntry_eq_some (key : String) (value : JSValue) (v : ℚ) :
    validEntry key value = some v ↔
      value = JSValue.number v ∧ 0 ≤ v ∧ (key = "load_average" ∨ v ≤ 100) := by
  cases value with
  | other => simp [validEntry]
  | number w =>
    unfold validEntry
    by_cases h0 : 0 ≤ w
    · by_cases h1 : key = "load_average" ∨ w ≤ 100
      · simp only [h0, h1, if_true, Option.some.injEq, JSValue.number.injEq]
        constructor
        · rintro rfl; exact ⟨rfl, h0, h1⟩
        · rintro ⟨h, -, -⟩; exact h
      · simp only [h0, h1, if_true, if_false, JSValue.number.injEq]
        constructor
        · intro h; cases h
        · rintro ⟨rfl, -, h⟩
          exact absurd h h1
    · simp only [h0, if_false, JSValue.number.injEq]
      constructor
      · intro h; cases h
      · rintro ⟨rfl, h, -⟩
        exact absurd h h0

theorem validFold_absent (k : String) :
    ∀ (upd : List (String × JSValue)) (acc : String → Option ℚ),
      k ∉ upd.map Prod.fst →
      (upd.foldl
        (fun (acc : String → Option ℚ) (entry : String × JSValue) =>
          match validEntry entry.1 entry.2 with
          | some v => fun k => if k = entry.1 then some v else acc k
          | none => acc) acc) k = acc k := by
  intro upd
  induction upd with
  | nil => intro acc _; rfl
  | cons e rest ih =>
    intro acc hk
    simp only [List.map_cons, List.mem_cons, not_or] at hk
    rw [List.foldl_cons, ih _ hk.2]
    cases validEntry e.1 e.2 with
    | none => rfl
    | some v => simp [hk.1]

theorem validFold_present (k : String) (value : JSValue) :
    ∀ (upd : List (String × JSValue)) (acc : String → Option ℚ),
      (upd.map Prod.fst).Nodup → (k, value) ∈ upd →
      (upd.foldl
        (fun (acc : String → Option ℚ) (entry : String × JSValue) =>
          match validEntry entry.1 entry.2 with
          | some v => fun k => if k = entry.1 then some v else acc k
          | none => acc) acc) k =
        match validEntry k value with
        | some v => some v
        | none => acc k := by
  intro upd
  induction upd with
  | nil => intro acc _ h; simp at h
  | cons e rest ih =>
    intro acc hnd hmem
    simp only [List.map_cons, List.nodup_cons] at hnd
    rw [List.foldl_cons]
    rcases List.mem_cons.1 hmem with heq | hin
    · subst heq
      rw [validFold_absent k rest _ hnd.1]
      cases validEntry k value with
      | none => rfl
      | some v => simp
    · have hne : k ≠ e.1 := by
        intro h
        exact hnd.1 (h ▸ List.mem_map_of_mem Prod.fst hin)
      rw [ih _ hnd.2 hin]
      cases validEntry k value with
      | some v => rfl
      | none =>
        cases validEntry e.1 e.2 with
        | none => rfl
        | some w => simp [hne]

theorem validFold_some (k : String) (v : ℚ) :
    ∀ (upd : List (String × JSValue)) (acc : String → Option ℚ),
      (upd.foldl
        (fun (acc : String → Option ℚ) (entry : String × JSValue) =>
          match validEntry entry.1 entry.2 with
          | some v => fun k => if k = entry.1 then some v else acc k
          | none => acc) acc) k = some v →
      acc k = some v ∨ ∃ value, (k, value) ∈ upd ∧ validEntry k value = some v := by
  intro upd
  induction upd with
  | nil => intro acc h; exact Or.inl h
  | cons e rest ih =>
    intro acc h
    rw [List.foldl_cons] at h
    rcases ih _ h with hacc | ⟨value, hmem, hv⟩
    · cases he : validEntry e.1 e.2 with
      | none =>
        rw [he] at hacc
        exact Or.inl hacc
      | some w =>
        rw [he] at hacc
        by_cases hk : k = e.1
        · simp only [hk, if_true, Option.some.injEq] at hacc
          refine Or.inr ⟨e.2, ?_, ?_⟩
          · rw [hk]; exact List.mem_cons_self _ _
          · rw [hk, he, hacc]
        · simp only [hk, if_false] at hacc
          exact Or.inl hacc
    · exact Or.inr ⟨value, List.mem_cons_of_mem _ hmem, hv⟩

/-- C19: for every current threshold set and every update object (its keys
are distinct), `updateThresholds` returns the set it stores; that set maps the
key of every entry whose value is a number ≥ 0, and ≤ 100 unless the key is
load_average, to that value; the key of every other entry keeps its prior
value; and every key absent from the update keeps its prior value.  The
function is total: the call always returns. -/
theorem updateThresholds_merge (m : SystemMonitor) (upd : List (String × JSValue))
    (hnodup : (upd.map Prod.fst).Nodup) :
    (updateThresholds m upd).1.thresholds = (updateThresholds m upd).2 ∧
      (∀ key v, (key, JSValue.number v) ∈ upd → 0 ≤ v → (key = "load_average" ∨ v ≤ 100) →
        (updateThresholds m upd).2 key = some v) ∧
      (∀ key value, (key, value) ∈ upd →
        (¬ ∃ v, value = JSValue.number v ∧ 0 ≤ v ∧ (key = "load_average" ∨ v ≤ 100)) →
        (updateThresholds m upd).2 key = m.thresholds key) ∧
      (∀ key, key ∉ upd.map Prod.fst → (updateThresholds m upd).2 key = m.thresholds key) := by
  refine ⟨rfl, ?_, ?_, ?_⟩
  · intro key v hmem h0 h100
    have hv : validEntry key (JSValue.number v) = some v :=
      (validEntry_eq_some key _ v).2 ⟨rfl, h0, h100⟩
    have := validFold_present key (JSValue.number v) upd (fun _ => none) hnodup hmem
    rw [hv] at this
    simp only [updateThresholds, validThresholds, this]
  · intro key value hmem hinv
    have hv : validEntry key value = none := by
      cases h : validEntry key value with
      | none => rfl
      | some v => exact absurd ⟨v, (validEntry_eq_some key value v).1 h⟩ hinv
    have := validFold_present key value upd (fun _ => none) hnodup hmem
    rw [hv] at this
    simp only [updateThresholds, validThresholds, this]
  · intro key hk
    have := validFold_absent key upd (fun _ => none) hk
    simp only [updateThresholds, validThresholds, this]

/-- C19, witness: `updateThresholds({cpu_usage: 150, memory_usage: 50})` on the
defaults sets memory_usage to 50 and leaves cpu_usage at 80 and disk_usage
at 80. -/
theorem updateThresholds_merge_witness :
    ([("cpu_usage", JSValue.number 150), ("memory_usage", JSValue.number 50)].map
        Prod.fst).Nodup ∧
      (updateThresholds (SystemMonitor.new defaultThresholds)
        [("cpu_usage", JSValue.number 150), ("memory_usage", JSValue.number 50)]).2
          "memory_usage" = some 50 ∧
      (updateThresholds (SystemMonitor.new defaultThresholds)
        [("cpu_usage", JSValue.number 150), ("memory_usage", JSValue.number 50)]).2
          "cpu_usage" = some 80 ∧
      (updateThresholds (SystemMonitor.new defaultThresholds)
        [("cpu_usage", JSValue.number 150), ("memory_usage", JSValue.number 50)]).2
          "disk_usage" = some 80 := by
  have hnd : ([("cpu_usage", JSValue.number 150), ("memory_usage", JSValue.number 50)].map
      Prod.fst).Nodup := by simp
  have h := updateThresholds_merge (SystemMonitor.new defaultThresholds)
    [("cpu_usage", JSValue.number 150), ("memory_usage", JSValue.number 50)] hnd
  refine ⟨hnd, ?_, ?_, ?_⟩
  · exact h.2.1 "memory_usage" 50 (by simp) (by norm_num) (Or.inr (by norm_num))
  · rw [h.2.2.1 "cpu_usage" (JSValue.number 150) (by simp) (by
      rintro ⟨v, hv, -, h100⟩
      simp only [JSValue.number.injEq] at hv
      subst hv
      rcases h100 with h | h
      · exact absurd h (by decide)
      · norm_num at h)]
    simp [SystemMonitor.new, defaultThresholds]
  · rw [h.2.2.2 "disk_usage" (by simp)]
    simp [SystemMonitor.new, defaultThresholds]

/-! ## C20: range of the percentage thresholds -/

theorem updateThresholds_preserves_range (m : SystemMonitor) (upd : List (String × JSValue))
    (hm : ∀ key v, key ≠ "load_average" → m.thresholds key = some v → 0 ≤ v ∧ v ≤ 100) :
    ∀ key v, key ≠ "load_average" → (updateThresholds m upd).1.thresholds key = some v →
      0 ≤ v ∧ v ≤ 100 := by
  intro key v hkey hres
  simp only [updateThresholds, validThresholds] at hres
  cases hf : (upd.foldl
        (fun (acc : String → Option ℚ) (entry : String × JSValue) =>
          match validEntry entry.1 entry.2 with
          | some v => fun k => if k = entry.1 then some v else acc k
          | none => acc) (fun _ => none)) key with
  | none =>
    rw [hf] at hres
    exact hm key v hkey hres
  | some w =>
    rw [hf] at hres
    simp only [Option.some.injEq] at hres
    subst hres
    rcases validFold_some key w upd (fun _ => none) hf with h | ⟨value, -, hv⟩
    · simp at h
    · obtain ⟨-, h0, h100⟩ := (validEntry_eq_some key value w).1 hv
      rcases h100 with h | h
      · exact absurd h hkey
      · exact ⟨h0, h⟩

theorem defaultThresholds_range :
    ∀ key v, key ≠ "load_average" → defaultThresholds key = some v → 0 ≤ v ∧ v ≤ 100 := by
  intro key v hkey h
  unfold defaultThresholds at h
  have hc : ∀ c : ℚ, 0 ≤ c → c ≤ 100 → some c = some v → 0 ≤ v ∧ v ≤ 100 := by
    intro c h0 h100 e
    simp only [Option.some.injEq] at e
    subst e
    exact ⟨h0, h100⟩
  split_ifs at h with h1 h2 h3 h4
  · exact hc 80 (by norm_num) (by norm_num) h
  · exact hc 85 (by norm_num) (by norm_num) h
  · exact hc 80 (by norm_num) (by norm_num) h
  · exact hc 5 (by norm_num) (by norm_num) h

/-- C20: in every threshold set reached from the default thresholds by a
sequence of `updateThresholds` calls, every configured key other than
load_average has its value in [0, 100]. -/
theorem percentage_thresholds_in_range (updates : List (List (String × JSValue)))
    (key : String) (v : ℚ) (hkey : key ≠ "load_average")
    (hv : (applyUpdates (SystemMonitor.new defaultThresholds) updates).thresholds key = some v) :
    0 ≤ v ∧ v ≤ 100 := by
  have hinv : ∀ (updates : List (List (String × JSValue))) (m : SystemMonitor),
      (∀ key v, key ≠ "load_average" → m.thresholds key = some v → 0 ≤ v ∧ v ≤ 100) →
      ∀ key v, key ≠ "load_average" → (applyUpdates m updates).thresholds key = some v →
        0 ≤ v ∧ v ≤ 100 := by
    intro updates
    induction updates with
    | nil => intro m hm; exact hm
    | cons u rest ih =>
      intro m hm
      exact ih (updateThresholds m u).1 (updateThresholds_preserves_range m u hm)
  exact hinv updates (SystemMonitor.new defaultThresholds) defaultThresholds_range key v hkey hv

/-- C20, witness: after `updateThresholds({cpu_usage: 150, memory_usage: 50})`
and then `updateThresholds({disk_usage: 95})`, memory_usage is 50. -/
theorem percentage_thresholds_in_range_witness :
    ("memory_usage" ≠ "load_average" ∧
        (applyUpdates (SystemMonitor.new defaultThresholds)
          [[("cpu_usage", JSValue.number 150), ("memory_usage", JSValue.number 50)],
            [("disk_usage", JSValue.number 95)]]).thresholds "memory_usage" = some 50) ∧
      ((0 : ℚ) ≤ 50 ∧ (50 : ℚ) ≤ 100) := by
  have h1 : "memory_usage" ≠ "load_average" := by decide
  have h2 : (applyUpdates (SystemMonitor.new defaultThresholds)
      [[("cpu_usage", JSValue.number 150), ("memory_usage", JSValue.number 50)],
        [("disk_usage", JSValue.number 95)]]).thresholds "memory_usage" = some 50 := by
    norm_num [applyUpdates, updateThresholds, validThresholds, validEntry, SystemMonitor.new,
      defaultThresholds]
    simp
  exact ⟨⟨h1, h2⟩, percentage_thresholds_in_range _ "memory_usage" 50 h1 h2⟩

/-! ## C21: the load_average threshold -/

theorem updateThresholds_preserves_nonneg (m : SystemMonitor) (upd : List (String × JSValue))
    (key : String) (hm : ∃ v, m.thresholds key = some v ∧ 0 ≤ v) :
    ∃ v, (updateThresholds m upd).1.thresholds key = some v ∧ 0 ≤ v := by
  simp only [updateThresholds, validThresholds]
  cases hf : (upd.foldl
        (fun (acc : String → Option ℚ) (entry : String × JSValue) =>
          match validEntry entry.1 entry.2 with
          | some v => fun k => if k = entry.1 then some v else acc k
          | none => acc) (fun _ => none)) key with
  | none => exact hm
  | some w =>
    rcases validFold_some key w upd (fun _ => none) hf with h | ⟨value, -, hv⟩
    · simp at h
    · exact ⟨w, rfl, ((validEntry_eq_some key value w).1 hv).2.1⟩

/-- C21, amended: every threshold set reached from the default thresholds by
a sequence of `updateThresholds` calls has a load_average threshold, and it is
greater than or equal to 0. -/
theorem load_average_threshold_nonneg (updates : List (List (String × JSValue))) :
    ∃ v, (applyUpdates (SystemMonitor.new defaultThresholds) updates).thresholds
        "load_average" = some v ∧ 0 ≤ v := by
  have hinv : ∀ (updates : List (List (String × JSValue))) (m : SystemMonitor),
      (∃ v, m.thresholds "load_average" = some v ∧ 0 ≤ v) →
      ∃ v, (applyUpdates m updates).thresholds "load_average" = some v ∧ 0 ≤ v := by
    intro updates
    induction updates with
    | nil => intro m hm; exact hm
    | cons u rest ih =>
      intro m hm
      exact ih (updateThresholds m u).1 (updateThresholds_preserves_nonneg m u _ hm)
  refine hinv updates (SystemMonitor.new defaultThresholds) ⟨4, ?_, by norm_num⟩
  simp [SystemMonitor.new, defaultThresholds]

/-- C21, as stated, fails: `updateThresholds({load_average: 0})` is accepted
and leaves the load_average threshold at 0, which is not greater than 0. -/
theorem load_average_threshold_zero_accepted :
    (applyUpdates (SystemMonitor.new defaultThresholds)
      [[("load_average", JSValue.number 0)]]).thresholds "load_average" = some 0 := by
  simp [applyUpdates, updateThresholds, validThresholds, validEntry]

/-! ## C28: an accepted threshold of 0 -/

/-- C28 at the threshold 0: `updateThresholds({cpu_usage: 0})` on the defaults
is accepted and stores the threshold 0 for cpu_usage, yet the next evaluation
with cpu_usage = 5 > 0 and no prior alert emits no alert. -/
theorem accepted_zero_threshold_not_honoured :
    (updateThresholds (SystemMonitor.new defaultThresholds)
        [("cpu_usage", JSValue.number 0)]).1.thresholds "cpu_usage" = some 0 ∧
      (updateThresholds (SystemMonitor.new defaultThresholds)
        [("cpu_usage", JSValue.number 0)]).1.lastAlerts "cpu_usage" = none ∧
      (checkThresholds
        (updateThresholds (SystemMonitor.new defaultThresholds)
          [("cpu_usage", JSValue.number 0)]).1 (cpuOnly 5) 1000).2 = [] := by
  have hth : (updateThresholds (SystemMonitor.new defaultThresholds)
      [("cpu_usage", JSValue.number 0)]).1.thresholds "cpu_usage" = some 0 := by
    simp [updateThresholds, validThresholds, validEntry]
  refine ⟨hth, rfl, ?_⟩
  rw [checkThresholds_alerts]
  simp only [thresholdChecks, cpuOnly, List.filterMap_cons, List.filterMap_nil, hth]
  simp [keyOutcome, updateThresholds, validThresholds, validEntry, SystemMonitor.new,
    defaultThresholds]
  norm_num

/-! ## C29: loopback by substring -/

theorem includes_iff (s sub : String) :
    includes s sub = true ↔ ∃ a b, s.data = a ++ sub.data ++ b := by
  unfold includes
  rw [List.any_eq_true]
  constructor
  · rintro ⟨t, ht, hp⟩
    obtain ⟨a, ha⟩ := (List.mem_tails _ _).1 ht
    obtain ⟨b, hb⟩ := List.isPrefixOf_iff_prefix.1 hp
    exact ⟨a, b, by rw [← ha, ← hb, List.append_assoc]⟩
  · rintro ⟨a, b, h⟩
    refine ⟨sub.data ++ b, (List.mem_tails _ _).2 ⟨a, by rw [h, List.append_assoc]⟩, ?_⟩
    exact List.isPrefixOf_iff_prefix.2 ⟨b, rfl⟩

/-- C29: `includes` is the substring test, and for every interface list the
selected interface is the first entry whose name is non-empty and does not
contain "lo" anywhere in it (every entry before it having no name, an empty
name, or a name that contains "lo"). -/
theorem primary_interface_substring (network : List NetIface) :
    (∀ s sub : String, includes s sub = true ↔ ∃ a b, s.data = a ++ sub.data ++ b) ∧
      (∀ pre i post name, network = pre ++ i :: post →
        i.iface = some name → name ≠ "" → includes name "lo" = false →
        (∀ x ∈ pre, ∀ n, x.iface = some n → n = "" ∨ includes n "lo" = true) →
        primaryInterface network = i) := by
  refine ⟨includes_iff, ?_⟩
  intro pre i post name hl hi hne hlo hpre
  rw [hl]
  refine primaryInterface_of_first pre post i ?_ ((notLoopback_iff i).2 ⟨name, hi, hne, hlo⟩)
  intro x hx
  cases hn : notLoopback x with
  | false => rfl
  | true =>
    obtain ⟨n, hxn, hn0, hnlo⟩ := (notLoopback_iff x).1 hn
    rcases hpre x hx n hxn with h | h
    · exact absurd h hn0
    · rw [h] at hnlo; cases hnlo

/-- C29, witness: with "wlo1" listed before "eth0", "wlo1" is passed over and
"eth0" is selected. -/
theorem primary_interface_substring_witness :
    ([ifaceOf "wlo1" 1 1, ifaceOf "eth0" 2 2] = [ifaceOf "wlo1" 1 1] ++ ifaceOf "eth0" 2 2 :: [] ∧
        (ifaceOf "eth0" 2 2).iface = some "eth0" ∧ "eth0" ≠ "" ∧
        includes "eth0" "lo" = false ∧ includes "wlo1" "lo" = true) ∧
      primaryInterface [ifaceOf "wlo1" 1 1, ifaceOf "eth0" 2 2] = ifaceOf "eth0" 2 2 := by
  have h1 : includes "eth0" "lo" = false := by decide
  have h2 : includes "wlo1" "lo" = true := by decide
  refine ⟨⟨rfl, rfl, by decide, h1, h2⟩, ?_⟩
  refine (primary_interface_substring [ifaceOf "wlo1" 1 1, ifaceOf "eth0" 2 2]).2
    [ifaceOf "wlo1" 1 1] (ifaceOf "eth0" 2 2) [] "eth0" rfl rfl (by decide) h1 ?_
  intro x hx n hn
  rw [List.mem_singleton.1 hx] at hn
  simp only [ifaceOf, Option.some.injEq] at hn
  rw [← hn]
  exact Or.inr h2

/-! ## C26: historical queries -/

theorem metricMapping_unmapped (metric : String)
    (h : metric ∉ ["cpu_usage", "memory_usage", "disk_usage", "system_load", "disk_io"])
    (hp : metric ∉ objectPrototypeKeys) :
    metricMapping metric = none := by
  simp only [List.mem_cons, List.mem_singleton, not_or, List.not_mem_nil, or_false] at h
  simp [metricMapping, h.1, h.2.1, h.2.2.1, h.2.2.2.1, h.2.2.2.2, hp]

/-- C26, amended: `getHistoricalData` resolves to the empty list when no
store client is configured, whatever the library does.  With a client, when
`getQueryApi` returns: it resolves to the empty list for a key that is neither
one of cpu_usage, memory_usage, disk_usage, system_load, disk_io nor a name
inherited from `Object.prototype`, and when the query ends with the error
callback; and it resolves whenever `queryRows` does not throw.  It rejects
exactly when `getQueryApi` throws, or the key finds a mapping and `queryRows`
throws. -/
theorem getHistoricalData_resolves (client : Bool) (bucket hostname : String)
    (queryApi : Except String (FluxQuery → QueryRun)) (metric timeRange : String) :
    (client = false →
        getHistoricalData client bucket hostname queryApi metric timeRange =
          PromiseResult.resolved []) ∧
      (∀ backend, queryApi = Except.ok backend →
        metric ∉ ["cpu_usage", "memory_usage", "disk_usage", "system_load", "disk_io"] →
        metric ∉ objectPrototypeKeys →
        getHistoricalData client bucket hostname queryApi metric timeRange =
          PromiseResult.resolved []) ∧
      (∀ backend mapping message, queryApi = Except.ok backend →
        metricMapping metric = some mapping →
        (backend (fluxQueryOf bucket hostname mapping timeRange)).outcome =
          QueryEnd.error message →
        getHistoricalData client bucket hostname queryApi metric timeRange =
          PromiseResult.resolved []) ∧
      (∀ backend, queryApi = Except.ok backend →
        (∀ mapping e, metricMapping metric = some mapping →
          (backend (fluxQueryOf bucket hostname mapping timeRange)).outcome ≠
            QueryEnd.throws e) →
        ∃ data, getHistoricalData client bucket hostname queryApi metric timeRange =
          PromiseResult.resolved data) ∧
      (∀ e, getHistoricalData true bucket hostname queryApi metric timeRange =
          PromiseResult.rejected e ↔
        (queryApi = Except.error e ∨
          ∃ backend mapping, queryApi = Except.ok backend ∧
            metricMapping metric = some mapping ∧
            (backend (fluxQueryOf bucket hostname mapping timeRange)).outcome =
              QueryEnd.throws e)) := by
  refine ⟨?_, ?_, ?_, ?_, ?_⟩
  · intro hc
    simp [getHistoricalData, hc]
  · intro backend hq hm hp
    cases client <;> simp [getHistoricalData, hq, metricMapping_unmapped metric hm hp]
  · intro backend mapping message hq hm ho
    cases client <;> simp [getHistoricalData, hq, hm, ho]
  · intro backend hq hno
    cases client with
    | false => exact ⟨[], by simp [getHistoricalData]⟩
    | true =>
      cases hm : metricMapping metric with
      | none => exact ⟨[], by simp [getHistoricalData, hq, hm]⟩
      | some mapping =>
        cases ho : (backend (fluxQueryOf bucket hostname mapping timeRange)).outcome with
        | complete =>
          exact ⟨(backend (fluxQueryOf bucket hostname mapping timeRange)).rows.map
            (toDataPoint mapping), by simp [getHistoricalData, hq, hm, ho]⟩
        | error msg => exact ⟨[], by simp [getHistoricalData, hq, hm, ho]⟩
        | throws e => exact absurd ho (hno mapping e hm)
  · intro e
    cases hq : queryApi with
    | error e2 =>
      simp [getHistoricalData]
    | ok backend =>
      cases hm : metricMapping metric with
      | none => simp [getHistoricalData, hm]
      | some mapping =>
        cases ho : (backend (fluxQueryOf bucket hostname mapping timeRange)).outcome with
        | complete => simp [getHistoricalData, hm, ho]
        | error msg => simp [getHistoricalData, hm, ho]
        | throws e2 => simp [getHistoricalData, hm, ho]

/-- C26, witness: the key cpu_usage against a query service that reports an
error resolves to the empty list; so does the unknown key "temperature". -/
theorem getHistoricalData_resolves_witness :
    (metricMapping "cpu_usage" =
          some { measurement := "cpu", field := some "usage_percent" } ∧
        (failingBackend (fluxQueryOf "metrics" "host1"
          { measurement := "cpu", field := some "usage_percent" } "1h")).outcome =
          QueryEnd.error "unavailable" ∧
        "temperature" ∉ ["cpu_usage", "memory_usage", "disk_usage", "system_load", "disk_io"] ∧
        "temperature" ∉ objectPrototypeKeys) ∧
      getHistoricalData true "metrics" "host1" (Except.ok failingBackend) "cpu_usage" "1h" =
        PromiseResult.resolved [] ∧
      getHistoricalData true "metrics" "host1" (Except.ok failingBackend) "temperature" "1h" =
        PromiseResult.resolved [] := by
  have h1 : metricMapping "cpu_usage" =
      some { measurement := "cpu", field := some "usage_percent" } := by
    simp [metricMapping]
  have h3 : "temperature" ∉
      ["cpu_usage", "memory_usage", "disk_usage", "system_load", "disk_io"] := by decide
  have h4 : "temperature" ∉ objectPrototypeKeys := by decide
  exact ⟨⟨h1, rfl, h3, h4⟩,
    (getHistoricalData_resolves true "metrics" "host1" (Except.ok failingBackend) "cpu_usage"
      "1h").2.2.1 failingBackend _ "unavailable" rfl h1 rfl,
    (getHistoricalData_resolves true "metrics" "host1" (Except.ok failingBackend) "temperature"
      "1h").2.1 failingBackend rfl h3 h4⟩

/-- C26, as stated, fails: with a store client, an exception thrown by
`getQueryApi` rejects the promise, and so does an exception thrown by
`queryRows`; and the key "constructor", which is not a mapped key, does not
resolve to the empty list at once but has its query issued, so that the
exception of `queryRows` rejects there too, while the key "temperature"
resolves to the empty list before any query. -/
theorem throwing_query_library_rejects :
    getHistoricalData true "metrics" "host1" (Except.error "getQueryApi failed") "cpu_usage"
        "1h" = PromiseResult.rejected "getQueryApi failed" ∧
      getHistoricalData true "metrics" "host1"
        (Except.ok (fun _ => { rows := [], outcome := QueryEnd.throws "queryRows failed" }))
        "cpu_usage" "1h" = PromiseResult.rejected "queryRows failed" ∧
      "constructor" ∉ ["cpu_usage", "memory_usage", "disk_usage", "system_load", "disk_io"] ∧
      getHistoricalData true "metrics" "host1"
        (Except.ok (fun _ => { rows := [], outcome := QueryEnd.throws "queryRows failed" }))
        "constructor" "1h" = PromiseResult.rejected "queryRows failed" ∧
      getHistoricalData true "metrics" "host1"
        (Except.ok (fun _ => { rows := [], outcome := QueryEnd.throws "queryRows failed" }))
        "temperature" "1h" = PromiseResult.resolved [] := by
  refine ⟨rfl, ?_, by decide, ?_, ?_⟩
  · simp [getHistoricalData, metricMapping]
  · simp [getHistoricalData, metricMapping, objectPrototypeKeys]
  · simp [getHistoricalData, metricMapping, objectPrototypeKeys]

/-! ## C27: the scheduler -/

theorem collectAndStore_scheduler_fields (m : SystemMonitor) (client : Bool) (c : Cycle) :
    (collectAndStore m client c).monitor.isCollecting = m.isCollecting ∧
      (collectAndStore m client c).monitor.collectionInterval = m.collectionInterval := by
  unfold collectAndStore
  cases c.sensors with
  | error e => exact ⟨rfl, rfl⟩
  | ok raw =>
    cases writeMetrics client c.store with
    | error e => exact ⟨rfl, rfl⟩
    | ok u => exact ⟨rfl, rfl⟩

theorem cycle_scheduler_fields (rt : Runtime) (c : Cycle) :
    (Runtime.cycle rt c).monitor.isCollecting = rt.monitor.isCollecting ∧
      (Runtime.cycle rt c).monitor.collectionInterval = rt.monitor.collectionInterval ∧
      (Runtime.cycle rt c).timers = rt.timers ∧
      (Runtime.cycle rt c).nextHandle = rt.nextHandle := by
  have h := collectAndStore_scheduler_fields rt.monitor rt.client c
  exact ⟨h.1, h.2, rfl, rfl⟩

theorem startCollecting_running (rt : Runtime) (intervalMs : ℕ) (c : Cycle)
    (h : rt.monitor.isCollecting = true) : startCollecting rt intervalMs c = rt := by
  unfold startCollecting
  rw [if_pos h]

theorem startCollecting_idle (rt : Runtime) (intervalMs : ℕ) (c : Cycle)
    (h : rt.monitor.isCollecting = false) :
    (startCollecting rt intervalMs c).monitor.isCollecting = true ∧
      (startCollecting rt intervalMs c).monitor.collectionInterval = some rt.nextHandle ∧
      (startCollecting rt intervalMs c).timers = (rt.nextHandle, intervalMs) :: rt.timers := by
  have hf := cycle_scheduler_fields
    { rt with monitor := { rt.monitor with isCollecting := true } } c
  unfold startCollecting
  rw [if_neg (by rw [h]; exact Bool.false_ne_true)]
  refine ⟨hf.1, ?_, ?_⟩
  · show some (Runtime.cycle
        { rt with monitor := { rt.monitor with isCollecting := true } } c).nextHandle =
      some rt.nextHandle
    rw [hf.2.2.2]
  · show ((Runtime.cycle
        { rt with monitor := { rt.monitor with isCollecting := true } } c).nextHandle,
        intervalMs) ::
        (Runtime.cycle { rt with monitor := { rt.monitor with isCollecting := true } } c).timers =
      (rt.nextHandle, intervalMs) :: rt.timers
    rw [hf.2.2.2, hf.2.2.1]

theorem stopCollecting_fields (rt : Runtime) :
    (stopCollecting rt).monitor.isCollecting = false ∧
      (stopCollecting rt).monitor.collectionInterval = none ∧
      (∀ handle, rt.monitor.collectionInterval = some handle →
        (stopCollecting rt).timers = rt.timers.filter (fun t => t.1 != handle)) ∧
      (rt.monitor.collectionInterval = none → (stopCollecting rt).timers = rt.timers) := by
  cases hi : rt.monitor.collectionInterval with
  | none =>
    have e : stopCollecting rt =
        { rt with monitor := { rt.monitor with isCollecting := false } } := by
      simp only [stopCollecting, hi]
    rw [e]
    exact ⟨rfl, hi, fun _ h => (by cases h), fun _ => rfl⟩
  | some handle =>
    have e : stopCollecting rt =
        { rt with
          timers := rt.timers.filter (fun t => t.1 != handle)
          monitor := { rt.monitor with collectionInterval := none, isCollecting := false } } := by
      simp only [stopCollecting, hi]
    rw [e]
    refine ⟨rfl, rfl, ?_, fun h => (by cases h)⟩
    intro handle2 h2
    cases h2
    rfl

/-- The scheduler invariant of a sequence of calls: when not collecting no
timer handle is held, and the armed timers are exactly the held handle. -/
theorem step_invariant (rt : Runtime) (call : Call)
    (h : (rt.monitor.isCollecting = false → rt.monitor.collectionInterval = none) ∧
      rt.timers.map Prod.fst = rt.monitor.collectionInterval.toList) :
    ((Runtime.step rt call).monitor.isCollecting = false →
        (Runtime.step rt call).monitor.collectionInterval = none) ∧
      (Runtime.step rt call).timers.map Prod.fst =
        (Runtime.step rt call).monitor.collectionInterval.toList := by
  cases call with
  | start intervalMs c =>
    show ((startCollecting rt intervalMs c).monitor.isCollecting = false →
        (startCollecting rt intervalMs c).monitor.collectionInterval = none) ∧
      (startCollecting rt intervalMs c).timers.map Prod.fst =
        (startCollecting rt intervalMs c).monitor.collectionInterval.toList
    cases hc : rt.monitor.isCollecting with
    | true => rw [startCollecting_running rt intervalMs c hc]; exact h
    | false =>
      obtain ⟨h1, h2, h3⟩ := startCollecting_idle rt intervalMs c hc
      have htimers : rt.timers = [] := by
        have := h.2
        rw [h.1 hc] at this
        simpa using this
      rw [h1, h2, h3, htimers]
      exact ⟨fun hf => (by cases hf), rfl⟩
  | stop =>
    show ((stopCollecting rt).monitor.isCollecting = false →
        (stopCollecting rt).monitor.collectionInterval = none) ∧
      (stopCollecting rt).timers.map Prod.fst =
        (stopCollecting rt).monitor.collectionInterval.toList
    obtain ⟨-, h2, h3, h4⟩ := stopCollecting_fields rt
    rw [h2]
    refine ⟨fun _ => rfl, ?_⟩
    cases hi : rt.monitor.collectionInterval with
    | none =>
      rw [h4 hi]
      have := h.2
      rw [hi] at this
      exact this
    | some handle =>
      rw [h3 handle hi]
      have hmap := h.2
      rw [hi] at hmap
      have htimers : rt.timers.filter (fun t => t.1 != handle) = [] := by
        rw [List.filter_eq_nil_iff]
        intro t ht
        have hm : t.1 ∈ rt.timers.map Prod.fst := List.mem_map_of_mem Prod.fst ht
        rw [hmap] at hm
        have : t.1 = handle := by simpa using hm
        simp [this]
      rw [htimers]
      rfl
  | tick c =>
    show ((if rt.timers.isEmpty then rt else Runtime.cycle rt c).monitor.isCollecting = false →
        (if rt.timers.isEmpty then rt else Runtime.cycle rt c).monitor.collectionInterval = none) ∧
      (if rt.timers.isEmpty then rt else Runtime.cycle rt c).timers.map Prod.fst =
        (if rt.timers.isEmpty then rt else Runtime.cycle rt c).monitor.collectionInterval.toList
    cases he : rt.timers.isEmpty with
    | true => simpa using h
    | false =>
      have hf := cycle_scheduler_fields rt c
      simp only [Bool.false_eq_true, if_false, hf.1, hf.2.1, hf.2.2.1]
      exact h

theorem run_invariant (calls : List Call) :
    ∀ rt : Runtime,
      ((rt.monitor.isCollecting = false → rt.monitor.collectionInterval = none) ∧
        rt.timers.map Prod.fst = rt.monitor.collectionInterval.toList) →
      (((Runtime.run rt calls).monitor.isCollecting = false →
          (Runtime.run rt calls).monitor.collectionInterval = none) ∧
        (Runtime.run rt calls).timers.map Prod.fst =
          (Runtime.run rt calls).monitor.collectionInterval.toList) := by
  induction calls with
  | nil => intro rt h; exact h
  | cons call rest ih =>
    intro rt h
    exact ih (Runtime.step rt call) (step_invariant rt call h)

theorem stopCollecting_idle (rt : Runtime) (h1 : rt.monitor.isCollecting = false)
    (h2 : rt.monitor.collectionInterval = none) : stopCollecting rt = rt := by
  obtain ⟨⟨th, la, pn, pd, ic, ci⟩, cl, ti, nh, em, no⟩ := rt
  simp only at h1 h2
  subst h1 h2
  rfl

theorem initial_invariant (thresholds : String → Option ℚ) (client : Bool) :
    ((Runtime.initial thresholds client).monitor.isCollecting = false →
        (Runtime.initial thresholds client).monitor.collectionInterval = none) ∧
      (Runtime.initial thresholds client).timers.map Prod.fst =
        (Runtime.initial thresholds client).monitor.collectionInterval.toList :=
  ⟨fun _ => rfl, rfl⟩

/-- C27, amended: in every state reached from the constructor by a sequence
of start, stop and timer calls of which none lands during the `await` of a
pending `startCollecting` (each runs to completion): `startCollecting` while
collecting leaves the whole state unchanged (no cycle is run, no timer is
armed); `stopCollecting` while not collecting leaves the whole state
unchanged; and after `stopCollecting` the monitor is not collecting, holds no
timer handle, and no timer is armed. -/
theorem scheduler_idempotent (thresholds : String → Option ℚ) (client : Bool)
    (calls : List Call) (intervalMs : ℕ) (c : Cycle) :
    ((Runtime.run (Runtime.initial thresholds client) calls).monitor.isCollecting = true →
        startCollecting (Runtime.run (Runtime.initial thresholds client) calls) intervalMs c =
          Runtime.run (Runtime.initial thresholds client) calls) ∧
      ((Runtime.run (Runtime.initial thresholds client) calls).monitor.isCollecting = false →
        stopCollecting (Runtime.run (Runtime.initial thresholds client) calls) =
          Runtime.run (Runtime.initial thresholds client) calls) ∧
      (stopCollecting (Runtime.run (Runtime.initial thresholds client) calls)).monitor.isCollecting
        = false ∧
      (stopCollecting
        (Runtime.run (Runtime.initial thresholds client) calls)).monitor.collectionInterval
        = none ∧
      (stopCollecting (Runtime.run (Runtime.initial thresholds client) calls)).timers = [] := by
  have hinv := run_invariant calls (Runtime.initial thresholds client)
    (initial_invariant thresholds client)
  have hstop := step_invariant (Runtime.run (Runtime.initial thresholds client) calls)
    Call.stop hinv
  have hf := stopCollecting_fields (Runtime.run (Runtime.initial thresholds client) calls)
  refine ⟨startCollecting_running _ intervalMs c, ?_, hf.1, hf.2.1, ?_⟩
  · intro h
    exact stopCollecting_idle _ h (hinv.1 h)
  · have h2 : (stopCollecting (Runtime.run (Runtime.initial thresholds client) calls)).timers.map
        Prod.fst = [] := by
      have := hstop.2
      simp only [Runtime.step] at this
      rw [this, hf.2.1]
      rfl
    exact List.map_eq_nil_iff.1 h2

/-- C27, witness: after one `startCollecting(2000)` the monitor is collecting
and a second `startCollecting(2000)` changes nothing; before any call the
monitor is not collecting and `stopCollecting` changes nothing. -/
theorem scheduler_idempotent_witness :
    ((Runtime.run (Runtime.initial defaultThresholds false)
          [Call.start 2000 (quietCycle 1000)]).monitor.isCollecting = true ∧
        (Runtime.run (Runtime.initial defaultThresholds false) []).monitor.isCollecting = false) ∧
      startCollecting (Runtime.run (Runtime.initial defaultThresholds false)
          [Call.start 2000 (quietCycle 1000)]) 2000 (quietCycle 3000) =
        Runtime.run (Runtime.initial defaultThresholds false)
          [Call.start 2000 (quietCycle 1000)] ∧
      stopCollecting (Runtime.run (Runtime.initial defaultThresholds false) []) =
        Runtime.run (Runtime.initial defaultThresholds false) [] := by
  have h1 : (Runtime.run (Runtime.initial defaultThresholds false)
      [Call.start 2000 (quietCycle 1000)]).monitor.isCollecting = true :=
    (startCollecting_idle (Runtime.initial defaultThresholds false) 2000 (quietCycle 1000) rfl).1
  have h2 : (Runtime.run (Runtime.initial defaultThresholds false) []).monitor.isCollecting =
      false := rfl
  exact ⟨⟨h1, h2⟩,
    (scheduler_idempotent defaultThresholds false [Call.start 2000 (quietCycle 1000)] 2000
      (quietCycle 3000)).1 h1,
    (scheduler_idempotent defaultThresholds false [] 2000 (quietCycle 3000)).2.1 h2⟩

/-- C27, as stated, fails when `stopCollecting` lands during the `await` of
a pending `startCollecting(2000)` (the first call after the constructor): the
stop finds no timer handle and clears the flag, and the resumed start arms its
timer all the same.  The monitor then reads as not collecting while a timer is
armed and its handle is held; a further `startCollecting` is not refused and
arms a second timer, and the `stopCollecting` after it leaves the first timer
armed. -/
theorem stop_during_pending_start :
    ((stopCollecting (startCollectingEnter (Runtime.initial defaultThresholds false)
          (quietCycle 1000))).monitor.isCollecting = false ∧
        (stopCollecting (startCollectingEnter (Runtime.initial defaultThresholds false)
          (quietCycle 1000))).timers = []) ∧
      ((startCollectingResume (stopCollecting (startCollectingEnter
          (Runtime.initial defaultThresholds false) (quietCycle 1000))) 2000).monitor.isCollecting
          = false ∧
        (startCollectingResume (stopCollecting (startCollectingEnter
          (Runtime.initial defaultThresholds false) (quietCycle 1000))) 2000).monitor.collectionInterval
          = some 0 ∧
        (startCollectingResume (stopCollecting (startCollectingEnter
          (Runtime.initial defaultThresholds false) (quietCycle 1000))) 2000).timers
          = [(0, 2000)]) ∧
      ((startCollecting (startCollectingResume (stopCollecting (startCollectingEnter
          (Runtime.initial defaultThresholds false) (quietCycle 1000))) 2000) 2000
          (quietCycle 5000)).timers = [(1, 2000), (0, 2000)] ∧
        (stopCollecting (startCollecting (startCollectingResume (stopCollecting
          (startCollectingEnter (Runtime.initial defaultThresholds false) (quietCycle 1000)))
          2000) 2000 (quietCycle 5000))).monitor.isCollecting = false ∧
        (stopCollecting (startCollecting (startCollectingResume (stopCollecting
          (startCollectingEnter (Runtime.initial defaultThresholds false) (quietCycle 1000)))
          2000) 2000 (quietCycle 5000))).timers = [(0, 2000)]) := by
  have hf := cycle_scheduler_fields
    { Runtime.initial defaultThresholds false with
      monitor := { (Runtime.initial defaultThresholds false).monitor with isCollecting := true } }
    (quietCycle 1000)
  have he1 : (startCollectingEnter (Runtime.initial defaultThresholds false)
      (quietCycle 1000)).monitor.collectionInterval = none := hf.2.1
  have he2 : (startCollectingEnter (Runtime.initial defaultThresholds false)
      (quietCycle 1000)).timers = [] := hf.2.2.1
  have he3 : (startCollectingEnter (Runtime.initial defaultThresholds false)
      (quietCycle 1000)).nextHandle = 0 := hf.2.2.2
  have hs := stopCollecting_fields (startCollectingEnter (Runtime.initial defaultThresholds false)
    (quietCycle 1000))
  have hs3 : (stopCollecting (startCollectingEnter (Runtime.initial defaultThresholds false)
      (quietCycle 1000))).timers = [] := by rw [hs.2.2.2 he1, he2]
  have hs4 : (stopCollecting (startCollectingEnter (Runtime.initial defaultThresholds false)
      (quietCycle 1000))).nextHandle = 0 := by
    have e : stopCollecting (startCollectingEnter (Runtime.initial defaultThresholds false)
        (quietCycle 1000)) =
        { startCollectingEnter (Runtime.initial defaultThresholds false) (quietCycle 1000) with
          monitor := { (startCollectingEnter (Runtime.initial defaultThresholds false)
            (quietCycle 1000)).monitor with isCollecting := false } } := by
      simp only [stopCollecting, he1]
    rw [e]
    exact he3
  have hr1 : (startCollectingResume (stopCollecting (startCollectingEnter
      (Runtime.initial defaultThresholds false) (quietCycle 1000))) 2000).monitor.isCollecting =
      false := hs.1
  have hr2 : (startCollectingResume (stopCollecting (startCollectingEnter
      (Runtime.initial defaultThresholds false) (quietCycle 1000))) 2000).monitor.collectionInterval
      = some 0 := by
    show some (stopCollecting (startCollectingEnter (Runtime.initial defaultThresholds false)
      (quietCycle 1000))).nextHandle = some 0
    rw [hs4]
  have hr3 : (startCollectingResume (stopCollecting (startCollectingEnter
      (Runtime.initial defaultThresholds false) (quietCycle 1000))) 2000).timers =
      [(0, 2000)] := by
    show ((stopCollecting (startCollectingEnter (Runtime.initial defaultThresholds false)
        (quietCycle 1000))).nextHandle, 2000) ::
      (stopCollecting (startCollectingEnter (Runtime.initial defaultThresholds false)
        (quietCycle 1000))).timers = [(0, 2000)]
    rw [hs4, hs3]
  have hr4 : (startCollectingResume (stopCollecting (startCollectingEnter
      (Runtime.initial defaultThresholds false) (quietCycle 1000))) 2000).nextHandle = 1 := by
    show (stopCollecting (startCollectingEnter (Runtime.initial defaultThresholds false)
        (quietCycle 1000))).nextHandle + 1 = 1
    rw [hs4]
  obtain ⟨-, h2, h3⟩ := startCollecting_idle (startCollectingResume (stopCollecting
    (startCollectingEnter (Runtime.initial defaultThresholds false) (quietCycle 1000))) 2000)
    2000 (quietCycle 5000) hr1
  rw [hr4] at h2
  rw [hr4, hr3] at h3
  have hs2 := stopCollecting_fields (startCollecting (startCollectingResume (stopCollecting
    (startCollectingEnter (Runtime.initial defaultThresholds false) (quietCycle 1000))) 2000)
    2000 (quietCycle 5000))
  refine ⟨⟨hs.1, hs3⟩, ⟨hr1, hr2, hr3⟩, h3, hs2.1, ?_⟩
  rw [hs2.2.2.1 1 h2, h3]
  rfl

/-! ## Lemmas on the collection cycle -/

theorem writeMetrics_eq_error (client : Bool) (lib : WriteBehaviour) (e : String) :
    writeMetrics client lib = Except.error e ↔ client = true ∧ lib = WriteBehaviour.throws e := by
  cases client <;> cases lib <;> simp [writeMetrics]

theorem writeMetrics_rejectsLater (client : Bool) (e : String) :
    writeMetrics client (WriteBehaviour.rejectsLater e) = Except.ok () := by
  cases client <;> rfl

theorem collectAndStore_sensor_error (m : SystemMonitor) (client : Bool) (c : Cycle)
    (e : String) (hs : c.sensors = Except.error e) :
    collectAndStore m client c =
      { monitor := m,
        emitted := [{ event := "collection_error", payload := Payload.error e }],
        notified := [] } := by
  simp only [collectAndStore, hs]

theorem collectAndStore_store_error (m : SystemMonitor) (client : Bool) (c : Cycle)
    (raw : RawReading) (e : String) (hs : c.sensors = Except.ok raw)
    (hw : writeMetrics client c.store = Except.error e) :
    collectAndStore m client c =
      { monitor := (collectRates m raw c.timestamp).1,
        emitted := [{ event := "collection_error", payload := Payload.error e }],
        notified := [] } := by
  simp only [collectAndStore, hs, hw]

theorem collectAndStore_ok (m : SystemMonitor) (client : Bool) (c : Cycle)
    (raw : RawReading) (hs : c.sensors = Except.ok raw)
    (hw : writeMetrics client c.store = Except.ok ()) :
    collectAndStore m client c =
      { monitor := (checkThresholds (collectRates m raw c.timestamp).1
          (collectMetrics raw) c.now).1,
        emitted := [{ event := "cpu_data",
                      payload := Payload.snapshot
                        (buildSnapshot raw (collectRates m raw c.timestamp).2 c.timestamp) }],
        notified := (checkThresholds (collectRates m raw c.timestamp).1
          (collectMetrics raw) c.now).2 } := by
  simp only [collectAndStore, hs, hw, buildSnapshot]

/-- The only events that a cycle emits on the socket channel. -/
theorem collectAndStore_events (m : SystemMonitor) (client : Bool) (c : Cycle) :
    (collectAndStore m client c).emitted.map Emission.event = ["cpu_data"] ∨
      (collectAndStore m client c).emitted.map Emission.event = ["collection_error"] := by
  cases hs : c.sensors with
  | error e => right; rw [collectAndStore_sensor_error m client c e hs]; rfl
  | ok raw =>
    cases hw : writeMetrics client c.store with
    | error e => right; rw [collectAndStore_store_error m client c raw e hs hw]; rfl
    | ok u => left; rw [collectAndStore_ok m client c raw hs hw]; rfl

theorem withDefaults_same (raw : RawReading) :
    (withDefaults raw).netData.getD [] = raw.netData.getD [] ∧
      (withDefaults raw).diskIoData.getD { rIO_sec := some 0, wIO_sec := some 0 } =
        raw.diskIoData.getD { rIO_sec := some 0, wIO_sec := some 0 } ∧
      cpuOf (withDefaults raw) = cpuOf raw ∧
      memoryOf (withDefaults raw) = memoryOf raw ∧
      filesystemsOf (withDefaults raw) = filesystemsOf raw ∧
      processesOf (withDefaults raw) = processesOf raw ∧
      connectionsOf (withDefaults raw) = connectionsOf raw :=
  ⟨rfl, rfl, rfl, rfl, rfl, rfl, rfl⟩

theorem collectAndStore_withDefaults (m : SystemMonitor) (client : Bool) (c : Cycle)
    (raw : RawReading) (hs : c.sensors = Except.ok raw) :
    collectAndStore m client c =
      collectAndStore m client { c with sensors := Except.ok (withDefaults raw) } := by
  have hr : collectRates m (withDefaults raw) c.timestamp = collectRates m raw c.timestamp := rfl
  have hm : collectMetrics (withDefaults raw) = collectMetrics raw := rfl
  have hb : ∀ rates, buildSnapshot (withDefaults raw) rates c.timestamp =
      buildSnapshot raw rates c.timestamp := fun _ => rfl
  simp only [collectAndStore, hs, hr, hb]

theorem collectMetrics_allFailed :
    collectMetrics allFailed =
      { cpu_usage := some 0, memory_usage := some 0, disk_usage := some 0,
        load_average_1m := some 0 } := by
  simp only [collectMetrics, allFailed, cpuOf, memoryOf, filesystemsOf, Option.getD_none,
    cpuUsage, memoryUsage, rootDisk, List.find?, List.head?, diskUsage, loadAverage1m, orOne,
    jsRound, Option.getD_some]
  norm_num

theorem keyOutcome_zero_value (k : String) (threshold : Option ℚ) (lastAlert : Option ℤ)
    (now : ℤ) (h : ∀ t, threshold = some t → 0 ≤ t) :
    keyOutcome k threshold (some 0) lastAlert now = none := by
  cases threshold with
  | none => rfl
  | some t =>
    have ht := h t rfl
    simp only [keyOutcome]
    rw [if_neg]
    rintro ⟨-, hgt⟩
    exact absurd hgt (not_lt.2 ht)

/-! ## C22: failed sensors -/

/-- C22, amended: for every combination of rejected sensor calls the cycle is
the cycle in which each of them had returned its fallback; when
`writeMetrics` returns, exactly one event is emitted, the snapshot, and no
cycle failure.  When every sensor call is rejected the snapshot has
cpu_usage, memory_usage, disk_usage, load_average_1m, process_count and
connection_count all 0, and no alert is produced provided no configured
threshold is negative. -/
theorem failed_sensors_defaults (m : SystemMonitor) (client : Bool) (c : Cycle)
    (raw : RawReading) (hs : c.sensors = Except.ok raw) :
    collectAndStore m client c =
        collectAndStore m client { c with sensors := Except.ok (withDefaults raw) } ∧
      (writeMetrics client c.store = Except.ok () →
        (collectAndStore m client c).emitted.map Emission.event = ["cpu_data"] ∧
        (raw = allFailed →
          (∃ s, (collectAndStore m client c).emitted =
              [{ event := "cpu_data", payload := Payload.snapshot s }] ∧
            s.metrics.cpu_usage = some 0 ∧ s.metrics.memory_usage = some 0 ∧
            s.metrics.disk_usage = some 0 ∧ s.metrics.load_average_1m = some 0 ∧
            s.process_count = 0 ∧ s.connection_count = 0) ∧
          ((∀ k t, m.thresholds k = some t → 0 ≤ t) →
            (collectAndStore m client c).notified = []))) := by
  refine ⟨collectAndStore_withDefaults m client c raw hs, ?_⟩
  intro hw
  have hok := collectAndStore_ok m client c raw hs hw
  refine ⟨by rw [hok]; rfl, ?_⟩
  intro hall
  subst hall
  constructor
  · refine ⟨buildSnapshot allFailed (collectRates m allFailed c.timestamp).2 c.timestamp,
      by rw [hok], ?_⟩
    have hmet : (buildSnapshot allFailed (collectRates m allFailed c.timestamp).2
        c.timestamp).metrics = collectMetrics allFailed := rfl
    rw [hmet, collectMetrics_allFailed]
    exact ⟨rfl, rfl, rfl, rfl, rfl, rfl⟩
  · intro hth
    rw [hok]
    show (checkThresholds (collectRates m allFailed c.timestamp).1
      (collectMetrics allFailed) c.now).2 = []
    rw [checkThresholds_alerts, collectMetrics_allFailed]
    have hsame : (collectRates m allFailed c.timestamp).1.thresholds = m.thresholds := rfl
    simp only [thresholdChecks, List.filterMap_cons, List.filterMap_nil, hsame,
      keyOutcome_zero_value _ _ _ _ (fun t ht => hth _ t ht)]

/-- C22, witness: every sensor call rejected, on the default thresholds with
no store client. -/
theorem failed_sensors_defaults_witness :
    ((quietCycle 1000).sensors = Except.ok allFailed ∧
        writeMetrics false (quietCycle 1000).store = Except.ok () ∧
        (∀ k t, (SystemMonitor.new defaultThresholds).thresholds k = some t → 0 ≤ t)) ∧
      (collectAndStore (SystemMonitor.new defaultThresholds) false
        (quietCycle 1000)).emitted.map Emission.event = ["cpu_data"] ∧
      (collectAndStore (SystemMonitor.new defaultThresholds) false
        (quietCycle 1000)).notified = [] := by
  have h3 : ∀ k t, (SystemMonitor.new defaultThresholds).thresholds k = some t → 0 ≤ t := by
    intro k t h
    simp only [SystemMonitor.new, defaultThresholds] at h
    split_ifs at h <;> simp only [Option.some.injEq] at h <;> subst h <;> norm_num
  have h := (failed_sensors_defaults (SystemMonitor.new defaultThresholds) false
    (quietCycle 1000) allFailed rfl).2 rfl
  exact ⟨⟨rfl, rfl, h3⟩, h.1, (h.2 rfl).2 h3⟩

/-- C22, as stated, fails for a negative threshold: with the threshold set
{cpu_usage: -5} a cycle in which every sensor call is rejected reports
cpu_usage 0 > -5 and produces an alert. -/
theorem all_failed_alerts_on_negative_threshold :
    (collectAndStore (SystemMonitor.new (singleThreshold "cpu_usage" (-5))) false
        (quietCycle 1000)).notified =
      [{ type := "cpu_usage", value := 0, threshold := -5, severity := "critical" }] := by
  rw [collectAndStore_ok _ false (quietCycle 1000) allFailed rfl rfl]
  show (checkThresholds (collectRates (SystemMonitor.new (singleThreshold "cpu_usage" (-5)))
    allFailed (quietCycle 1000).timestamp).1 (collectMetrics allFailed) (quietCycle 1000).now).2 = _
  have h := (checkThresholds_single_cpu
    (collectRates (SystemMonitor.new (singleThreshold "cpu_usage" (-5))) allFailed
      (quietCycle 1000).timestamp).1 (collectMetrics allFailed) (quietCycle 1000).now (-5) rfl).1
  rw [h, collectMetrics_allFailed]
  have hla : (collectRates (SystemMonitor.new (singleThreshold "cpu_usage" (-5))) allFailed
      (quietCycle 1000).timestamp).1.lastAlerts "cpu_usage" = none := rfl
  rw [hla]
  simp [keyOutcome, suppressionElapsed, severityOf_neg5]

/-! ## C23: a failure inside the cycle -/

/-- C23: for every failure raised inside a cycle (the sensor fan-in throws, or
a call of the store library throws while `writeMetrics` runs), the cycle
returns, emits exactly one event, `collection_error`, leaves the scheduler
fields and the armed timers as they are, and the next timer tick still runs a
cycle. -/
theorem cycle_failure_caught (rt : Runtime) (c : Cycle) (e : String)
    (hfail : c.sensors = Except.error e ∨
      ∃ raw, c.sensors = Except.ok raw ∧ rt.client = true ∧
        c.store = WriteBehaviour.throws e) :
    (collectAndStore rt.monitor rt.client c).emitted.map Emission.event =
        ["collection_error"] ∧
      (Runtime.cycle rt c).monitor.isCollecting = rt.monitor.isCollecting ∧
      (Runtime.cycle rt c).monitor.collectionInterval = rt.monitor.collectionInterval ∧
      (Runtime.cycle rt c).timers = rt.timers ∧
      (rt.timers ≠ [] → ∀ next : Cycle,
        Runtime.step (Runtime.cycle rt c) (Call.tick next) =
          Runtime.cycle (Runtime.cycle rt c) next) := by
  have hf := cycle_scheduler_fields rt c
  refine ⟨?_, hf.1, hf.2.1, hf.2.2.1, ?_⟩
  · rcases hfail with hs | ⟨raw, hs, hc, hst⟩
    · rw [collectAndStore_sensor_error _ _ c e hs]
      rfl
    · rw [collectAndStore_store_error _ _ c raw e hs
        ((writeMetrics_eq_error _ _ e).2 ⟨hc, hst⟩)]
      rfl
  · intro hne next
    have hempty : (Runtime.cycle rt c).timers.isEmpty = false := by
      rw [hf.2.2.1]
      cases ht : rt.timers with
      | nil => exact absurd ht hne
      | cons a l => rfl
    simp only [Runtime.step, hempty, Bool.false_eq_true, if_false]

/-- C23, witness: a started scheduler whose next cycle has a throwing sensor
fan-in. -/
theorem cycle_failure_caught_witness :
    ((brokenCycle 3000 "boom").sensors = Except.error "boom" ∧
        (startCollecting (Runtime.initial defaultThresholds false) 2000
          (quietCycle 1000)).timers ≠ []) ∧
      (collectAndStore
          (startCollecting (Runtime.initial defaultThresholds false) 2000
            (quietCycle 1000)).monitor
          (startCollecting (Runtime.initial defaultThresholds false) 2000
            (quietCycle 1000)).client
          (brokenCycle 3000 "boom")).emitted.map Emission.event = ["collection_error"] ∧
      (Runtime.cycle
          (startCollecting (Runtime.initial defaultThresholds false) 2000 (quietCycle 1000))
          (brokenCycle 3000 "boom")).monitor.isCollecting = true := by
  have hstart := startCollecting_idle (Runtime.initial defaultThresholds false) 2000
    (quietCycle 1000) rfl
  have hne : (startCollecting (Runtime.initial defaultThresholds false) 2000
      (quietCycle 1000)).timers ≠ [] := by
    rw [hstart.2.2]
    exact List.cons_ne_nil _ _
  have h := cycle_failure_caught
    (startCollecting (Runtime.initial defaultThresholds false) 2000 (quietCycle 1000))
    (brokenCycle 3000 "boom") "boom" (Or.inl rfl)
  exact ⟨⟨rfl, hne⟩, h.1, h.2.1.trans hstart.1⟩

/-! ## C24: a failing store write -/

/-- C24, amended: for every cycle whose sensor fan-in returns and whose store
write fails after `writeMetrics` has returned (the write request is
rejected), exactly one event is emitted, `cpu_data` with the snapshot of the
cycle, and no `collection_error`. -/
theorem store_rejection_keeps_broadcast (m : SystemMonitor) (client : Bool) (c : Cycle)
    (raw : RawReading) (e : String) (hs : c.sensors = Except.ok raw)
    (hstore : c.store = WriteBehaviour.rejectsLater e) :
    (collectAndStore m client c).emitted.map Emission.event = ["cpu_data"] ∧
      (collectAndStore m client c).emitted =
        [{ event := "cpu_data",
           payload := Payload.snapshot
             (buildSnapshot raw (collectRates m raw c.timestamp).2 c.timestamp) }] := by
  have hw : writeMetrics client c.store = Except.ok () := by
    rw [hstore]
    exact writeMetrics_rejectsLater client e
  rw [collectAndStore_ok m client c raw hs hw]
  exact ⟨rfl, rfl⟩

/-- C24, witness: a cycle with a configured client whose write request is
rejected. -/
theorem store_rejection_keeps_broadcast_witness :
    ((cycleOf 1000 allFailed (WriteBehaviour.rejectsLater "timeout")).sensors =
          Except.ok allFailed ∧
        (cycleOf 1000 allFailed (WriteBehaviour.rejectsLater "timeout")).store =
          WriteBehaviour.rejectsLater "timeout") ∧
      (collectAndStore (SystemMonitor.new defaultThresholds) true
        (cycleOf 1000 allFailed (WriteBehaviour.rejectsLater "timeout"))).emitted.map
          Emission.event = ["cpu_data"] :=
  ⟨⟨rfl, rfl⟩,
   (store_rejection_keeps_broadcast (SystemMonitor.new defaultThresholds) true
     (cycleOf 1000 allFailed (WriteBehaviour.rejectsLater "timeout")) allFailed "timeout"
     rfl rfl).1⟩

/-- C24, as stated, fails when `writeMetrics` itself fails: with a configured
client and a library call that throws while `writeMetrics` runs, the only
event of the cycle is `collection_error`; the snapshot is not broadcast and
no alert is evaluated. -/
theorem throwing_store_suppresses_broadcast :
    (collectAndStore (SystemMonitor.new defaultThresholds) true
        (cycleOf 1000 allFailed (WriteBehaviour.throws "invalid float value"))).emitted.map
          Emission.event = ["collection_error"] ∧
      (collectAndStore (SystemMonitor.new defaultThresholds) true
        (cycleOf 1000 allFailed (WriteBehaviour.throws "invalid float value"))).notified = [] := by
  rw [collectAndStore_store_error (SystemMonitor.new defaultThresholds) true
    (cycleOf 1000 allFailed (WriteBehaviour.throws "invalid float value")) allFailed
    "invalid float value" rfl rfl]
  exact ⟨rfl, rfl⟩

/-! ## C25: publication of alerts -/

/-- C25 at a cycle that produces an alert: with the default thresholds and a
reported CPU load of 85 the cycle hands one alert (cpu_usage, "warning") to
the notification sink, and the only event it emits on the subscriber channel
is `cpu_data`: no `alert` event is emitted. -/
theorem alert_not_emitted_to_subscribers :
    (collectAndStore (SystemMonitor.new defaultThresholds) false
        (cycleOf 1000 (cpuReading 85) WriteBehaviour.completes)).notified =
        [{ type := "cpu_usage", value := 85, threshold := 80, severity := "warning" }] ∧
      (collectAndStore (SystemMonitor.new defaultThresholds) false
        (cycleOf 1000 (cpuReading 85) WriteBehaviour.completes)).emitted.map Emission.event =
        ["cpu_data"] ∧
      "alert" ∉ (collectAndStore (SystemMonitor.new defaultThresholds) false
        (cycleOf 1000 (cpuReading 85) WriteBehaviour.completes)).emitted.map Emission.event := by
  have hok := collectAndStore_ok (SystemMonitor.new defaultThresholds) false
    (cycleOf 1000 (cpuReading 85) WriteBehaviour.completes) (cpuReading 85) rfl rfl
  have hmet : collectMetrics (cpuReading 85) =
      { cpu_usage := some 85, memory_usage := some 0, disk_usage := some 0,
        load_average_1m := some 0 } := by
    simp only [collectMetrics, cpuReading, cpuOf, memoryOf, filesystemsOf, Option.getD_none,
      Option.getD_some, cpuUsage, memoryUsage, rootDisk, List.find?, List.head?, diskUsage,
      loadAverage1m, orOne, jsRound, Option.bind]
    norm_num [Int.floor_eq_iff]
  have hev : (collectAndStore (SystemMonitor.new defaultThresholds) false
      (cycleOf 1000 (cpuReading 85) WriteBehaviour.completes)).emitted.map Emission.event =
      ["cpu_data"] := by
    rw [hok]; rfl
  refine ⟨?_, hev, by rw [hev]; decide⟩
  rw [hok]
  show (checkThresholds (collectRates (SystemMonitor.new defaultThresholds) (cpuReading 85)
    (cycleOf 1000 (cpuReading 85) WriteBehaviour.completes).timestamp).1
    (collectMetrics (cpuReading 85))
    (cycleOf 1000 (cpuReading 85) WriteBehaviour.completes).now).2 = _
  rw [checkThresholds_alerts, hmet]
  have hth : (collectRates (SystemMonitor.new defaultThresholds) (cpuReading 85)
      (cycleOf 1000 (cpuReading 85) WriteBehaviour.completes).timestamp).1.thresholds =
      defaultThresholds := rfl
  have hla : (collectRates (SystemMonitor.new defaultThresholds) (cpuReading 85)
      (cycleOf 1000 (cpuReading 85) WriteBehaviour.completes).timestamp).1.lastAlerts =
      fun _ => none := rfl
  simp only [thresholdChecks, List.filterMap_cons, List.filterMap_nil, hth, hla]
  simp [keyOutcome, defaultThresholds, suppressionElapsed, severityOf_80]
  norm_num

end CPUMonitor
